import Mathlib

/-! xpu-scheduler-extender: node/device capacity cache

A shallow embedding of `pkg/utils` (`const.go`, `pod.go`, `node.go`) and `pkg/cache`
(`devices.go`, `nodes.go`).

Conventions of the embedding:

* Go `int` and `uint` are 64 bits wide.  An `int` is an `Int` kept in range by `wrapInt`,
  a `uint` is a `Nat` kept in range by `% 2 ^ 64`; the conversion `uint(x)` is `toUint`.
* A Go `map[K]V` is an association list `GoMap K V`; `GoMap.set` overwrites the entry of an
  existing key in place and appends a new key, `GoMap.delete` drops the key, `GoMap.get?` is
  the two-valued lookup `v, ok := m[k]`.
* A Go `error` is its message; a nil-able error is an `Option String`.
* Pointers to pods and devices are replaced by the values they point to; a mutation through
  a pointer stored in a map is a `GoMap.set` at the same key.
* Logging is dropped.  Locks are dropped: every operation is modelled as running alone.
-/

namespace XPU

/-! ## Machine integers -/

/-- The number of values of a 64-bit word. -/
def wordSize : Nat := 2 ^ 64

/-- Largest value of Go `int`. -/
def maxInt : Int := 2 ^ 63 - 1

/-- Smallest value of Go `int`. -/
def minInt : Int := -(2 ^ 63)

/-- Two's-complement wrap of an integer into the range of Go `int`. -/
def wrapInt (x : Int) : Int := (x + 2 ^ 63) % 2 ^ 64 - 2 ^ 63

/-- The conversion `uint(x)` of an `int`. -/
def toUint (x : Int) : Nat := (x % 2 ^ 64).toNat

/-- Addition of two `uint`s. -/
def uadd (a b : Nat) : Nat := (a + b) % wordSize

/-- Subtraction of two `uint`s. -/
def usub (a b : Nat) : Nat := (((a : Int) - (b : Int)) % 2 ^ 64).toNat

/-- Addition of two `int`s. -/
def iadd (a b : Int) : Int := wrapInt (a + b)

/-- Quotient `a / b` of two `int`s for a non-zero divisor: truncated towards zero. -/
def idiv (a b : Int) : Int := wrapInt (Int.tdiv a b)

/-! ## Go maps -/

/-- A Go map as an association list. -/
abbrev GoMap (K V : Type) := List (K × V)

namespace GoMap

variable {K V : Type} [DecidableEq K]

/-- The two-valued lookup `v, ok := m[k]`. -/
def get? (m : GoMap K V) (k : K) : Option V :=
  (m.find? (fun p => decide (p.1 = k))).map Prod.snd

/-- The assignment `m[k] = v`. -/
def set : GoMap K V → K → V → GoMap K V
  | [], k, v => [(k, v)]
  | (k', v') :: rest, k, v => if k' = k then (k, v) :: rest else (k', v') :: set rest k v

/-- The statement `delete(m, k)`. -/
def delete (m : GoMap K V) (k : K) : GoMap K V :=
  m.filter (fun p => decide (p.1 ≠ k))

/-- The keys of the map. -/
def keys (m : GoMap K V) : List K := m.map Prod.fst

end GoMap

/-! ## `strconv.Atoi`, `fmt.Sprintf("%d", _)`, `strings.Split(_, ",")` -/

/-- Value of a decimal digit character. -/
def digitVal (c : Char) : Option Nat :=
  if 48 ≤ c.toNat ∧ c.toNat ≤ 57 then some (c.toNat - 48) else none

/-- Value of a string of decimal digits read after the accumulated value `acc`, without a
bound; `none` when a character is not a digit.  It serves to state what the loop of
`strconv.ParseUint` computes. -/
def parseDigits : List Char → Nat → Option Nat
  | [], acc => some acc
  | c :: cs, acc =>
    match digitVal c with
    | some d => parseDigits cs (acc * 10 + d)
    | none => none

/-- The largest `uint64`. -/
def maxUint64 : Nat := 2 ^ 64 - 1

/-- What `strconv.ParseUint(s, 10, 64)` returns: a value, a syntax error (with value 0), or
a range error (with value `maxUint64`). -/
inductive UintResult where
  | value (n : Nat)
  | syntaxError
  | rangeError
  deriving DecidableEq, Repr

/-- The loop of `strconv.ParseUint` in base 10 over the characters of the string, `n` being
the value read so far.  It returns at the first character that is not a digit with a syntax
error, and at the first digit with which the value leaves the range of `uint64` with a range
error, whatever follows. -/
def parseUintLoop : List Char → Nat → UintResult
  | [], n => .value n
  | c :: cs, n =>
    match digitVal c with
    | none => .syntaxError
    | some d =>
      if n ≥ maxUint64 / 10 + 1 then .rangeError
      else if n * 10 + d > maxUint64 then .rangeError
      else parseUintLoop cs (n * 10 + d)

/-- The function `strconv.ParseUint(s, 10, 64)`; the empty string is a syntax error. -/
def ParseUint (cs : List Char) : UintResult :=
  match cs with
  | [] => .syntaxError
  | _ :: _ => parseUintLoop cs 0

/-- The function `strconv.Atoi` on a 64-bit platform: the value and whether an error is
returned.  It is `strconv.ParseInt(s, 10, 0)`: a leading sign is taken off, the rest goes
through `ParseUint`; a syntax error gives value `0`, a range error or a value outside the
range of `int` gives the nearest bound and an error.  (The fast path of `Atoi` for strings
shorter than 19 bytes returns the same on them.  Characters outside ASCII are bytes that are
not digits.) -/
def Atoi (s : String) : Int × Bool :=
  match s.data with
  | [] => (0, true)
  | c :: cs =>
    let neg : Bool := decide (c = '-')
    match ParseUint (if c = '+' ∨ c = '-' then cs else c :: cs) with
    | .syntaxError => (0, true)
    | .rangeError => if neg then (minInt, true) else (maxInt, true)
    | .value un =>
      if neg = false ∧ un ≥ 2 ^ 63 then (maxInt, true)
      else if neg = true ∧ un > 2 ^ 63 then (minInt, true)
      else (if neg then -(un : Int) else (un : Int), false)

/-- The character of a decimal digit. -/
def digitChar (d : Nat) : Char := Char.ofNat (48 + d)

/-- Decimal digits of `n`, most significant first, in front of `acc`. -/
def natDigits : Nat → Nat → List Char → List Char
  | 0, _, acc => acc
  | fuel + 1, n, acc =>
    if n / 10 = 0 then digitChar (n % 10) :: acc
    else natDigits fuel (n / 10) (digitChar (n % 10) :: acc)

/-- Decimal form of a natural number. -/
def fmtNat (n : Nat) : List Char := natDigits (n + 1) n []

/-- The call `fmt.Sprintf("%d", x)` for an integer. -/
def fmtInt (x : Int) : String :=
  if x < 0 then String.mk ('-' :: fmtNat x.natAbs) else String.mk (fmtNat x.toNat)

/-- The pieces of a character list between commas. -/
def splitComma : List Char → List (List Char)
  | [] => [[]]
  | c :: cs =>
    if c = ',' then [] :: splitComma cs
    else
      match splitComma cs with
      | [] => [[c]]
      | h :: t => (c :: h) :: t

/-- The call `strings.Split(s, ",")`. -/
def stringsSplit (s : String) : List String := (splitComma s.data).map String.mk

/-! ## `pkg/utils/const.go` -/

def ResourceName : String := "openxpu.com/xpu-shares"
def CountName : String := "openxpu.com/xpu-counts"
def EnvResourceIndex : String := "OPENXPU_XPU_SHARES_INDEX"
def EnvResourceByPod : String := "OPENXPU_XPU_SHARES_POD"
def EnvResourceByDev : String := "OPENXPU_XPU_SHARES_TOTAL"
def EnvAssignedFlag : String := "OPENXPU_XPU_SHARES_ALLOCATED"
def EnvResourceAssumeTime : String := "OPENXPU_XPU_SHARES_FILTER_STAMP"

/-! ## Kubernetes records -/

/-- The fields of `v1.Container` that the program reads: the name and the resource limits
(each quantity by its `Value()`). -/
structure Container where
  name : String
  limits : GoMap String Int
  deriving DecidableEq, Repr

/-- The fields of `v1.Pod` that the program reads or writes. -/
structure Pod where
  uid : String
  name : String
  ns : String
  nodeName : String
  annotations : GoMap String String
  containers : List Container
  phase : String
  deletionTimestamp : Option Int
  deriving DecidableEq, Repr

/-- The fields of `v1.Node` that the program reads: the name and `Status.Capacity`. -/
structure Node where
  name : String
  capacity : GoMap String Int
  deriving DecidableEq, Repr

/-- The fields of `v1.ConfigMap` that the program reads. -/
structure ConfigMap where
  data : GoMap String String
  deriving DecidableEq, Repr

def PodSucceeded : String := "Succeeded"
def PodFailed : String := "Failed"

/-! ## `pkg/utils/pod.go` -/

/-- The function `GetGPUIDFromAnnotation`. -/
def GetGPUIDFromAnnotation (pod : Pod) : Int :=
  if pod.annotations.length > 0 then
    match pod.annotations.get? EnvResourceIndex with
    | some value =>
      let r := Atoi value
      if r.2 then -1 else r.1
    | none => -1
  else -1

/-- The function `GetXPUSharesFromPodAnnotation`. -/
def GetXPUSharesFromPodAnnotation (pod : Pod) : Nat :=
  if pod.annotations.length > 0 then
    match pod.annotations.get? EnvResourceByPod with
    | some value =>
      let s := (Atoi value).1
      let s := if s < 0 then 0 else s
      uadd 0 (toUint s)
    | none => 0
  else 0

/-- The function `GetRequestXPUSharesFromPodResource`. -/
def GetRequestXPUSharesFromPodResource (pod : Pod) : Int :=
  pod.containers.foldl
    (fun total container =>
      match container.limits.get? ResourceName with
      | some val => iadd total (wrapInt val)
      | none => total)
    0

/-- The function `GetUpdatedPodAnnotationSpec`; `now` is the reading `time.Now().UnixNano()`. -/
def GetUpdatedPodAnnotationSpec (oldPod : Pod) (devId : Int) (totalXPUSharesByDev : Int)
    (now : Int) : Pod :=
  let newPod := oldPod
  let a := newPod.annotations
  let a := a.set EnvResourceIndex (fmtInt devId)
  let a := a.set EnvResourceByDev (fmtInt totalXPUSharesByDev)
  let a := a.set EnvResourceByPod (fmtInt (GetRequestXPUSharesFromPodResource newPod))
  let a := a.set EnvAssignedFlag "false"
  let a := a.set EnvResourceAssumeTime (fmtInt now)
  { newPod with annotations := a }

/-- The function `AssignedNonTerminatedPod`. -/
def AssignedNonTerminatedPod (pod : Pod) : Bool :=
  if pod.deletionTimestamp.isSome then false
  else if pod.nodeName.length = 0 then false
  else if pod.phase = PodSucceeded ∨ pod.phase = PodFailed then false
  else true

/-! ## `pkg/utils/node.go` -/

/-- The function `GetXPUSharesCapacity`. -/
def GetXPUSharesCapacity (node : Node) : Int :=
  match node.capacity.get? ResourceName with
  | none => 0
  | some val => wrapInt val

/-- The function `GetGPUCountInNode`. -/
def GetGPUCountInNode (node : Node) : Int :=
  match node.capacity.get? CountName with
  | none => 0
  | some val => wrapInt val

/-- The function `IsXPUSharesNode`. -/
def IsXPUSharesNode (node : Node) : Bool := decide (GetXPUSharesCapacity node > 0)

/-! ## `pkg/cache/devices.go` -/

/-- The type `DeviceInfo` (without its lock). -/
structure DeviceInfo where
  idx : Int
  podMap : GoMap String Pod
  totalXPUShares : Nat
  deriving DecidableEq, Repr

/-- The function `newDeviceInfo`. -/
def newDeviceInfo (index : Int) (totalXPUShares : Nat) : DeviceInfo :=
  { idx := index, totalXPUShares := totalXPUShares, podMap := [] }

namespace DeviceInfo

/-- The method `GetPods`, in the order of the association list. -/
def GetPods (d : DeviceInfo) : List Pod := d.podMap.map Prod.snd

/-- The method `GetDevTotalXPUShares`. -/
def GetDevTotalXPUShares (d : DeviceInfo) : Nat := d.totalXPUShares

/-- The method `GetDevUsedXPUShares`. -/
def GetDevUsedXPUShares (d : DeviceInfo) : Nat :=
  d.podMap.foldl
    (fun gpuMem entry =>
      if entry.2.phase = PodSucceeded ∨ entry.2.phase = PodFailed then gpuMem
      else uadd gpuMem ( GetXPUSharesFromPodAnnotation entry.2))
    0

/-- The method `addPod`. -/
def addPod (d : DeviceInfo) (pod : Pod) : DeviceInfo :=
  { d with podMap := d.podMap.set pod.uid pod }

/-- The method `removePod`. -/
def removePod (d : DeviceInfo) (pod : Pod) : DeviceInfo :=
  { d with podMap := d.podMap.delete pod.uid }

end DeviceInfo

/-! ## `pkg/cache/nodes.go` -/

def OptimisticLockErrorMsg : String :=
  "the object has been modified; please apply your changes to the latest version and try again"

/-- The type `NodeInfo` (without its lock). -/
structure NodeInfo where
  name : String
  node : Node
  devs : GoMap Int DeviceInfo
  gpuCount : Int
  gpuTotalMemory : Int
  deriving DecidableEq, Repr

/-- The device map built by the loop `for i := 0; i < count; i++` of `NewNodeInfo` and
`Reset`, with `perDev` the capacity given to each device. -/
def buildDevMap (count : Int) (perDev : Nat) : GoMap Int DeviceInfo :=
  (List.range count.toNat).foldl
    (fun devMap (i : Nat) => devMap.set (i : Int) (newDeviceInfo (i : Int) perDev)) []

/-- The function `NewNodeInfo`.  The quotient is computed inside the loop only, that is only
for a positive count. -/
def NewNodeInfo (node : Node) : NodeInfo :=
  { name := node.name
    node := node
    devs := buildDevMap (GetGPUCountInNode node)
      (toUint (idiv (GetXPUSharesCapacity node) (GetGPUCountInNode node)))
    gpuCount := GetGPUCountInNode node
    gpuTotalMemory := GetXPUSharesCapacity node }

namespace NodeInfo

/-- The method `Reset`. -/
def Reset (n : NodeInfo) (node : Node) : NodeInfo :=
  let n := { n with gpuCount := GetGPUCountInNode node,
                    gpuTotalMemory := GetXPUSharesCapacity node,
                    node := node }
  if n.devs.length = 0 ∧ n.gpuCount > 0 then
    let devMap := buildDevMap (GetGPUCountInNode node) (toUint (idiv n.gpuTotalMemory n.gpuCount))
    { n with devs := devMap }
  else n

/-- The method `GetName`. -/
def GetName (n : NodeInfo) : String := n.name

/-- The method `GetNode`. -/
def GetNode (n : NodeInfo) : Node := n.node

/-- The method `GetNodeTotalGPUMemory`. -/
def GetNodeTotalGPUMemory (n : NodeInfo) : Int := n.gpuTotalMemory

/-- The method `GetGPUCount`. -/
def GetGPUCount (n : NodeInfo) : Int := n.gpuCount

/-- The method `GetDevs`: a slice of `gpuCount` entries, `none` where no device was stored.
The result is `none` when the method panics: on a negative length, or on a store outside
the slice. -/
def GetDevs (n : NodeInfo) : Option (List (Option DeviceInfo)) :=
  if n.gpuCount < 0 then none
  else
    n.devs.foldl
      (fun (acc : Option (List (Option DeviceInfo))) (entry : Int × DeviceInfo) =>
        match acc with
        | none => none
        | some devs =>
          if (0 : Int) ≤ entry.1 ∧ entry.1 < n.gpuCount then
            some (List.set devs (Int.toNat entry.1) (some entry.2))
          else none)
      (some (List.replicate n.gpuCount.toNat none))

/-- The method `removePod`. -/
def removePod (n : NodeInfo) (pod : Pod) : NodeInfo :=
  let id := GetGPUIDFromAnnotation pod
  if id ≥ 0 then
    match n.devs.get? id with
    | none => n
    | some dev => { n with devs := n.devs.set id (dev.removePod pod) }
  else n

/-- The method `addOrUpdatePod`: the node afterwards and the result `added`. -/
def addOrUpdatePod (n : NodeInfo) (pod : Pod) : NodeInfo × Bool :=
  let id := GetGPUIDFromAnnotation pod
  if id ≥ 0 then
    match n.devs.get? id with
    | none => (n, false)
    | some dev => ({ n with devs := n.devs.set id (dev.addPod pod) }, true)
  else (n, false)

/-- The method `getUnhealthyXPUs`.  The function `getConfigMap` of the package reads the
config-map store; it is a parameter here. -/
def getUnhealthyXPUs (getConfigMap : String → Option ConfigMap) (n : NodeInfo) :
    GoMap Int Bool :=
  let name := "unhealthy-gpu-[" ++ n.GetName ++ "]"
  match getConfigMap name with
  | none => []
  | some cm =>
    match cm.data.get? "gpus" with
    | some devicesStr =>
      (stringsSplit devicesStr).foldl
        (fun unhealthyGPUs sid => unhealthyGPUs.set (Atoi sid).1 true) []
    | none => []

/-- The method `getUsedXPUs`. -/
def getUsedXPUs (n : NodeInfo) : GoMap Int Nat :=
  n.devs.foldl (fun usedXPUShares entry =>
    usedXPUShares.set entry.2.idx entry.2.GetDevUsedXPUShares) []

/-- The method `getAllXPUs`. -/
def getAllXPUs (n : NodeInfo) : GoMap Int Nat :=
  n.devs.foldl (fun allXPUShares entry =>
    allXPUShares.set entry.2.idx entry.2.totalXPUShares) []

/-- The method `getAvailableXPUs`. -/
def getAvailableXPUs (getConfigMap : String → Option ConfigMap) (n : NodeInfo) :
    GoMap Int Nat :=
  let allXPUShares := n.getAllXPUs
  let usedXPUShares := n.getUsedXPUs
  let unhealthyXPUShares := n.getUnhealthyXPUs getConfigMap
  let availableXPUShares : GoMap Int Nat :=
    allXPUShares.foldl
      (fun available entry =>
        match usedXPUShares.get? entry.1 with
        | some usedShares => available.set entry.1 (usub entry.2 usedShares)
        | none => available)
      []
  unhealthyXPUShares.foldl (fun available entry => available.delete entry.1)
    availableXPUShares

/-- The loop of `Assume` over the device indices, leaving at the first device that fits. -/
def assumeLoop (availableXPUs : GoMap Int Nat) (reqXPUShares : Nat) : List Nat → Bool
  | [] => false
  | devID :: rest =>
    match availableXPUs.get? (devID : Int) with
    | some availableXPU =>
      if availableXPU ≥ reqXPUShares then true
      else assumeLoop availableXPUs reqXPUShares rest
    | none => assumeLoop availableXPUs reqXPUShares rest

/-- The method `Assume`. -/
def Assume (getConfigMap : String → Option ConfigMap) (n : NodeInfo) (pod : Pod) : Bool :=
  let availableXPUs := n.getAvailableXPUs getConfigMap
  let reqXPUShares := toUint (GetRequestXPUSharesFromPodResource pod)
  if availableXPUs.length > 0 then
    assumeLoop availableXPUs reqXPUShares (List.range n.devs.length)
  else false

/-- The local variables of `allocateGPUID` that its first loop updates. -/
structure Selection where
  candidateDevID : Int
  candidateXPUShares : Nat
  found : Bool
  availableXPUCount : Nat
  deriving DecidableEq, Repr

/-- One iteration of the first loop of `allocateGPUID`. -/
def selectStep (availableXPUShares : GoMap Int Nat) (reqShares : Nat) (st : Selection)
    (devID : Nat) : Selection :=
  let r := availableXPUShares.get? (devID : Int)
  let availableShares := r.getD 0
  let st := { st with availableXPUCount := uadd st.availableXPUCount availableShares }
  match r with
  | some _ =>
    if availableShares ≥ reqShares then
      let st :=
        if st.candidateDevID = -1 ∨ st.candidateXPUShares > availableShares then
          { st with candidateDevID := (devID : Int), candidateXPUShares := availableShares }
        else st
      { st with found := true }
    else st
  | none => st

/-- The second loop of `allocateGPUID`: the provisional per-device map `allocatedXPUShares`,
which the method builds and never reads. -/
def spillover (availableXPUShares : GoMap Int Nat) (availableXPUCount : Nat)
    (ids : List Nat) : GoMap Int Nat :=
  ids.foldl
    (fun allocated (devID : Nat) =>
      match availableXPUShares.get? (devID : Int) with
      | some availableShares =>
        if availableXPUCount > 0 then allocated.set (devID : Int) availableShares
        else allocated
      | none => allocated)
    []

/-- The method `allocateGPUID`. -/
def allocateGPUID (getConfigMap : String → Option ConfigMap) (n : NodeInfo) (pod : Pod) :
    Int × Bool :=
  let init : Selection :=
    { candidateDevID := -1, candidateXPUShares := 0, found := false, availableXPUCount := 0 }
  let availableXPUShares := n.getAvailableXPUs getConfigMap
  let reqShares := toUint (GetRequestXPUSharesFromPodResource pod)
  if reqShares > 0 then
    if availableXPUShares.length > 0 then
      let st := (List.range n.devs.length).foldl (selectStep availableXPUShares reqShares) init
      let _allocatedXPUShares : GoMap Int Nat :=
        if ¬ st.found ∧ st.availableXPUCount ≥ reqShares then
          spillover availableXPUShares st.availableXPUCount (List.range n.devs.length)
        else []
      (st.candidateDevID, st.found)
    else (init.candidateDevID, init.found)
  else (init.candidateDevID, init.found)

end NodeInfo

/-! ## The cluster API and the clock, as seen from `Allocate` -/

/-- The type `v1.Binding` as `Allocate` fills it. -/
structure Binding where
  name : String
  uid : String
  targetKind : String
  targetName : String
  deriving DecidableEq, Repr

/-- What `Pods(ns).Get` returns: the pod, or the error. -/
inductive GetResult where
  | ok (pod : Pod)
  | error (err : String)
  deriving DecidableEq, Repr

/-- A call made on the clientset, with what it returned. -/
inductive Call where
  | update (pod : Pod) (err : Option String)
  | get (ns : String) (name : String) (result : GetResult)
  | bind (ns : String) (binding : Binding) (err : Option String)
  deriving DecidableEq, Repr

/-- The collaborators of `Allocate`: the three calls on `clientset.CoreV1().Pods(ns)` and
the clock, each reading and advancing a state `σ` of the outside world.  `update` and `bind`
give the error returned, `get` the pod or the error. -/
structure World (σ : Type) where
  update : σ → Pod → σ × Option String
  get : σ → String → String → σ × GetResult
  bind : σ → String → Binding → σ × Option String
  now : σ → σ × Int

/-- How a call of `Allocate` ends: it returns its `err`, or it panics. -/
inductive Outcome where
  | returned (err : Option String)
  | panicked
  deriving DecidableEq, Repr

/-- What a call of `Allocate` leaves behind: the node, the outside world, the calls made on
the clientset in order, and how the call ended. -/
structure AllocResult (σ : Type) where
  node : NodeInfo
  world : σ
  calls : List Call
  outcome : Outcome

namespace NodeInfo

variable {σ : Type}

/-- The error of `Allocate` when no device is selected. -/
def cantPlaceError (pod : Pod) : String :=
  "the node " ++ pod.nodeName ++ " can't place the pod [" ++ pod.name ++ "] in namespace ["
    ++ pod.ns ++ "]"

/-- Steps 2 and 3 of `Allocate` after a successful update: bind `pod`, then register
`newPod` on device `devId`. -/
def bindAndRegister (w : World σ) (n : NodeInfo) (s : σ) (calls : List Call) (pod newPod : Pod)
    (devId : Int) : AllocResult σ :=
  let binding : Binding :=
    { name := pod.name, uid := pod.uid, targetKind := "Node", targetName := n.name }
  let r := w.bind s pod.ns binding
  let calls := calls ++ [Call.bind pod.ns binding r.2]
  match r.2 with
  | some err => { node := n, world := r.1, calls := calls, outcome := .returned (some err) }
  | none =>
    match n.devs.get? devId with
    | none => { node := n, world := r.1, calls := calls, outcome := .returned none }
    | some dev =>
      { node := { n with devs := n.devs.set devId (dev.addPod newPod) }
        world := r.1, calls := calls, outcome := .returned none }

/-- The method `Allocate`.  The quotient `n.GetNodeTotalGPUMemory()/n.GetGPUCount()` is
evaluated when a device was found, and panics on a zero count. -/
def Allocate (w : World σ) (getConfigMap : String → Option ConfigMap) (n : NodeInfo) (s : σ)
    (pod : Pod) : AllocResult σ :=
  let sel := n.allocateGPUID getConfigMap pod
  let devId := sel.1
  if sel.2 then
    if n.GetGPUCount = 0 then
      { node := n, world := s, calls := [], outcome := .panicked }
    else
      let perDev := idiv n.GetNodeTotalGPUMemory n.GetGPUCount
      let t1 := w.now s
      let newPod := GetUpdatedPodAnnotationSpec pod devId perDev t1.2
      let u1 := w.update t1.1 newPod
      let calls := [Call.update newPod u1.2]
      match u1.2 with
      | none => bindAndRegister w n u1.1 calls pod newPod devId
      | some err =>
        if err = OptimisticLockErrorMsg then
          let g := w.get u1.1 pod.ns pod.name
          let calls := calls ++ [Call.get pod.ns pod.name g.2]
          match g.2 with
          | .error err =>
            { node := n, world := g.1, calls := calls, outcome := .returned (some err) }
          | .ok pod =>
            let t2 := w.now g.1
            let newPod := GetUpdatedPodAnnotationSpec pod devId perDev t2.2
            let u2 := w.update t2.1 newPod
            let calls := calls ++ [Call.update newPod u2.2]
            match u2.2 with
            | some err =>
              { node := n, world := u2.1, calls := calls, outcome := .returned (some err) }
            | none => bindAndRegister w n u2.1 calls pod newPod devId
        else { node := n, world := u1.1, calls := calls, outcome := .returned (some err) }
  else
    { node := n, world := s, calls := [], outcome := .returned (some (cantPlaceError pod)) }

/-- A sequence of `Allocate` calls on one node, each with its own view of the config-map
store: the node and the outside world after the last call. -/
def allocateAll (w : World σ) :
    NodeInfo → σ → List ((String → Option ConfigMap) × Pod) → NodeInfo × σ
  | n, s, [] => (n, s)
  | n, s, c :: rest =>
    let r := n.Allocate w c.1 s c.2
    allocateAll w r.node r.world rest

end NodeInfo

/-! ## Derived notions used in the statements -/

namespace DeviceInfo

/-- The available shares of a device: the `uint` difference `totalShares - usedShares` that
`getAvailableXPUs` stores for it. -/
def available (d : DeviceInfo) : Nat := usub d.totalXPUShares d.GetDevUsedXPUShares

/-- Whether the pod is in phase `Succeeded` or `Failed`. -/
def terminal (pod : Pod) : Bool := decide (pod.phase = PodSucceeded ∨ pod.phase = PodFailed)

/-- The shares one occupant contributes to `GetDevUsedXPUShares`. -/
def contribution (pod : Pod) : Nat :=
  if terminal pod then 0 else GetXPUSharesFromPodAnnotation pod

/-- The sum of the contributions of the occupants, as a natural number (no wrap-around). -/
def usedExact (d : DeviceInfo) : Nat := (d.podMap.map (fun e => contribution e.2)).sum

end DeviceInfo

/-- The calls of a trace that are updates. -/
def Call.isUpdate : Call → Bool
  | .update _ _ => true
  | _ => false

/-- The calls of a trace that are binds. -/
def Call.isBind : Call → Bool
  | .bind _ _ _ => true
  | _ => false

/-- The error a call returned, if any. -/
def Call.error? : Call → Option String
  | .update _ err => err
  | .get _ _ (.ok _) => none
  | .get _ _ (.error err) => some err
  | .bind _ _ err => err

/-- The calls of a trace that are re-fetches. -/
def Call.isGet : Call → Bool
  | .get _ _ _ => true
  | _ => false

namespace NodeInfo

/-- The shape of the device map that `NewNodeInfo` and `Reset` build and that every method
keeps: the keys are distinct, they are the indices `0 .. len-1`, and each device is stored
under its own index. -/
structure WF (n : NodeInfo) : Prop where
  nodup : (GoMap.keys n.devs).Nodup
  keys : ∀ k : Int, k ∈ GoMap.keys n.devs ↔ 0 ≤ k ∧ k < (n.devs.length : Int)
  idx : ∀ p ∈ n.devs, p.2.idx = p.1

/-- Device index `k` is in the unhealthy set of the node. -/
def unhealthy (getConfigMap : String → Option ConfigMap) (n : NodeInfo) (k : Int) : Prop :=
  k ∈ GoMap.keys (n.getUnhealthyXPUs getConfigMap)

instance (getConfigMap : String → Option ConfigMap) (n : NodeInfo) (k : Int) :
    Decidable (n.unhealthy getConfigMap k) := by
  unfold unhealthy; infer_instance

/-! The values that `Allocate` computes on its way, named for the statements. -/

variable {σ : Type}

/-- The per-device capacity that `Allocate` writes into the pod. -/
def perDevice (n : NodeInfo) : Int := idiv n.gpuTotalMemory n.gpuCount

/-- The pod of the first update. -/
def firstPod (w : World σ) (n : NodeInfo) (s : σ) (pod : Pod) (d : Int) : Pod :=
  GetUpdatedPodAnnotationSpec pod d n.perDevice (w.now s).2

/-- The world and the error after the first update. -/
def firstUpdate (w : World σ) (n : NodeInfo) (s : σ) (pod : Pod) (d : Int) :
    σ × Option String :=
  w.update (w.now s).1 (firstPod w n s pod d)

/-- The world and the result after the re-fetch that follows a conflict. -/
def refetch (w : World σ) (n : NodeInfo) (s : σ) (pod : Pod) (d : Int) : σ × GetResult :=
  w.get (firstUpdate w n s pod d).1 pod.ns pod.name

/-- The pod of the second update, made from the re-fetched pod `pod'`. -/
def secondPod (w : World σ) (n : NodeInfo) (s : σ) (pod : Pod) (d : Int) (pod' : Pod) : Pod :=
  GetUpdatedPodAnnotationSpec pod' d n.perDevice (w.now (refetch w n s pod d).1).2

/-- The world and the error after the second update. -/
def secondUpdate (w : World σ) (n : NodeInfo) (s : σ) (pod : Pod) (d : Int) (pod' : Pod) :
    σ × Option String :=
  w.update (w.now (refetch w n s pod d).1).1 (secondPod w n s pod d pod')

/-- The binding that `Allocate` sends for `pod`. -/
def bindingOf (n : NodeInfo) (pod : Pod) : Binding :=
  { name := pod.name, uid := pod.uid, targetKind := "Node", targetName := n.name }

/-- On a conflict, the pod that the re-fetch returns asks for the same shares as `pod`. -/
def RefetchKeepsRequest (w : World σ) (pod : Pod) : Prop :=
  ∀ s pod', (w.get s pod.ns pod.name).2 = GetResult.ok pod' →
    GetRequestXPUSharesFromPodResource pod' = GetRequestXPUSharesFromPodResource pod

/-- Every device holds occupants whose contributions sum, without wrap-around, to at most
its total shares. -/
def WithinCapacity (n : NodeInfo) : Prop :=
  ∀ e ∈ n.devs, e.2.usedExact ≤ e.2.totalXPUShares

end NodeInfo

/-- The sum of a list of `uint`s, with `uint` addition. -/
def uintSum (l : List Nat) : Nat := l.foldr uadd 0

/-- The occupants of a device whose phase is neither `Succeeded` nor `Failed`. -/
def DeviceInfo.liveOccupants (d : DeviceInfo) : List Pod :=
  (d.podMap.map Prod.snd).filter (fun pod => !DeviceInfo.terminal pod)

/-! ## Concrete nodes, pods and worlds -/

namespace Example

/-- A pod that asks for `req` shares in its only container. -/
def request (uid : String) (req : Int) : Pod :=
  { uid := uid, name := uid, ns := "default", nodeName := "", annotations := [],
    containers := [{ name := "main", limits := [(ResourceName, req)] }],
    phase := "Pending", deletionTimestamp := none }

/-- A running pod placed on device `dev` with `shares` shares, as the event path sees it. -/
def placed (uid : String) (dev : String) (shares : String) : Pod :=
  { uid := uid, name := uid, ns := "default", nodeName := "node-a",
    annotations := [(EnvResourceIndex, dev), (EnvResourceByPod, shares)],
    containers := [], phase := "Running", deletionTimestamp := none }

/-- The pod named `p` of 4 shares after it was deleted and created again: same name, new
UID. -/
def recreated : Pod := { request "p" 4 with uid := "p-2" }

/-- A node record with `count` devices and `total` shares. -/
def nodeRecord (total count : Int) : Node :=
  { name := "node-a", capacity := [(ResourceName, total), (CountName, count)] }

/-- No unhealthy-device record exists. -/
def noConfigMap : String → Option ConfigMap := fun _ => none

/-- The unhealthy-device record of every node is the string `gpus`. -/
def configMap (gpus : String) : String → Option ConfigMap :=
  fun _ => some { data := [("gpus", gpus)] }

/-- Three devices of capacity 10 with available shares 10, 4 and 6. -/
def node1046 : NodeInfo :=
  (((NewNodeInfo (nodeRecord 30 3)).addOrUpdatePod (placed "a" "1" "6")).1.addOrUpdatePod
    (placed "b" "2" "4")).1

/-- Two devices of capacity 5 with available shares 2 and 1. -/
def node21 : NodeInfo :=
  (((NewNodeInfo (nodeRecord 10 2)).addOrUpdatePod (placed "a" "0" "3")).1.addOrUpdatePod
    (placed "b" "1" "4")).1

/-- One empty device of capacity 10. -/
def node10 : NodeInfo := NewNodeInfo (nodeRecord 10 1)

/-- A node record with `total` shares and no device count. -/
def recordNoCount (total : Int) : Node :=
  { name := "node-a", capacity := [(ResourceName, total)] }

/-- The node `node10` after a node record without a device count arrived. -/
def node10NoCount : NodeInfo :=
  node10.Reset { name := "node-a", capacity := [(ResourceName, 10)] }

/-- A cluster API on which every call succeeds; the state counts nothing. -/
def okWorld : World Unit :=
  { update := fun s _ => (s, none)
    get := fun s _ _ => (s, .error "not found")
    bind := fun s _ _ => (s, none)
    now := fun s => (s, 0) }

/-- A cluster API on which every update reports the stale-revision conflict and the
re-fetch returns `refetched`. -/
def conflictWorld (refetched : Pod) : World Unit :=
  { update := fun s _ => (s, some OptimisticLockErrorMsg)
    get := fun s _ _ => (s, .ok refetched)
    bind := fun s _ _ => (s, none)
    now := fun s => (s, 0) }

/-- A cluster API whose first update reports the stale-revision conflict and whose later
updates succeed (the state counts the updates); the re-fetch returns `refetched`. -/
def conflictOnceWorld (refetched : Pod) : World Nat :=
  { update := fun s _ => (s + 1, if s = 0 then some OptimisticLockErrorMsg else none)
    get := fun s _ _ => (s, .ok refetched)
    bind := fun s _ _ => (s, none)
    now := fun s => (s, 0) }

/-- A cluster API on which every update is refused with an error that is not the conflict. -/
def updateFailsWorld : World Unit :=
  { update := fun s _ => (s, some "pods \"p\" is forbidden")
    get := fun s _ _ => (s, .error "not found")
    bind := fun s _ _ => (s, none)
    now := fun s => (s, 0) }

/-- A cluster API on which the update succeeds and the bind fails. -/
def bindFailsWorld : World Unit :=
  { update := fun s _ => (s, none)
    get := fun s _ _ => (s, .error "not found")
    bind := fun s _ _ => (s, some "bind refused")
    now := fun s => (s, 0) }

end Example

/-! ## `pkg/scheduler/inspect.go` and `pkg/scheduler/xpu-predicate.go` -/

/-- Modelled from the spec: the result of the cache lookup `GetNodeInfo`, whose file is not
among the sources: the node registry of that name, or no node and a not-found error. -/
inductive Lookup where
  | found (info : NodeInfo)
  | failed (err : String)
  deriving DecidableEq, Repr

/-- The pointer a lookup returns: `nil` after a failure. -/
def Lookup.node : Lookup → Option NodeInfo
  | .found info => some info
  | .failed _ => none

/-- The error a lookup returns: `nil` after a success. -/
def Lookup.err : Lookup → Option String
  | .found _ => none
  | .failed err => some err

/-- Modelled from the spec: the type `SchedulerCache`, whose file is not among the sources,
as the two lookups the handlers call: the registry of one node by name, and all
registries. -/
structure SchedulerCache where
  GetNodeInfo : String → Lookup
  GetNodeinfos : List NodeInfo

namespace Scheduler

/-- Modelled from the spec: the report of one workload (type `Pod` of package scheduler,
declared outside the sources), with the fields `buildNode` fills. -/
structure Pod where
  Namespace : String
  Name : String
  UsedGPU : Int
  deriving DecidableEq, Repr

/-- Modelled from the spec: the report of one device (type `Device` of package scheduler,
declared outside the sources), with the fields `buildNode` fills. -/
structure Device where
  ID : Int
  TotalGPU : Nat
  UsedGPU : Nat
  Pods : List Pod
  deriving DecidableEq, Repr

/-- Modelled from the spec: the report of one node (type `Node` of package scheduler,
declared outside the sources), with the fields `buildNode` fills. -/
structure Node where
  Name : String
  TotalGPU : Nat
  UsedGPU : Nat
  Devices : List Device
  deriving DecidableEq, Repr

/-- Modelled from the spec: the answer of the inspect handler (type `Result` of package
scheduler, declared outside the sources). -/
structure Result where
  Nodes : List Node
  Error : String
  deriving DecidableEq, Repr

/-- The pod list that `buildNode` makes for one device. -/
def buildPods (podInfos : List XPU.Pod) : List Pod :=
  podInfos.foldl
    (fun pods podInfo =>
      if AssignedNonTerminatedPod podInfo then
        pods ++ [{ Namespace := podInfo.ns, Name := podInfo.name,
                   UsedGPU := GetRequestXPUSharesFromPodResource podInfo }]
      else pods)
    []

/-- The device entry that one iteration of the loop of `buildNode` appends. -/
def buildDevice (i : Nat) (devInfo : DeviceInfo) : Device :=
  { ID := (i : Int)
    TotalGPU := devInfo.GetDevTotalXPUShares
    UsedGPU := devInfo.GetDevUsedXPUShares
    Pods := buildPods devInfo.GetPods }

/-- The loop of `buildNode` over the slice of devices from index `i` on, with the entries
and the used shares accumulated so far; `none` when an entry of the slice is nil and the
loop panics on it. -/
def buildLoop : List (Option DeviceInfo) → Nat → List Device → Nat → Option (List Device × Nat)
  | [], _, devs, usedGPU => some (devs, usedGPU)
  | none :: _, _, _, _ => none
  | some devInfo :: rest, i, devs, usedGPU =>
    buildLoop rest (i + 1) (devs ++ [buildDevice i devInfo])
      (uadd usedGPU devInfo.GetDevUsedXPUShares)

/-- The function `buildNode` on a pointer to a node registry; `none` when it panics: on a
nil pointer, in `GetDevs`, or on a nil entry of the slice `GetDevs` returns. -/
def buildNode : Option NodeInfo → Option Node
  | none => none
  | some info =>
    match info.GetDevs with
    | none => none
    | some devInfos =>
      match buildLoop devInfos 0 [] 0 with
      | none => none
      | some r =>
        some { Name := info.GetName, TotalGPU := toUint info.GetNodeTotalGPUMemory,
               UsedGPU := r.2, Devices := r.1 }

/-- The loop of `Handler` over all node registries. -/
def buildNodes : List NodeInfo → List Node → Option (List Node)
  | [], nodes => some nodes
  | info :: rest, nodes =>
    match buildNode (some info) with
    | none => none
    | some node => buildNodes rest (nodes ++ [node])

/-- The method `Inspect.Handler`; `none` when it panics. -/
def Handler (cache : SchedulerCache) (name : String) : Option Result :=
  if name.length = 0 then
    match buildNodes cache.GetNodeinfos [] with
    | none => none
    | some nodes => some { Nodes := nodes, Error := "" }
  else
    let r := cache.GetNodeInfo name
    let errMsg := match r.err with
      | some err => err
      | none => ""
    match buildNode r.node with
    | none => none
    | some node => some { Nodes := [node], Error := errMsg }

/-- The type `Predicate` (the cache it carries is passed to `Func` at each call). -/
structure Predicate where
  Name : String
  Func : XPU.Pod → String → SchedulerCache → Bool × Option String

/-- The function `NewXPUPredicate`. -/
def NewXPUPredicate (getConfigMap : String → Option ConfigMap) : Predicate :=
  { Name := "xpusharesfilter"
    Func := fun pod nodeName c =>
      match c.GetNodeInfo nodeName with
      | .failed err => (false, some err)
      | .found nodeInfo =>
        if ¬ IsXPUSharesNode nodeInfo.GetNode then
          (false, some ("the node " ++ nodeName ++ " is not for XPU shares, need skip"))
        else
          let allocatable := nodeInfo.Assume getConfigMap pod
          if ¬ allocatable then (false, some "insufficient XPU shares in one device")
          else (true, none) }

end Scheduler

/-! ## Derived notions for the later statements -/

namespace NodeInfo

/-- Each pod UID is in the occupant set of at most one device of the node: two entries of
the device map that hold the same UID are stored under the same index. -/
def SingleDevice (n : NodeInfo) : Prop :=
  ∀ e1 ∈ n.devs, ∀ e2 ∈ n.devs, ∀ uid ∈ GoMap.keys e1.2.podMap,
    uid ∈ GoMap.keys e2.2.podMap → e1.1 = e2.1

instance (n : NodeInfo) : Decidable n.SingleDevice := by
  unfold SingleDevice; infer_instance

/-- Pod UID `uid` is in no occupant set of the node, except possibly that of the device
stored under index `k`. -/
def OnlyOn (n : NodeInfo) (uid : String) (k : Int) : Prop :=
  ∀ e ∈ n.devs, uid ∈ GoMap.keys e.2.podMap → e.1 = k

instance (n : NodeInfo) (uid : String) (k : Int) : Decidable (n.OnlyOn uid k) := by
  unfold OnlyOn; infer_instance

end NodeInfo

/-- The occupants that the inspect report lists: no deletion timestamp, a node name, and a
phase that is neither `Succeeded` nor `Failed`. -/
def listed (pod : Pod) : Bool :=
  pod.deletionTimestamp.isNone && decide (pod.nodeName.length ≠ 0)
    && !DeviceInfo.terminal pod

/-- The report entry of one occupant. -/
def Scheduler.report (pod : XPU.Pod) : Scheduler.Pod :=
  { Namespace := pod.ns, Name := pod.name, UsedGPU := GetRequestXPUSharesFromPodResource pod }

namespace Example

/-- A cache that knows no node. -/
def emptyCache : SchedulerCache :=
  { GetNodeInfo := fun name => .failed ("node \"" ++ name ++ "\" not found")
    GetNodeinfos := [] }

/-- A cache that knows the node `node-a` with the registry `info`. -/
def cacheOf (info : NodeInfo) : SchedulerCache :=
  { GetNodeInfo := fun name =>
      if name = "node-a" then .found info else .failed ("node \"" ++ name ++ "\" not found")
    GetNodeinfos := [info] }

end Example

/-! ## `NewNodeInfo` with its division made explicit, and sequences of `Reset` -/

/-- The loop of `NewNodeInfo` (and of `Reset`) with the division in its body made explicit:
`none` when an iteration divides by a zero count. -/
def buildDevMapChecked (count total : Int) : Option (GoMap Int DeviceInfo) :=
  (List.range count.toNat).foldl
    (fun (acc : Option (GoMap Int DeviceInfo)) (i : Nat) =>
      match acc with
      | none => none
      | some devMap =>
        if count = 0 then none
        else some (devMap.set (i : Int) (newDeviceInfo (i : Int) (toUint (idiv total count)))))
    (some [])

/-- The function `NewNodeInfo`, `none` when it panics on a division by zero. -/
def NewNodeInfoChecked (node : Node) : Option NodeInfo :=
  match buildDevMapChecked (GetGPUCountInNode node) (GetXPUSharesCapacity node) with
  | none => none
  | some devMap =>
    some { name := node.name
           node := node
           devs := devMap
           gpuCount := GetGPUCountInNode node
           gpuTotalMemory := GetXPUSharesCapacity node }

/-- The node registry made by `NewNodeInfo` from `node` and then reset with the records of
`records` in turn. -/
def resetAll (node : Node) (records : List Node) : NodeInfo :=
  records.foldl NodeInfo.Reset (NewNodeInfo node)

namespace Example

/-- One device of capacity 10 on which the event path has placed two running pods of 6
shares each. -/
def node10over : NodeInfo :=
  ((node10.addOrUpdatePod (placed "a" "0" "6")).1.addOrUpdatePod (placed "b" "0" "6")).1

end Example

/-! ## Lemmas on Go maps -/

namespace GoMap
variable {K V : Type} [DecidableEq K]

theorem get?_nil (k : K) : get? ([] : GoMap K V) k = none := rfl

theorem get?_cons (p : K × V) (m : GoMap K V) (k : K) :
    get? (p :: m) k = if p.1 = k then some p.2 else get? m k := by
  unfold get?
  by_cases h : p.1 = k <;> simp [List.find?_cons, h]

theorem get?_set (m : GoMap K V) (k : K) (v : V) (k' : K) :
    get? (set m k v) k' = if k = k' then some v else get? m k' := by
  induction m with
  | nil => simp [set, get?_cons, get?_nil]
  | cons p rest ih =>
    obtain ⟨a, b⟩ := p
    by_cases h : a = k
    · subst h
      by_cases h2 : a = k' <;> simp [set, get?_cons, h2]
    · by_cases h2 : a = k'
      · subst h2
        simp [set, get?_cons, h, Ne.symm h]
      · simp [set, get?_cons, h, h2, ih]

theorem delete_cons (p : K × V) (m : GoMap K V) (k : K) :
    delete (p :: m) k = if p.1 = k then delete m k else p :: delete m k := by
  unfold delete
  by_cases h : p.1 = k <;> simp [List.filter_cons, h]

theorem get?_delete (m : GoMap K V) (k k' : K) :
    get? (delete m k) k' = if k = k' then none else get? m k' := by
  induction m with
  | nil => simp [delete, get?_nil]
  | cons p rest ih =>
    rw [delete_cons]
    by_cases h : p.1 = k
    · rw [if_pos h, ih, get?_cons]
      by_cases h2 : k = k'
      · simp [h2]
      · have : ¬ p.1 = k' := fun e => h2 (h ▸ e)
        simp [h2, this]
    · rw [if_neg h, get?_cons, ih, get?_cons]
      by_cases h2 : k = k'
      · have : ¬ p.1 = k' := fun e => h (e.trans h2.symm)
        simp [h2, this]
      · simp [h2]

theorem get?_eq_none_iff (m : GoMap K V) (k : K) : get? m k = none ↔ k ∉ keys m := by
  induction m with
  | nil => simp [get?_nil, keys]
  | cons p rest ih =>
    by_cases h : p.1 = k
    · simp [get?_cons, keys, h]
    · have ih' : get? rest k = none ↔ k ∉ List.map Prod.fst rest := ih
      simp [get?_cons, keys, h, ih', Ne.symm h]

theorem mem_of_get? (m : GoMap K V) (k : K) (v : V) (h : get? m k = some v) : (k, v) ∈ m := by
  induction m with
  | nil => simp [get?_nil] at h
  | cons p rest ih =>
    rw [get?_cons] at h
    by_cases hk : p.1 = k
    · simp [hk] at h
      have : p = (k, v) := by cases p; simp_all
      simp [this]
    · simp [hk] at h
      exact List.mem_cons_of_mem _ (ih h)

theorem get?_of_mem (m : GoMap K V) (hnd : (keys m).Nodup) (k : K) (v : V) (h : (k, v) ∈ m) :
    get? m k = some v := by
  induction m with
  | nil => simp at h
  | cons p rest ih =>
    simp only [keys, List.map_cons, List.nodup_cons] at hnd
    rw [get?_cons]
    rcases List.mem_cons.1 h with h1 | h1
    · subst h1; simp
    · have hk : k ∈ List.map Prod.fst rest := List.mem_map.2 ⟨(k, v), h1, rfl⟩
      have hne : p.1 ≠ k := fun e => hnd.1 (e ▸ hk)
      simp [hne, ih hnd.2 h1]

theorem keys_set (m : GoMap K V) (k : K) (v : V) :
    keys (set m k v) = if k ∈ keys m then keys m else keys m ++ [k] := by
  induction m with
  | nil => simp [set, keys]
  | cons p rest ih =>
    obtain ⟨a, b⟩ := p
    have ih' : List.map Prod.fst (set rest k v)
        = if k ∈ List.map Prod.fst rest then List.map Prod.fst rest
          else List.map Prod.fst rest ++ [k] := ih
    by_cases h : a = k
    · subst h; simp [set, keys]
    · have h' : ¬ k = a := Ne.symm h
      by_cases hm : k ∈ List.map Prod.fst rest
      · simp only [set, keys, h, if_false, List.map_cons, ih', hm, if_true, List.mem_cons, or_true]
      · simp only [set, keys, h, if_false, List.map_cons, ih', hm, List.mem_cons, h', or_self,
          List.cons_append]

end GoMap

/-! ## Lookups in maps built by a loop -/

namespace GoMap

variable {K V : Type} [DecidableEq K]

theorem get?_eq_find? (m : GoMap K V) (k : K) :
    get? m k = (m.find? (fun p => decide (p.1 = k))).map Prod.snd := rfl

theorem nodup_keys_set (m : GoMap K V) (k : K) (v : V) (h : (keys m).Nodup) :
    (keys (set m k v)).Nodup := by
  rw [keys_set]
  by_cases hk : k ∈ keys m
  · simpa [hk] using h
  · simp only [hk, if_false]
    exact List.Nodup.append h (List.nodup_singleton k)
      (by simpa [List.disjoint_singleton] using hk)

/-- A loop that stores `h x` under the key `f x` for every `x` of a list with distinct
keys. -/
theorem get?_foldl_set {X : Type} (f : X → K) (h : X → V) (l : List X)
    (hnd : (l.map f).Nodup) (m0 : GoMap K V) (k : K) :
    get? (l.foldl (fun m x => set m (f x) (h x)) m0) k
      = match l.find? (fun x => decide (f x = k)) with
        | some x => some (h x)
        | none => get? m0 k := by
  induction l generalizing m0 with
  | nil => simp
  | cons x xs ih =>
    simp only [List.map_cons, List.nodup_cons] at hnd
    rw [List.foldl_cons, ih hnd.2, List.find?_cons]
    by_cases hx : f x = k
    · have hnone : xs.find? (fun x => decide (f x = k)) = none := by
        rw [List.find?_eq_none]
        intro y hy hyk
        have hyk' : f y = k := by simpa using hyk
        exact hnd.1 (List.mem_map.2 ⟨y, hy, hyk'.trans hx.symm⟩)
      simp [hnone, hx, get?_set]
    · cases hfx : xs.find? (fun x => decide (f x = k)) with
      | none => simp [hx, get?_set]
      | some y => simp [hx]

theorem nodup_keys_foldl_set {X : Type} (f : X → K) (h : X → V) (l : List X)
    (m0 : GoMap K V) (h0 : (keys m0).Nodup) :
    (keys (l.foldl (fun m x => set m (f x) (h x)) m0)).Nodup := by
  induction l generalizing m0 with
  | nil => simpa using h0
  | cons x xs ih => exact ih _ (nodup_keys_set m0 (f x) (h x) h0)

/-- A loop that stores `h x u` under the key `f x` for every `x` with `c x = some u`. -/
theorem get?_foldl_set_if {X U : Type} (f : X → K) (c : X → Option U) (h : X → U → V)
    (step : GoMap K V → X → GoMap K V)
    (hstep : ∀ m x, step m x = (c x).elim m (fun u => set m (f x) (h x u)))
    (l : List X) (hnd : (l.map f).Nodup) (m0 : GoMap K V) (k : K) :
    get? (l.foldl step m0) k
      = match l.find? (fun x => decide (f x = k)) with
        | some x => (c x).elim (get? m0 k) (fun u => some (h x u))
        | none => get? m0 k := by
  induction l generalizing m0 with
  | nil => simp
  | cons x xs ih =>
    simp only [List.map_cons, List.nodup_cons] at hnd
    rw [List.foldl_cons, ih hnd.2, List.find?_cons, hstep]
    by_cases hx : f x = k
    · have hnone : xs.find? (fun x => decide (f x = k)) = none := by
        rw [List.find?_eq_none]
        intro y hy hyk
        have hyk' : f y = k := by simpa using hyk
        exact hnd.1 (List.mem_map.2 ⟨y, hy, hyk'.trans hx.symm⟩)
      cases hc : c x <;> simp [hnone, hx, hc, get?_set]
    · cases hfx : xs.find? (fun x => decide (f x = k)) with
      | none => cases hc : c x <;> simp [hx, hc, get?_set]
      | some y => cases hc : c x <;> cases hcy : c y <;> simp [hx, hc, hcy, get?_set]

/-- A loop that deletes every key of a list. -/
theorem get?_foldl_delete {X : Type} (f : X → K) (l : List X) (m0 : GoMap K V) (k : K) :
    get? (l.foldl (fun m x => delete m (f x)) m0) k
      = if k ∈ l.map f then none else get? m0 k := by
  induction l generalizing m0 with
  | nil => simp
  | cons x xs ih =>
    rw [List.foldl_cons, ih, get?_delete]
    by_cases h1 : k ∈ xs.map f
    · simp [h1]
    · by_cases h2 : f x = k
      · simp [h2]
      · have h3 : ¬ k = f x := fun e => h2 e.symm
        simp [h1, h2, h3]

end GoMap

/-! ## The map of available shares -/

theorem find?_congr_mem {X : Type} (p q : X → Bool) (l : List X)
    (h : ∀ x ∈ l, p x = q x) : l.find? p = l.find? q := by
  induction l with
  | nil => rfl
  | cons x xs ih =>
    rw [List.find?_cons, List.find?_cons, h x (List.mem_cons_self _ _),
      ih (fun y hy => h y (List.mem_cons_of_mem _ hy))]

namespace NodeInfo

theorem WF.map_idx {n : NodeInfo} (hwf : n.WF) :
    n.devs.map (fun e => e.2.idx) = GoMap.keys n.devs := by
  unfold GoMap.keys
  exact List.map_congr_left (fun e he => hwf.idx e he)

theorem WF.find?_idx {n : NodeInfo} (hwf : n.WF) (k : Int) :
    n.devs.find? (fun e => decide (e.2.idx = k)) = n.devs.find? (fun e => decide (e.1 = k)) :=
  find?_congr_mem _ _ _ (fun e he => by rw [hwf.idx e he])

theorem getAllXPUs_get? {n : NodeInfo} (hwf : n.WF) (k : Int) :
    GoMap.get? n.getAllXPUs k = (GoMap.get? n.devs k).map (fun d => d.totalXPUShares) := by
  unfold getAllXPUs
  rw [GoMap.get?_foldl_set (fun e : Int × DeviceInfo => e.2.idx)
    (fun e => e.2.totalXPUShares) n.devs (by rw [hwf.map_idx]; exact hwf.nodup) [] k,
    hwf.find?_idx]
  simp only [GoMap.get?]
  cases n.devs.find? (fun e => decide (e.1 = k)) <;> simp

theorem getUsedXPUs_get? {n : NodeInfo} (hwf : n.WF) (k : Int) :
    GoMap.get? n.getUsedXPUs k = (GoMap.get? n.devs k).map (fun d => d.GetDevUsedXPUShares) := by
  unfold getUsedXPUs
  rw [GoMap.get?_foldl_set (fun e : Int × DeviceInfo => e.2.idx)
    (fun e => e.2.GetDevUsedXPUShares) n.devs (by rw [hwf.map_idx]; exact hwf.nodup) [] k,
    hwf.find?_idx]
  simp only [GoMap.get?]
  cases n.devs.find? (fun e => decide (e.1 = k)) <;> simp

theorem getAllXPUs_nodup (n : NodeInfo) : (GoMap.keys n.getAllXPUs).Nodup :=
  GoMap.nodup_keys_foldl_set _ _ _ _ List.nodup_nil

/-- Under the invariant of the device map, the map of available shares holds, for each
device index outside the unhealthy set, the `uint` difference of total and used shares of
that device, and nothing else. -/
theorem getAvailableXPUs_get? (getConfigMap : String → Option ConfigMap) {n : NodeInfo}
    (hwf : n.WF) (k : Int) :
    GoMap.get? (n.getAvailableXPUs getConfigMap) k
      = if n.unhealthy getConfigMap k then none
        else (GoMap.get? n.devs k).map DeviceInfo.available := by
  unfold getAvailableXPUs
  simp only []
  rw [GoMap.get?_foldl_delete (fun e : Int × Bool => e.1)]
  have hkeys : (k ∈ List.map (fun e : Int × Bool => e.1) (n.getUnhealthyXPUs getConfigMap))
      ↔ n.unhealthy getConfigMap k := Iff.rfl
  by_cases hu : n.unhealthy getConfigMap k
  · rw [if_pos (hkeys.2 hu), if_pos hu]
  · rw [if_neg (fun h => hu (hkeys.1 h)), if_neg hu]
    rw [GoMap.get?_foldl_set_if (fun e : Int × Nat => e.1)
      (fun e => GoMap.get? n.getUsedXPUs e.1) (fun e u => usub e.2 u) _
      (fun m x => by cases hc : GoMap.get? n.getUsedXPUs x.1 <;> simp [hc]) n.getAllXPUs
      (getAllXPUs_nodup n) [] k]
    have hall := getAllXPUs_get? hwf k
    rw [GoMap.get?_eq_find?] at hall
    cases hf : n.getAllXPUs.find? (fun e => decide (e.1 = k)) with
    | none =>
      rw [hf] at hall
      cases hd : GoMap.get? n.devs k with
      | none => simp [GoMap.get?_nil]
      | some d => rw [hd] at hall; simp at hall
    | some e =>
      have hek : e.1 = k := by simpa using List.find?_some hf
      rw [hf] at hall
      cases hd : GoMap.get? n.devs k with
      | none => rw [hd] at hall; simp at hall
      | some d =>
        rw [hd] at hall
        have he2 : e.2 = d.totalXPUShares := by simpa using hall
        simp only [hek, getUsedXPUs_get? hwf k, hd, Option.map_some', he2,
          DeviceInfo.available, Option.elim]

end NodeInfo

/-! ## The loops of `Assume` and `allocateGPUID` -/

namespace NodeInfo

theorem assumeLoop_eq_true (m : GoMap Int Nat) (req : Nat) (ids : List Nat) :
    assumeLoop m req ids = true
      ↔ ∃ i ∈ ids, ∃ a, GoMap.get? m (i : Int) = some a ∧ req ≤ a := by
  induction ids with
  | nil => simp [assumeLoop]
  | cons i rest ih =>
    unfold assumeLoop
    cases hg : GoMap.get? m (i : Int) with
    | none =>
      simp only [ih, List.mem_cons]
      constructor
      · rintro ⟨j, hj, a, ha, hle⟩
        exact ⟨j, Or.inr hj, a, ha, hle⟩
      · rintro ⟨j, hj | hj, a, ha, hle⟩
        · subst hj; rw [hg] at ha; cases ha
        · exact ⟨j, hj, a, ha, hle⟩
    | some b =>
      by_cases hb : b ≥ req
      · simp only [hb, if_true, List.mem_cons, true_iff]
        exact ⟨i, Or.inl rfl, b, hg, hb⟩
      · simp only [hb, if_false, ih, List.mem_cons]
        constructor
        · rintro ⟨j, hj, a, ha, hle⟩
          exact ⟨j, Or.inr hj, a, ha, hle⟩
        · rintro ⟨j, hj | hj, a, ha, hle⟩
          · subst hj; rw [hg] at ha; cases ha; exact absurd hle hb
          · exact ⟨j, hj, a, ha, hle⟩

/-- What the first loop of `allocateGPUID` has established after the device indices
`0 .. L-1`. -/
structure SelInv (m : GoMap Int Nat) (req : Nat) (L : Nat) (st : Selection) : Prop where
  notFound : st.found = false →
    st.candidateDevID = -1 ∧ ∀ j : Nat, j < L → ∀ a, GoMap.get? m (j : Int) = some a → a < req
  isFound : st.found = true →
    ∃ i : Nat, i < L ∧ st.candidateDevID = (i : Int)
      ∧ GoMap.get? m (i : Int) = some st.candidateXPUShares
      ∧ req ≤ st.candidateXPUShares
      ∧ ∀ j : Nat, j < L → ∀ a, GoMap.get? m (j : Int) = some a → req ≤ a →
          st.candidateXPUShares ≤ a ∧ (a = st.candidateXPUShares → i ≤ j)

theorem selInv_init (m : GoMap Int Nat) (req : Nat) :
    SelInv m req 0
      { candidateDevID := -1, candidateXPUShares := 0, found := false,
        availableXPUCount := 0 } :=
  ⟨fun _ => ⟨rfl, fun j hj => absurd hj (Nat.not_lt_zero j)⟩, fun h => by cases h⟩

theorem selInv_step (m : GoMap Int Nat) (req : Nat) (L : Nat) (st : Selection)
    (h : SelInv m req L st) : SelInv m req (L + 1) (selectStep m req st L) := by
  have hlt : ∀ j : Nat, j < L + 1 → j < L ∨ j = L := fun j hj => by omega
  unfold selectStep
  cases hg : GoMap.get? m (L : Int) with
  | none =>
    refine ⟨fun hf => ?_, fun hf => ?_⟩
    · obtain ⟨h1, h2⟩ := h.notFound hf
      refine ⟨h1, fun j hj a ha => ?_⟩
      rcases hlt j hj with hj | hj
      · exact h2 j hj a ha
      · subst hj; rw [hg] at ha; cases ha
    · obtain ⟨i, hi, h1, h2, h3, h4⟩ := h.isFound hf
      refine ⟨i, by omega, h1, h2, h3, fun j hj a ha hle => ?_⟩
      rcases hlt j hj with hj | hj
      · exact h4 j hj a ha hle
      · subst hj; rw [hg] at ha; cases ha
  | some b =>
    simp only [Option.getD_some]
    by_cases hb : b ≥ req
    · simp only [hb, if_true]
      cases hfound : st.found with
      | false =>
        obtain ⟨h1, h2⟩ := h.notFound hfound
        simp only [h1, true_or, if_true]
        refine ⟨fun hf => (by cases hf), fun _ => ⟨L, by omega, rfl, hg, hb, fun j hj a ha hle => ?_⟩⟩
        rcases hlt j hj with hj | hj
        · exact absurd hle (Nat.not_le.2 (h2 j hj a ha))
        · subst hj; rw [hg] at ha; cases ha; exact ⟨le_refl _, fun _ => le_refl _⟩
      | true =>
        obtain ⟨i, hi, h1, h2, h3, h4⟩ := h.isFound hfound
        have hne : ¬ st.candidateDevID = -1 := by rw [h1]; omega
        by_cases hgt : st.candidateXPUShares > b
        · simp only [hgt, or_true, if_true]
          refine ⟨fun hf => (by cases hf), fun _ => ⟨L, by omega, rfl, hg, hb, fun j hj a ha hle => ?_⟩⟩
          rcases hlt j hj with hj | hj
          · have := (h4 j hj a ha hle).1
            refine ⟨?_, fun e => ?_⟩
            · show b ≤ a
              omega
            · change a = b at e
              omega
          · subst hj; rw [hg] at ha; cases ha; exact ⟨le_refl _, fun _ => le_refl _⟩
        · simp only [hne, hgt, or_self, if_false]
          refine ⟨fun hf => (by cases hf), fun _ => ⟨i, by omega, h1, h2, h3, fun j hj a ha hle => ?_⟩⟩
          rcases hlt j hj with hj | hj
          · exact h4 j hj a ha hle
          · subst hj; rw [hg] at ha; cases ha
            refine ⟨?_, fun _ => ?_⟩
            · show st.candidateXPUShares ≤ b
              omega
            · omega
    · simp only [hb, if_false]
      refine ⟨fun hf => ?_, fun hf => ?_⟩
      · obtain ⟨h1, h2⟩ := h.notFound hf
        refine ⟨h1, fun j hj a ha => ?_⟩
        rcases hlt j hj with hj | hj
        · exact h2 j hj a ha
        · subst hj; rw [hg] at ha; cases ha; omega
      · obtain ⟨i, hi, h1, h2, h3, h4⟩ := h.isFound hf
        refine ⟨i, by omega, h1, h2, h3, fun j hj a ha hle => ?_⟩
        rcases hlt j hj with hj | hj
        · exact h4 j hj a ha hle
        · subst hj; rw [hg] at ha; cases ha; exact absurd hle hb

theorem selInv_fold (m : GoMap Int Nat) (req : Nat) (L : Nat) :
    SelInv m req L
      ((List.range L).foldl (selectStep m req)
        { candidateDevID := -1, candidateXPUShares := 0, found := false,
          availableXPUCount := 0 }) := by
  induction L with
  | zero => exact selInv_init m req
  | succ L ih =>
    rw [List.range_succ, List.foldl_append]
    exact selInv_step m req L _ ih

end NodeInfo

/-! ## Machine-integer facts -/

theorem wrapInt_range (x : Int) : minInt ≤ wrapInt x ∧ wrapInt x ≤ maxInt := by
  unfold wrapInt minInt maxInt
  have h1 := Int.emod_nonneg (x + 2 ^ 63) (by norm_num : (2 : Int) ^ 64 ≠ 0)
  have h2 := Int.emod_lt_of_pos (x + 2 ^ 63) (by norm_num : (0 : Int) < 2 ^ 64)
  constructor <;> omega

theorem GetRequest_range (pod : Pod) :
    minInt ≤ GetRequestXPUSharesFromPodResource pod
      ∧ GetRequestXPUSharesFromPodResource pod ≤ maxInt := by
  unfold GetRequestXPUSharesFromPodResource
  have key : ∀ (l : List Container) (init : Int), (minInt ≤ init ∧ init ≤ maxInt) →
      (minInt ≤ l.foldl (fun total container =>
          match GoMap.get? container.limits ResourceName with
          | some val => iadd total (wrapInt val)
          | none => total) init
        ∧ l.foldl (fun total container =>
          match GoMap.get? container.limits ResourceName with
          | some val => iadd total (wrapInt val)
          | none => total) init ≤ maxInt) := by
    intro l
    induction l with
    | nil => intro init h; simpa using h
    | cons c cs ih =>
      intro init h
      rw [List.foldl_cons]
      apply ih
      cases GoMap.get? c.limits ResourceName with
      | none => exact h
      | some v => exact wrapInt_range _
  exact key _ 0 (by unfold minInt maxInt; constructor <;> norm_num)

theorem toUint_of_pos (r : Int) (h0 : 0 ≤ r) (h1 : r ≤ maxInt) : ((toUint r : Nat) : Int) = r := by
  unfold toUint
  unfold maxInt at h1
  rw [Int.toNat_of_nonneg (Int.emod_nonneg r (by norm_num))]
  exact Int.emod_eq_of_lt h0 (by omega)

/-! ## Selection and admission on a node -/

namespace NodeInfo

theorem avail_get?_some (getConfigMap : String → Option ConfigMap) {n : NodeInfo}
    (hwf : n.WF) (k : Int) (a : Nat) :
    GoMap.get? (n.getAvailableXPUs getConfigMap) k = some a
      ↔ ¬ n.unhealthy getConfigMap k
        ∧ ∃ dev, GoMap.get? n.devs k = some dev ∧ dev.available = a := by
  rw [getAvailableXPUs_get? getConfigMap hwf k]
  by_cases hu : n.unhealthy getConfigMap k
  · simp [hu]
  · cases hd : GoMap.get? n.devs k <;> simp [hu]

theorem WF.index_of_get? {n : NodeInfo} (hwf : n.WF) (k : Int) (dev : DeviceInfo)
    (h : GoMap.get? n.devs k = some dev) : ∃ j : Nat, j < n.devs.length ∧ k = (j : Int) := by
  have hmem : k ∈ GoMap.keys n.devs :=
    List.mem_map.2 ⟨(k, dev), GoMap.mem_of_get? _ _ _ h, rfl⟩
  obtain ⟨h0, h1⟩ := (hwf.keys k).1 hmem
  exact ⟨k.toNat, by omega, by omega⟩

/-- The state of the first loop of `allocateGPUID` when it has visited every device. -/
theorem allocateGPUID_eq (getConfigMap : String → Option ConfigMap) (n : NodeInfo) (pod : Pod)
    (hreq : 0 < toUint (GetRequestXPUSharesFromPodResource pod)) :
    n.allocateGPUID getConfigMap pod
      = (((List.range n.devs.length).foldl
            (selectStep (n.getAvailableXPUs getConfigMap)
              (toUint (GetRequestXPUSharesFromPodResource pod)))
            { candidateDevID := -1, candidateXPUShares := 0, found := false,
              availableXPUCount := 0 }).candidateDevID,
         ((List.range n.devs.length).foldl
            (selectStep (n.getAvailableXPUs getConfigMap)
              (toUint (GetRequestXPUSharesFromPodResource pod)))
            { candidateDevID := -1, candidateXPUShares := 0, found := false,
              availableXPUCount := 0 }).found) := by
  have hinv := selInv_fold (n.getAvailableXPUs getConfigMap)
    (toUint (GetRequestXPUSharesFromPodResource pod)) n.devs.length
  unfold allocateGPUID
  simp only [gt_iff_lt, hreq, if_true]
  by_cases hlen : 0 < (n.getAvailableXPUs getConfigMap).length
  · simp only [hlen, if_true]
  · simp only [hlen, if_false]
    have hnil : n.getAvailableXPUs getConfigMap = [] := by
      cases hm : n.getAvailableXPUs getConfigMap with
      | nil => rfl
      | cons p t => rw [hm] at hlen; simp at hlen
    cases hf : ((List.range n.devs.length).foldl
        (selectStep (n.getAvailableXPUs getConfigMap)
          (toUint (GetRequestXPUSharesFromPodResource pod)))
        { candidateDevID := -1, candidateXPUShares := 0, found := false,
          availableXPUCount := 0 }).found with
    | false => rw [(hinv.notFound hf).1]
    | true =>
      obtain ⟨i, _, _, h2, _⟩ := hinv.isFound hf
      rw [hnil, GoMap.get?_nil] at h2
      cases h2

theorem allocateGPUID_zero (getConfigMap : String → Option ConfigMap) (n : NodeInfo) (pod : Pod)
    (hreq : ¬ 0 < toUint (GetRequestXPUSharesFromPodResource pod)) :
    n.allocateGPUID getConfigMap pod = (-1, false) := by
  unfold allocateGPUID
  simp only [gt_iff_lt, hreq, if_false]

/-- The selection of `allocateGPUID`, for a request as the method reads it (`uint`). -/
theorem allocateGPUID_found (getConfigMap : String → Option ConfigMap) {n : NodeInfo}
    (hwf : n.WF) (pod : Pod) (d : Int)
    (hfound : n.allocateGPUID getConfigMap pod = (d, true)) :
    0 < toUint (GetRequestXPUSharesFromPodResource pod) ∧
    ∃ dev, GoMap.get? n.devs d = some dev
      ∧ ¬ n.unhealthy getConfigMap d
      ∧ toUint (GetRequestXPUSharesFromPodResource pod) ≤ dev.available
      ∧ ∀ k dk, GoMap.get? n.devs k = some dk → ¬ n.unhealthy getConfigMap k →
          toUint (GetRequestXPUSharesFromPodResource pod) ≤ dk.available →
          dev.available ≤ dk.available ∧ (dk.available = dev.available → d ≤ k) := by
  by_cases hreq : 0 < toUint (GetRequestXPUSharesFromPodResource pod)
  · refine ⟨hreq, ?_⟩
    have hinv := selInv_fold (n.getAvailableXPUs getConfigMap)
      (toUint (GetRequestXPUSharesFromPodResource pod)) n.devs.length
    rw [allocateGPUID_eq getConfigMap n pod hreq] at hfound
    have hc := (Prod.mk.inj hfound).1
    have hf := (Prod.mk.inj hfound).2
    obtain ⟨i, _, h1, h2, h3, h4⟩ := hinv.isFound hf
    rw [hc] at h1
    obtain ⟨hu, dev, hdev, hav⟩ := (avail_get?_some getConfigMap hwf _ _).1 h2
    refine ⟨dev, by rw [h1]; exact hdev, by rw [h1]; exact hu, by rw [hav]; exact h3, ?_⟩
    intro k dk hk huk hle
    obtain ⟨j, hj, hkj⟩ := hwf.index_of_get? k dk hk
    have hget : GoMap.get? (n.getAvailableXPUs getConfigMap) (j : Int) = some dk.available :=
      (avail_get?_some getConfigMap hwf _ _).2 ⟨by rw [← hkj]; exact huk, dk, by rw [← hkj]; exact hk, rfl⟩
    obtain ⟨h5, h6⟩ := h4 j hj dk.available hget hle
    rw [hav]
    refine ⟨h5, fun e => ?_⟩
    have := h6 e
    omega
  · rw [allocateGPUID_zero getConfigMap n pod hreq] at hfound
    cases (Prod.mk.inj hfound).2

/-- When no healthy device fits, `allocateGPUID` finds nothing. -/
theorem allocateGPUID_notFound (getConfigMap : String → Option ConfigMap) {n : NodeInfo}
    (hwf : n.WF) (pod : Pod)
    (hsmall : ∀ k dev, GoMap.get? n.devs k = some dev → ¬ n.unhealthy getConfigMap k →
      dev.available < toUint (GetRequestXPUSharesFromPodResource pod)) :
    n.allocateGPUID getConfigMap pod = (-1, false) := by
  by_cases hreq : 0 < toUint (GetRequestXPUSharesFromPodResource pod)
  · have hinv := selInv_fold (n.getAvailableXPUs getConfigMap)
      (toUint (GetRequestXPUSharesFromPodResource pod)) n.devs.length
    rw [allocateGPUID_eq getConfigMap n pod hreq]
    cases hf : ((List.range n.devs.length).foldl
        (selectStep (n.getAvailableXPUs getConfigMap)
          (toUint (GetRequestXPUSharesFromPodResource pod)))
        { candidateDevID := -1, candidateXPUShares := 0, found := false,
          availableXPUCount := 0 }).found with
    | false => rw [(hinv.notFound hf).1]
    | true =>
      obtain ⟨i, _, _, h2, h3, _⟩ := hinv.isFound hf
      obtain ⟨hu, dev, hdev, hav⟩ := (avail_get?_some getConfigMap hwf _ _).1 h2
      have := hsmall _ dev hdev hu
      omega
  · exact allocateGPUID_zero getConfigMap n pod hreq

/-- `Assume` in terms of the devices of the node. -/
theorem Assume_eq_true (getConfigMap : String → Option ConfigMap) {n : NodeInfo}
    (hwf : n.WF) (pod : Pod) :
    n.Assume getConfigMap pod = true
      ↔ ∃ k dev, GoMap.get? n.devs k = some dev ∧ ¬ n.unhealthy getConfigMap k
          ∧ toUint (GetRequestXPUSharesFromPodResource pod) ≤ dev.available := by
  unfold Assume
  simp only []
  constructor
  · intro h
    by_cases hlen : (n.getAvailableXPUs getConfigMap).length > 0
    · rw [if_pos hlen] at h
      obtain ⟨i, _, a, ha, hle⟩ := (assumeLoop_eq_true _ _ _).1 h
      obtain ⟨hu, dev, hdev, hav⟩ := (avail_get?_some getConfigMap hwf _ _).1 ha
      exact ⟨i, dev, hdev, hu, by rw [hav]; exact hle⟩
    · rw [if_neg hlen] at h
      cases h
  · rintro ⟨k, dev, hdev, hu, hle⟩
    obtain ⟨j, hj, hkj⟩ := hwf.index_of_get? k dev hdev
    have hget : GoMap.get? (n.getAvailableXPUs getConfigMap) (j : Int) = some dev.available :=
      (avail_get?_some getConfigMap hwf _ _).2 ⟨by rw [← hkj]; exact hu, dev, by rw [← hkj]; exact hdev, rfl⟩
    have hlen : (n.getAvailableXPUs getConfigMap).length > 0 := by
      cases hm : n.getAvailableXPUs getConfigMap with
      | nil => rw [hm, GoMap.get?_nil] at hget; cases hget
      | cons p t => simp
    rw [if_pos hlen]
    exact (assumeLoop_eq_true _ _ _).2 ⟨j, List.mem_range.2 hj, dev.available, hget, hle⟩

end NodeInfo

/-! ## The invariant of the device map -/

namespace NodeInfo

/-- A device map whose keys are `0 .. len-1` in this order, each device under its own index,
satisfies the invariant. -/
theorem WF.of_range (n : NodeInfo)
    (hk : GoMap.keys n.devs = (List.range n.devs.length).map Int.ofNat)
    (hi : ∀ p ∈ n.devs, p.2.idx = p.1) : n.WF := by
  refine ⟨?_, fun k => ?_, hi⟩
  · rw [hk]
    exact (List.nodup_range _).map (fun a b h => Int.ofNat.inj h)
  · rw [hk, List.mem_map]
    constructor
    · rintro ⟨j, hj, rfl⟩
      have := List.mem_range.1 hj
      exact ⟨Int.ofNat_nonneg j, by simpa using this⟩
    · rintro ⟨h0, h1⟩
      refine ⟨k.toNat, List.mem_range.2 (by omega), ?_⟩
      show ((k.toNat : Nat) : Int) = k
      omega

theorem WF.set_same {n : NodeInfo} (hwf : n.WF) (k : Int) (dev dev' : DeviceInfo)
    (hget : GoMap.get? n.devs k = some dev) (hidx : dev'.idx = dev.idx) :
    WF { n with devs := GoMap.set n.devs k dev' } := by
  have hmem : k ∈ GoMap.keys n.devs :=
    List.mem_map.2 ⟨(k, dev), GoMap.mem_of_get? _ _ _ hget, rfl⟩
  have hkeys : GoMap.keys (GoMap.set n.devs k dev') = GoMap.keys n.devs := by
    rw [GoMap.keys_set, if_pos hmem]
  have hlen : (GoMap.set n.devs k dev').length = n.devs.length := by
    have := congrArg List.length hkeys
    simpa [GoMap.keys] using this
  refine ⟨?_, fun j => ?_, fun p hp => ?_⟩
  · show (GoMap.keys (GoMap.set n.devs k dev')).Nodup
    rw [hkeys]; exact hwf.nodup
  · show j ∈ GoMap.keys (GoMap.set n.devs k dev') ↔ _
    rw [hkeys]
    show _ ↔ 0 ≤ j ∧ j < ((GoMap.set n.devs k dev').length : Int)
    rw [hlen]; exact hwf.keys j
  · have hp' : p ∈ GoMap.set n.devs k dev' := hp
    have hnd : (GoMap.keys (GoMap.set n.devs k dev')).Nodup := by rw [hkeys]; exact hwf.nodup
    have hg : GoMap.get? (GoMap.set n.devs k dev') p.1 = some p.2 :=
      GoMap.get?_of_mem _ hnd p.1 p.2 hp'
    rw [GoMap.get?_set] at hg
    by_cases hkp : k = p.1
    · rw [if_pos hkp] at hg
      have h2 : dev' = p.2 := by simpa using hg
      rw [← h2, hidx, ← hkp]
      exact hwf.idx (k, dev) (GoMap.mem_of_get? _ _ _ hget)
    · rw [if_neg hkp] at hg
      exact hwf.idx p (GoMap.mem_of_get? _ _ _ hg)

end NodeInfo

/-! ## The paths of `Allocate` -/

namespace NodeInfo

variable {σ : Type}

theorem Allocate_of_notFound {σ : Type} (w : World σ)
    (getConfigMap : String → Option ConfigMap) (n : NodeInfo) (s : σ) (pod : Pod)
    (h : (n.allocateGPUID getConfigMap pod).2 = false) :
    n.Allocate w getConfigMap s pod
      = { node := n, world := s, calls := [],
          outcome := .returned (some (cantPlaceError pod)) } := by
  unfold Allocate
  simp only [h, Bool.false_eq_true, if_false]

theorem bindAndRegister_bind_error (w : World σ) (n : NodeInfo) (s : σ) (calls : List Call)
    (pod newPod : Pod) (devId : Int) (e : String)
    (hb : (w.bind s pod.ns (n.bindingOf pod)).2 = some e) :
    bindAndRegister w n s calls pod newPod devId
      = { node := n, world := (w.bind s pod.ns (n.bindingOf pod)).1,
          calls := calls ++ [Call.bind pod.ns (n.bindingOf pod) (some e)],
          outcome := .returned (some e) } := by
  unfold bindingOf at hb ⊢
  unfold bindAndRegister
  simp only [hb]

theorem bindAndRegister_registered (w : World σ) (n : NodeInfo) (s : σ) (calls : List Call)
    (pod newPod : Pod) (devId : Int) (dev : DeviceInfo)
    (hb : (w.bind s pod.ns (n.bindingOf pod)).2 = none)
    (hd : GoMap.get? n.devs devId = some dev) :
    bindAndRegister w n s calls pod newPod devId
      = { node := { n with devs := GoMap.set n.devs devId (dev.addPod newPod) },
          world := (w.bind s pod.ns (n.bindingOf pod)).1,
          calls := calls ++ [Call.bind pod.ns (n.bindingOf pod) none],
          outcome := .returned none } := by
  unfold bindingOf at hb ⊢
  unfold bindAndRegister
  simp only [hb, hd]

theorem bindAndRegister_no_device (w : World σ) (n : NodeInfo) (s : σ) (calls : List Call)
    (pod newPod : Pod) (devId : Int)
    (hb : (w.bind s pod.ns (n.bindingOf pod)).2 = none)
    (hd : GoMap.get? n.devs devId = none) :
    bindAndRegister w n s calls pod newPod devId
      = { node := n, world := (w.bind s pod.ns (n.bindingOf pod)).1,
          calls := calls ++ [Call.bind pod.ns (n.bindingOf pod) none],
          outcome := .returned none } := by
  unfold bindingOf at hb ⊢
  unfold bindAndRegister
  simp only [hb, hd]

theorem Allocate_panic (w : World σ) (getConfigMap : String → Option ConfigMap)
    (n : NodeInfo) (s : σ) (pod : Pod)
    (hsel : (n.allocateGPUID getConfigMap pod).2 = true) (hcount : n.gpuCount = 0) :
    n.Allocate w getConfigMap s pod
      = { node := n, world := s, calls := [], outcome := .panicked } := by
  unfold Allocate
  simp only [hsel, if_true, GetGPUCount, hcount]

theorem Allocate_first_ok (w : World σ) (getConfigMap : String → Option ConfigMap)
    (n : NodeInfo) (s : σ) (pod : Pod)
    (hsel : (n.allocateGPUID getConfigMap pod).2 = true) (hcount : n.gpuCount ≠ 0)
    (hu : (firstUpdate w n s pod (n.allocateGPUID getConfigMap pod).1).2 = none) :
    n.Allocate w getConfigMap s pod
      = bindAndRegister w n (firstUpdate w n s pod (n.allocateGPUID getConfigMap pod).1).1
          [Call.update (firstPod w n s pod (n.allocateGPUID getConfigMap pod).1) none]
          pod (firstPod w n s pod (n.allocateGPUID getConfigMap pod).1)
          (n.allocateGPUID getConfigMap pod).1 := by
  unfold firstUpdate firstPod perDevice at hu
  unfold Allocate firstUpdate firstPod perDevice
  simp only [hsel, if_true, GetGPUCount, GetNodeTotalGPUMemory, hcount, if_false, hu]

theorem Allocate_first_error (w : World σ) (getConfigMap : String → Option ConfigMap)
    (n : NodeInfo) (s : σ) (pod : Pod) (e : String)
    (hsel : (n.allocateGPUID getConfigMap pod).2 = true) (hcount : n.gpuCount ≠ 0)
    (hu : (firstUpdate w n s pod (n.allocateGPUID getConfigMap pod).1).2 = some e)
    (he : e ≠ OptimisticLockErrorMsg) :
    n.Allocate w getConfigMap s pod
      = { node := n, world := (firstUpdate w n s pod (n.allocateGPUID getConfigMap pod).1).1,
          calls := [Call.update (firstPod w n s pod (n.allocateGPUID getConfigMap pod).1)
            (some e)],
          outcome := .returned (some e) } := by
  unfold firstUpdate firstPod perDevice at hu
  unfold Allocate firstUpdate firstPod perDevice
  simp only [hsel, if_true, GetGPUCount, GetNodeTotalGPUMemory, hcount, if_false, hu, he]

theorem Allocate_refetch_error (w : World σ) (getConfigMap : String → Option ConfigMap)
    (n : NodeInfo) (s : σ) (pod : Pod) (e : String)
    (hsel : (n.allocateGPUID getConfigMap pod).2 = true) (hcount : n.gpuCount ≠ 0)
    (hu : (firstUpdate w n s pod (n.allocateGPUID getConfigMap pod).1).2
      = some OptimisticLockErrorMsg)
    (hg : (refetch w n s pod (n.allocateGPUID getConfigMap pod).1).2 = .error e) :
    n.Allocate w getConfigMap s pod
      = { node := n, world := (refetch w n s pod (n.allocateGPUID getConfigMap pod).1).1,
          calls := [Call.update (firstPod w n s pod (n.allocateGPUID getConfigMap pod).1)
              (some OptimisticLockErrorMsg),
            Call.get pod.ns pod.name (.error e)],
          outcome := .returned (some e) } := by
  unfold refetch firstUpdate firstPod perDevice at hg
  unfold firstUpdate firstPod perDevice at hu
  unfold Allocate refetch firstUpdate firstPod perDevice
  simp only [hsel, if_true, GetGPUCount, GetNodeTotalGPUMemory, hcount, if_false, hu, hg, List.singleton_append]

theorem Allocate_second_error (w : World σ) (getConfigMap : String → Option ConfigMap)
    (n : NodeInfo) (s : σ) (pod pod' : Pod) (e : String)
    (hsel : (n.allocateGPUID getConfigMap pod).2 = true) (hcount : n.gpuCount ≠ 0)
    (hu : (firstUpdate w n s pod (n.allocateGPUID getConfigMap pod).1).2
      = some OptimisticLockErrorMsg)
    (hg : (refetch w n s pod (n.allocateGPUID getConfigMap pod).1).2 = .ok pod')
    (hu2 : (secondUpdate w n s pod (n.allocateGPUID getConfigMap pod).1 pod').2 = some e) :
    n.Allocate w getConfigMap s pod
      = { node := n,
          world := (secondUpdate w n s pod (n.allocateGPUID getConfigMap pod).1 pod').1,
          calls := [Call.update (firstPod w n s pod (n.allocateGPUID getConfigMap pod).1)
              (some OptimisticLockErrorMsg),
            Call.get pod.ns pod.name (.ok pod'),
            Call.update (secondPod w n s pod (n.allocateGPUID getConfigMap pod).1 pod')
              (some e)],
          outcome := .returned (some e) } := by
  unfold secondUpdate secondPod refetch firstUpdate firstPod perDevice at hu2
  unfold refetch firstUpdate firstPod perDevice at hg
  unfold firstUpdate firstPod perDevice at hu
  unfold Allocate secondUpdate secondPod refetch firstUpdate firstPod perDevice
  simp only [hsel, if_true, GetGPUCount, GetNodeTotalGPUMemory, hcount, if_false, hu, hg, hu2, List.singleton_append,
    List.cons_append, List.nil_append]

theorem Allocate_second_ok (w : World σ) (getConfigMap : String → Option ConfigMap)
    (n : NodeInfo) (s : σ) (pod pod' : Pod)
    (hsel : (n.allocateGPUID getConfigMap pod).2 = true) (hcount : n.gpuCount ≠ 0)
    (hu : (firstUpdate w n s pod (n.allocateGPUID getConfigMap pod).1).2
      = some OptimisticLockErrorMsg)
    (hg : (refetch w n s pod (n.allocateGPUID getConfigMap pod).1).2 = .ok pod')
    (hu2 : (secondUpdate w n s pod (n.allocateGPUID getConfigMap pod).1 pod').2 = none) :
    n.Allocate w getConfigMap s pod
      = bindAndRegister w n
          (secondUpdate w n s pod (n.allocateGPUID getConfigMap pod).1 pod').1
          [Call.update (firstPod w n s pod (n.allocateGPUID getConfigMap pod).1)
              (some OptimisticLockErrorMsg),
            Call.get pod.ns pod.name (.ok pod'),
            Call.update (secondPod w n s pod (n.allocateGPUID getConfigMap pod).1 pod') none]
          pod' (secondPod w n s pod (n.allocateGPUID getConfigMap pod).1 pod')
          (n.allocateGPUID getConfigMap pod).1 := by
  unfold secondUpdate secondPod refetch firstUpdate firstPod perDevice at hu2
  unfold refetch firstUpdate firstPod perDevice at hg
  unfold firstUpdate firstPod perDevice at hu
  unfold Allocate secondUpdate secondPod refetch firstUpdate firstPod perDevice
  simp only [hsel, if_true, GetGPUCount, GetNodeTotalGPUMemory, hcount, if_false, hu, hg, hu2, List.singleton_append,
    List.cons_append, List.nil_append]

/-- What `bindAndRegister` can leave behind. -/
theorem bindAndRegister_cases (w : World σ) (n : NodeInfo) (s : σ) (calls : List Call)
    (pod newPod : Pod) (devId : Int) :
    ((bindAndRegister w n s calls pod newPod devId).node = n
      ∧ ((∃ e, (bindAndRegister w n s calls pod newPod devId).outcome = .returned (some e))
          ∨ GoMap.get? n.devs devId = none))
    ∨ (∃ dev, GoMap.get? n.devs devId = some dev
        ∧ (w.bind s pod.ns (n.bindingOf pod)).2 = none
        ∧ (bindAndRegister w n s calls pod newPod devId).outcome = .returned none
        ∧ (bindAndRegister w n s calls pod newPod devId).node
            = { n with devs := GoMap.set n.devs devId (dev.addPod newPod) }) := by
  cases hb : (w.bind s pod.ns (n.bindingOf pod)).2 with
  | some e =>
    rw [bindAndRegister_bind_error w n s calls pod newPod devId e hb]
    exact Or.inl ⟨rfl, Or.inl ⟨e, rfl⟩⟩
  | none =>
    cases hd : GoMap.get? n.devs devId with
    | none =>
      rw [bindAndRegister_no_device w n s calls pod newPod devId hb hd]
      exact Or.inl ⟨rfl, Or.inr rfl⟩
    | some dev =>
      rw [bindAndRegister_registered w n s calls pod newPod devId dev hb hd]
      exact Or.inr ⟨dev, rfl, rfl, rfl, rfl⟩

/-- What `Allocate` can leave behind: either the node is as it was (and the call did not
return nil, unless the selected index is not a key of the device map), or the call returned
nil after registering, on the selected device, the pod of the last update: the pod made from
the input pod, or, after one conflict, the pod made from the re-fetched pod. -/
theorem Allocate_cases (w : World σ) (getConfigMap : String → Option ConfigMap)
    (n : NodeInfo) (s : σ) (pod : Pod) :
    ((n.Allocate w getConfigMap s pod).node = n
      ∧ ((n.Allocate w getConfigMap s pod).outcome ≠ .returned none
          ∨ GoMap.get? n.devs (n.allocateGPUID getConfigMap pod).1 = none))
    ∨ (∃ committed stored dev,
        (n.allocateGPUID getConfigMap pod).2 = true
        ∧ n.gpuCount ≠ 0
        ∧ GoMap.get? n.devs (n.allocateGPUID getConfigMap pod).1 = some dev
        ∧ (n.Allocate w getConfigMap s pod).outcome = .returned none
        ∧ (n.Allocate w getConfigMap s pod).node
            = { n with devs := (GoMap.set n.devs (n.allocateGPUID getConfigMap pod).1
                  (dev.addPod stored)) }
        ∧ ((committed = pod
              ∧ stored = firstPod w n s pod (n.allocateGPUID getConfigMap pod).1)
            ∨ ((refetch w n s pod (n.allocateGPUID getConfigMap pod).1).2 = .ok committed
              ∧ stored
                = secondPod w n s pod (n.allocateGPUID getConfigMap pod).1 committed))) := by
  cases hsel : (n.allocateGPUID getConfigMap pod).2 with
  | false =>
    rw [Allocate_of_notFound w getConfigMap n s pod hsel]
    exact Or.inl ⟨rfl, Or.inl (by simp)⟩
  | true =>
    by_cases hcount : n.gpuCount = 0
    · rw [Allocate_panic w getConfigMap n s pod hsel hcount]
      exact Or.inl ⟨rfl, Or.inl (by simp)⟩
    · cases hu : (firstUpdate w n s pod (n.allocateGPUID getConfigMap pod).1).2 with
      | none =>
        rw [Allocate_first_ok w getConfigMap n s pod hsel hcount hu]
        rcases bindAndRegister_cases w n
            (firstUpdate w n s pod (n.allocateGPUID getConfigMap pod).1).1
            [Call.update (firstPod w n s pod (n.allocateGPUID getConfigMap pod).1) none]
            pod (firstPod w n s pod (n.allocateGPUID getConfigMap pod).1)
            (n.allocateGPUID getConfigMap pod).1 with ⟨h1, h2⟩ | ⟨dev, h1, _, h3, h4⟩
        · refine Or.inl ⟨h1, ?_⟩
          rcases h2 with ⟨e, he⟩ | h2
          · exact Or.inl (by rw [he]; simp)
          · exact Or.inr h2
        · exact Or.inr ⟨pod, _, dev, rfl, hcount, h1, h3, h4, Or.inl ⟨rfl, rfl⟩⟩
      | some e =>
        by_cases he : e = OptimisticLockErrorMsg
        · subst he
          cases hg : (refetch w n s pod (n.allocateGPUID getConfigMap pod).1).2 with
          | error e2 =>
            rw [Allocate_refetch_error w getConfigMap n s pod e2 hsel hcount hu hg]
            exact Or.inl ⟨rfl, Or.inl (by simp)⟩
          | ok pod' =>
            cases hu2 : (secondUpdate w n s pod (n.allocateGPUID getConfigMap pod).1 pod').2 with
            | some e2 =>
              rw [Allocate_second_error w getConfigMap n s pod pod' e2 hsel hcount hu hg hu2]
              exact Or.inl ⟨rfl, Or.inl (by simp)⟩
            | none =>
              rw [Allocate_second_ok w getConfigMap n s pod pod' hsel hcount hu hg hu2]
              rcases bindAndRegister_cases w n
                  (secondUpdate w n s pod (n.allocateGPUID getConfigMap pod).1 pod').1
                  [Call.update (firstPod w n s pod (n.allocateGPUID getConfigMap pod).1)
                      (some OptimisticLockErrorMsg),
                    Call.get pod.ns pod.name (.ok pod'),
                    Call.update
                      (secondPod w n s pod (n.allocateGPUID getConfigMap pod).1 pod') none]
                  pod' (secondPod w n s pod (n.allocateGPUID getConfigMap pod).1 pod')
                  (n.allocateGPUID getConfigMap pod).1 with ⟨h1, h2⟩ | ⟨dev, h1, _, h3, h4⟩
              · refine Or.inl ⟨h1, ?_⟩
                rcases h2 with ⟨e, he⟩ | h2
                · exact Or.inl (by rw [he]; simp)
                · exact Or.inr h2
              · exact Or.inr ⟨pod', _, dev, rfl, hcount, h1, h3, h4, Or.inr ⟨rfl, rfl⟩⟩
        · rw [Allocate_first_error w getConfigMap n s pod e hsel hcount hu he]
          exact Or.inl ⟨rfl, Or.inl (by simp)⟩

end NodeInfo

/-! ## Used shares of a device -/

namespace DeviceInfo

theorem foldl_used (l : List (String × Pod)) (acc : Nat) :
    l.foldl
      (fun gpuMem entry =>
        if entry.2.phase = PodSucceeded ∨ entry.2.phase = PodFailed then gpuMem
        else uadd gpuMem ( GetXPUSharesFromPodAnnotation entry.2)) acc % wordSize
      = (acc + (l.map (fun e => contribution e.2)).sum) % wordSize := by
  induction l generalizing acc with
  | nil => simp
  | cons e es ih =>
    rw [List.foldl_cons, ih, List.map_cons, List.sum_cons]
    by_cases ht : e.2.phase = PodSucceeded ∨ e.2.phase = PodFailed
    · simp [contribution, terminal, ht]
    · simp only [contribution, terminal, ht, decide_False, if_false, uadd, Bool.false_eq_true]
      rw [Nat.add_mod, Nat.mod_mod, ← Nat.add_mod, Nat.add_assoc]

theorem foldl_used_lt (l : List (String × Pod)) (acc : Nat) (h : acc < wordSize) :
    l.foldl
      (fun gpuMem entry =>
        if entry.2.phase = PodSucceeded ∨ entry.2.phase = PodFailed then gpuMem
        else uadd gpuMem ( GetXPUSharesFromPodAnnotation entry.2)) acc < wordSize := by
  induction l generalizing acc with
  | nil => simpa using h
  | cons e es ih =>
    rw [List.foldl_cons]
    apply ih
    by_cases ht : e.2.phase = PodSucceeded ∨ e.2.phase = PodFailed
    · simpa [ht] using h
    · simp only [ht, if_false, uadd]
      exact Nat.mod_lt _ (by unfold wordSize; norm_num)

/-- The used shares are the sum of the contributions, reduced modulo `2 ^ 64`. -/
theorem GetDevUsedXPUShares_eq (d : DeviceInfo) :
    d.GetDevUsedXPUShares = d.usedExact % wordSize := by
  have h1 := foldl_used d.podMap 0
  have h2 := foldl_used_lt d.podMap 0 (by unfold wordSize; norm_num)
  rw [Nat.mod_eq_of_lt h2, Nat.zero_add] at h1
  exact h1

theorem GetDevUsedXPUShares_le (d : DeviceInfo) : d.GetDevUsedXPUShares ≤ d.usedExact := by
  rw [GetDevUsedXPUShares_eq]
  exact Nat.mod_le _ _

theorem usedExact_eq_live (d : DeviceInfo) :
    d.usedExact = (d.liveOccupants.map GetXPUSharesFromPodAnnotation).sum := by
  unfold usedExact liveOccupants
  induction d.podMap with
  | nil => rfl
  | cons e es ih =>
    rw [List.map_cons, List.sum_cons, ih, List.map_cons, List.filter_cons]
    by_cases ht : terminal e.2 = true
    · simp [contribution, ht]
    · simp [contribution, ht]

theorem uintSum_eq (l : List Nat) : uintSum l = l.sum % wordSize := by
  induction l with
  | nil => simp [uintSum, wordSize]
  | cons a as ih =>
    have ih' : List.foldr uadd 0 as = as.sum % wordSize := ih
    simp only [uintSum, List.foldr_cons, List.sum_cons, uadd, ih']
    rw [Nat.add_mod, Nat.mod_mod, ← Nat.add_mod]

end DeviceInfo

/-! ## `strconv.Atoi` reads back what `fmt.Sprintf("%d", _)` writes -/

theorem digitVal_digitChar (d : Nat) (h : d < 10) : digitVal (digitChar d) = some d := by
  interval_cases d <;> decide

theorem digitChar_not_sign (d : Nat) (h : d < 10) :
    digitChar d ≠ '-' ∧ digitChar d ≠ '+' := by
  interval_cases d <;> decide

theorem parseDigits_append (a b : List Char) (acc : Nat) :
    parseDigits (a ++ b) acc = (parseDigits a acc).bind (parseDigits b) := by
  induction a generalizing acc with
  | nil => simp [parseDigits]
  | cons c cs ih =>
    simp only [List.cons_append, parseDigits]
    cases digitVal c with
    | none => simp
    | some d => simpa using ih _

theorem natDigits_spec (fuel n : Nat) (acc : List Char) (h : n < fuel) :
    ∃ c cs, natDigits fuel n acc = (c :: cs) ++ acc ∧ parseDigits (c :: cs) 0 = some n
      ∧ c ≠ '-' ∧ c ≠ '+' := by
  induction fuel generalizing n acc with
  | zero => omega
  | succ fuel ih =>
    unfold natDigits
    have hmod : n % 10 < 10 := Nat.mod_lt _ (by norm_num)
    by_cases hz : n / 10 = 0
    · rw [if_pos hz]
      have hn : n % 10 = n := by omega
      refine ⟨digitChar (n % 10), [], rfl, ?_, digitChar_not_sign _ hmod⟩
      simp only [parseDigits, digitVal_digitChar _ hmod]
      congr 1
      omega
    · rw [if_neg hz]
      obtain ⟨c, cs, h1, h2, h3⟩ := ih (n / 10) (digitChar (n % 10) :: acc) (by omega)
      refine ⟨c, cs ++ [digitChar (n % 10)], ?_, ?_, h3⟩
      · rw [h1]; simp
      · rw [← List.cons_append, parseDigits_append, h2]
        simp only [Option.some_bind, parseDigits, digitVal_digitChar _ hmod]
        congr 1
        omega

theorem fmtNat_spec (n : Nat) :
    ∃ c cs, fmtNat n = c :: cs ∧ parseDigits (c :: cs) 0 = some n ∧ c ≠ '-' ∧ c ≠ '+' := by
  obtain ⟨c, cs, h1, h2, h3⟩ := natDigits_spec (n + 1) n [] (by omega)
  exact ⟨c, cs, by simpa [fmtNat] using h1, h2, h3⟩

theorem parseDigits_le (cs : List Char) (acc m : Nat) (h : parseDigits cs acc = some m) :
    acc ≤ m := by
  induction cs generalizing acc with
  | nil =>
    simp only [parseDigits, Option.some.injEq] at h
    omega
  | cons c cs ih =>
    simp only [parseDigits] at h
    cases hd : digitVal c with
    | none => rw [hd] at h; cases h
    | some d =>
      rw [hd] at h
      have := ih _ h
      omega

/-- On a digit string whose value is in the range of `uint64` the loop of `ParseUint`
returns that value. -/
theorem parseUintLoop_of_parseDigits (cs : List Char) (acc m : Nat)
    (h : parseDigits cs acc = some m) (hm : m ≤ maxUint64) :
    parseUintLoop cs acc = .value m := by
  induction cs generalizing acc with
  | nil =>
    simp only [parseDigits, Option.some.injEq] at h
    simp only [parseUintLoop, h]
  | cons c cs ih =>
    simp only [parseDigits] at h
    cases hd : digitVal c with
    | none => rw [hd] at h; cases h
    | some d =>
      rw [hd] at h
      have hle := parseDigits_le _ _ _ h
      have h1 : ¬ acc ≥ maxUint64 / 10 + 1 := by
        unfold maxUint64 at hm ⊢
        omega
      have h2 : ¬ acc * 10 + d > maxUint64 := by omega
      simp only [parseUintLoop, hd, h1, h2, if_false]
      exact ih _ h

/-- Reading back the decimal form of an `int`. -/
theorem Atoi_fmtInt (x : Int) (h0 : minInt ≤ x) (h1 : x ≤ maxInt) : Atoi (fmtInt x) = (x, false) := by
  unfold minInt at h0
  unfold maxInt at h1
  unfold fmtInt
  by_cases hneg : x < 0
  · rw [if_pos hneg]
    obtain ⟨c, cs, e1, e2, _⟩ := fmtNat_spec x.natAbs
    have hl := parseUintLoop_of_parseDigits (c :: cs) 0 x.natAbs e2
      (by unfold maxUint64; omega)
    have hle : ¬ x.natAbs > 2 ^ 63 := by omega
    unfold Atoi
    simp only [e1, true_or, or_true, if_true, ParseUint, hl, decide_True, Bool.true_eq_false,
      false_and, if_false, hle, and_false]
    congr 1
    omega
  · rw [if_neg hneg]
    obtain ⟨c, cs, e1, e2, e3, e4⟩ := fmtNat_spec x.toNat
    have hl := parseUintLoop_of_parseDigits (c :: cs) 0 x.toNat e2
      (by unfold maxUint64; omega)
    have hle : ¬ x.toNat ≥ 2 ^ 63 := by omega
    unfold Atoi
    simp only [e1, e3, e4, or_self, if_false, ParseUint, hl, decide_False, hle, and_false,
      Bool.false_eq_true, false_and]
    congr 1
    omega

/-- Digits that leave the range are a range error at the digit where they do, also when a
character that is not a digit follows; a character that is not a digit before that point is
a syntax error. -/
theorem Atoi_range_before_syntax :
    Atoi "99999999999999999999x" = (maxInt, true)
    ∧ Atoi "-99999999999999999999x" = (minInt, true)
    ∧ Atoi "9x9999999999999999999" = (0, true)
    ∧ Atoi "-9223372036854775808" = (minInt, false)
    ∧ Atoi "9223372036854775807" = (maxInt, false) := by
  decide

/-! ## The pod written by `GetUpdatedPodAnnotationSpec` -/

theorem GoMap.length_set_pos {K V : Type} [DecidableEq K] (m : GoMap K V) (k : K) (v : V) :
    0 < (GoMap.set m k v).length := by
  cases m with
  | nil => simp [GoMap.set]
  | cons p rest =>
    obtain ⟨a, b⟩ := p
    by_cases h : a = k <;> simp [GoMap.set, h]

theorem GetUpdated_uid (p : Pod) (d t now : Int) :
    (GetUpdatedPodAnnotationSpec p d t now).uid = p.uid := rfl

theorem GetUpdated_phase (p : Pod) (d t now : Int) :
    (GetUpdatedPodAnnotationSpec p d t now).phase = p.phase := rfl

theorem GetUpdated_request (p : Pod) (d t now : Int) :
    GetRequestXPUSharesFromPodResource (GetUpdatedPodAnnotationSpec p d t now)
      = GetRequestXPUSharesFromPodResource p := rfl

theorem GetUpdated_index (p : Pod) (d t now : Int) :
    GoMap.get? (GetUpdatedPodAnnotationSpec p d t now).annotations EnvResourceIndex
      = some (fmtInt d) := by
  unfold GetUpdatedPodAnnotationSpec
  simp only [GoMap.get?_set]
  rw [if_neg (by decide), if_neg (by decide), if_neg (by decide), if_neg (by decide)]
  exact if_pos trivial

theorem GetUpdated_byPod (p : Pod) (d t now : Int) :
    GoMap.get? (GetUpdatedPodAnnotationSpec p d t now).annotations EnvResourceByPod
      = some (fmtInt (GetRequestXPUSharesFromPodResource p)) := by
  unfold GetUpdatedPodAnnotationSpec
  simp only [GoMap.get?_set]
  rw [if_neg (by decide), if_neg (by decide)]
  exact if_pos trivial

theorem GetUpdated_length (p : Pod) (d t now : Int) :
    0 < (GetUpdatedPodAnnotationSpec p d t now).annotations.length := by
  unfold GetUpdatedPodAnnotationSpec
  exact GoMap.length_set_pos _ _ _

/-- The device index read back from the written pod. -/
theorem GetGPUID_GetUpdated (p : Pod) (d t now : Int) (h0 : minInt ≤ d) (h1 : d ≤ maxInt) :
    GetGPUIDFromAnnotation (GetUpdatedPodAnnotationSpec p d t now) = d := by
  unfold GetGPUIDFromAnnotation
  rw [if_pos (GetUpdated_length p d t now), GetUpdated_index]
  simp only [Atoi_fmtInt d h0 h1]
  rfl

/-- The shares read back from the written pod: the request, or zero for a negative one. -/
theorem GetXPUShares_GetUpdated (p : Pod) (d t now : Int) :
    GetXPUSharesFromPodAnnotation (GetUpdatedPodAnnotationSpec p d t now)
      = if GetRequestXPUSharesFromPodResource p < 0 then 0
        else (GetRequestXPUSharesFromPodResource p).toNat := by
  have hr := GetRequest_range p
  unfold GetXPUSharesFromPodAnnotation
  rw [if_pos (GetUpdated_length p d t now), GetUpdated_byPod]
  simp only [Atoi_fmtInt _ hr.1 hr.2]
  unfold maxInt at hr
  by_cases hneg : GetRequestXPUSharesFromPodResource p < 0
  · simp only [hneg, if_true]
    decide
  · simp only [hneg, if_false]
    unfold uadd toUint wordSize
    rw [Nat.zero_add]
    have h2 : GetRequestXPUSharesFromPodResource p % 2 ^ 64
        = GetRequestXPUSharesFromPodResource p :=
      Int.emod_eq_of_lt (by omega) (by omega)
    rw [h2]
    apply Nat.mod_eq_of_lt
    omega

theorem contribution_GetUpdated_le (p : Pod) (d t now : Int) :
    DeviceInfo.contribution (GetUpdatedPodAnnotationSpec p d t now)
      ≤ toUint (GetRequestXPUSharesFromPodResource p) := by
  have hr := GetRequest_range p
  unfold maxInt at hr
  unfold DeviceInfo.contribution
  by_cases ht : DeviceInfo.terminal (GetUpdatedPodAnnotationSpec p d t now) = true
  · rw [if_pos ht]; exact Nat.zero_le _
  · rw [if_neg ht, GetXPUShares_GetUpdated]
    by_cases hneg : GetRequestXPUSharesFromPodResource p < 0
    · rw [if_pos hneg]; exact Nat.zero_le _
    · rw [if_neg hneg]
      unfold toUint
      have h2 : GetRequestXPUSharesFromPodResource p % 2 ^ 64
          = GetRequestXPUSharesFromPodResource p :=
        Int.emod_eq_of_lt (by omega) (by omega)
      rw [h2]

/-! ## The capacity invariant -/

theorem GoMap.mem_set {K V : Type} [DecidableEq K] (m : GoMap K V) (k : K) (v : V)
    (p : K × V) (h : p ∈ GoMap.set m k v) : p = (k, v) ∨ p ∈ m := by
  induction m with
  | nil => simpa [GoMap.set] using h
  | cons q rest ih =>
    obtain ⟨a, b⟩ := q
    by_cases hk : a = k
    · simp only [GoMap.set, hk, if_true, List.mem_cons] at h
      rcases h with h | h
      · exact Or.inl h
      · exact Or.inr (List.mem_cons_of_mem _ h)
    · simp only [GoMap.set, hk, if_false, List.mem_cons] at h
      rcases h with h | h
      · exact Or.inr (h ▸ List.mem_cons_self _ _)
      · rcases ih h with h | h
        · exact Or.inl h
        · exact Or.inr (List.mem_cons_of_mem _ h)

theorem GoMap.sum_set_le {K V : Type} [DecidableEq K] (f : V → Nat) (m : GoMap K V) (k : K)
    (v : V) :
    ((GoMap.set m k v).map (fun e => f e.2)).sum ≤ (m.map (fun e => f e.2)).sum + f v := by
  induction m with
  | nil => simp [GoMap.set]
  | cons q rest ih =>
    obtain ⟨a, b⟩ := q
    by_cases hk : a = k
    · simp only [GoMap.set, hk, if_true, List.map_cons, List.sum_cons]
      omega
    · simp only [GoMap.set, hk, if_false, List.map_cons, List.sum_cons]
      omega

theorem usub_mod_le (total u : Nat) (h : u ≤ total) :
    usub total (u % wordSize) ≤ total - u := by
  unfold usub wordSize
  have h1 := Int.emod_nonneg ((total : Int) - ((u % 2 ^ 64 : Nat) : Int))
    (by norm_num : (2 : Int) ^ 64 ≠ 0)
  omega

namespace DeviceInfo

theorem usedExact_addPod_le (d : DeviceInfo) (pod : Pod) :
    (d.addPod pod).usedExact ≤ d.usedExact + contribution pod :=
  GoMap.sum_set_le contribution d.podMap pod.uid pod

theorem available_le (d : DeviceInfo) (h : d.usedExact ≤ d.totalXPUShares) :
    d.available ≤ d.totalXPUShares - d.usedExact := by
  unfold available
  rw [GetDevUsedXPUShares_eq]
  exact usub_mod_le _ _ h

/-- On a device whose used shares are within its capacity, the value that
`getAvailableXPUs` stores is the capacity minus the used shares. -/
theorem available_eq_sub (d : DeviceInfo) (h : d.GetDevUsedXPUShares ≤ d.totalXPUShares)
    (ht : d.totalXPUShares < wordSize) :
    d.available = d.totalXPUShares - d.GetDevUsedXPUShares := by
  unfold available usub
  unfold wordSize at ht
  have h1 : (0 : Int) ≤ (d.totalXPUShares : Int) - (d.GetDevUsedXPUShares : Int) := by omega
  rw [Int.emod_eq_of_lt h1 (by omega)]
  omega

end DeviceInfo

namespace NodeInfo

variable {σ : Type}

/-- `Allocate` keeps the shape of the device map. -/
theorem Allocate_WF (w : World σ) (getConfigMap : String → Option ConfigMap) (n : NodeInfo)
    (s : σ) (pod : Pod) (hwf : n.WF) : (n.Allocate w getConfigMap s pod).node.WF := by
  rcases Allocate_cases w getConfigMap n s pod with ⟨h1, _⟩ | ⟨_, stored, dev, _, _, h3, _, h5, _⟩
  · rw [h1]; exact hwf
  · rw [h5]; exact hwf.set_same _ dev (dev.addPod stored) h3 rfl

/-- One `Allocate` keeps every device within its capacity, when a re-fetched pod asks for
what the input pod asks for. -/
theorem Allocate_withinCapacity (w : World σ) (getConfigMap : String → Option ConfigMap)
    (n : NodeInfo) (s : σ) (pod : Pod) (hwf : n.WF) (hcap : n.WithinCapacity)
    (hre : RefetchKeepsRequest w pod) :
    (n.Allocate w getConfigMap s pod).node.WithinCapacity := by
  rcases Allocate_cases w getConfigMap n s pod with
    ⟨h1, _⟩ | ⟨committed, stored, dev, hsel, _, h3, _, h5, h6⟩
  · rw [h1]; exact hcap
  · rw [h5]
    intro e he
    rcases GoMap.mem_set _ _ _ _ he with h | h
    · rw [h]
      show (dev.addPod stored).usedExact ≤ dev.totalXPUShares
      have hdev : dev.usedExact ≤ dev.totalXPUShares :=
        hcap (_, dev) (GoMap.mem_of_get? _ _ _ h3)
      obtain ⟨_, dev', hd', _, hfit, _⟩ :=
        allocateGPUID_found getConfigMap hwf pod (n.allocateGPUID getConfigMap pod).1
          (by rw [← hsel])
      rw [h3] at hd'
      cases hd'
      have hav := dev.available_le hdev
      have hadd := dev.usedExact_addPod_le stored
      have hreq : GetRequestXPUSharesFromPodResource committed
          = GetRequestXPUSharesFromPodResource pod := by
        rcases h6 with ⟨hc, _⟩ | ⟨hg, _⟩
        · rw [hc]
        · exact hre _ committed hg
      have hcontrib : DeviceInfo.contribution stored
          ≤ toUint (GetRequestXPUSharesFromPodResource pod) := by
        rw [← hreq]
        rcases h6 with ⟨hc, hs⟩ | ⟨_, hs⟩
        · rw [hs, hc]; exact contribution_GetUpdated_le pod _ _ _
        · rw [hs]; exact contribution_GetUpdated_le committed _ _ _
      omega
    · exact hcap e h

end NodeInfo

/-! ## A freshly constructed node, and sequences of `Allocate` calls -/

theorem GoMap.set_of_not_mem {K V : Type} [DecidableEq K] (m : GoMap K V) (k : K) (v : V)
    (h : k ∉ GoMap.keys m) : GoMap.set m k v = m ++ [(k, v)] := by
  induction m with
  | nil => rfl
  | cons q rest ih =>
    obtain ⟨a, b⟩ := q
    simp only [GoMap.keys, List.map_cons, List.mem_cons, not_or] at h
    have hne : ¬ a = k := fun e => h.1 e.symm
    simp only [GoMap.set, hne, if_false, List.cons_append]
    rw [ih h.2]

theorem buildDevMap_eq (count : Int) (perDev : Nat) :
    buildDevMap count perDev
      = (List.range count.toNat).map
          (fun (i : Nat) => ((i : Int), newDeviceInfo (i : Int) perDev)) := by
  unfold buildDevMap
  induction count.toNat with
  | zero => rfl
  | succ c ih =>
    rw [List.range_succ, List.foldl_append, List.map_append, ih]
    simp only [List.foldl_cons, List.foldl_nil, List.map_cons, List.map_nil]
    apply GoMap.set_of_not_mem
    simp only [GoMap.keys, List.map_map, List.mem_map, List.mem_range, Function.comp, not_exists,
      not_and]
    intro j hj e
    have : (j : Int) = (c : Int) := e
    omega

namespace NodeInfo

variable {σ : Type}

theorem WF.of_buildDevMap (n : NodeInfo) (count : Int) (perDev : Nat)
    (h : n.devs = buildDevMap count perDev) : n.WF := by
  apply WF.of_range
  · rw [h, buildDevMap_eq]
    simp [GoMap.keys, Function.comp]
  · intro p hp
    rw [h, buildDevMap_eq] at hp
    obtain ⟨i, _, rfl⟩ := List.mem_map.1 hp
    rfl

theorem NewNodeInfo_WF (node : Node) : (NewNodeInfo node).WF :=
  WF.of_buildDevMap _ _ _ rfl

theorem NewNodeInfo_withinCapacity (node : Node) : (NewNodeInfo node).WithinCapacity := by
  intro e he
  have he' : e ∈ buildDevMap (GetGPUCountInNode node)
      (toUint (idiv (GetXPUSharesCapacity node) (GetGPUCountInNode node))) := he
  rw [buildDevMap_eq] at he'
  obtain ⟨i, _, rfl⟩ := List.mem_map.1 he'
  exact Nat.zero_le _

/-- A sequence of `Allocate` calls keeps the shape of the device map and keeps every device
within its capacity, when every re-fetched pod asks for what the pod of its call asks
for. -/
theorem allocateAll_invariant (w : World σ)
    (calls : List ((String → Option ConfigMap) × Pod)) (n : NodeInfo) (s : σ)
    (hwf : n.WF) (hcap : n.WithinCapacity)
    (hre : ∀ c ∈ calls, RefetchKeepsRequest w c.2) :
    (allocateAll w n s calls).1.WF ∧ (allocateAll w n s calls).1.WithinCapacity := by
  induction calls generalizing n s with
  | nil => exact ⟨hwf, hcap⟩
  | cons c rest ih =>
    unfold allocateAll
    exact ih _ _ (Allocate_WF w c.1 n s c.2 hwf)
      (Allocate_withinCapacity w c.1 n s c.2 hwf hcap (hre c (List.mem_cons_self _ _)))
      (fun c' hc' => hre c' (List.mem_cons_of_mem _ hc'))

theorem WithinCapacity.used_le {n : NodeInfo} (h : n.WithinCapacity) :
    ∀ e ∈ n.devs, e.2.GetDevUsedXPUShares ≤ e.2.totalXPUShares :=
  fun e he => le_trans e.2.GetDevUsedXPUShares_le (h e he)

end NodeInfo

/-! The other methods that write the node keep the shape of the device map. -/

namespace NodeInfo

theorem WF.of_devs_eq {n m : NodeInfo} (h : m.devs = n.devs) (hwf : n.WF) : m.WF :=
  ⟨by rw [h]; exact hwf.nodup, fun k => by rw [h]; exact hwf.keys k,
    fun p hp => hwf.idx p (h ▸ hp)⟩

theorem Reset_WF (n : NodeInfo) (node : Node) (hwf : n.WF) : (n.Reset node).WF := by
  unfold Reset
  simp only []
  split
  · exact WF.of_buildDevMap _ _ _ rfl
  · exact @WF.of_devs_eq n _ rfl hwf

theorem addOrUpdatePod_WF (n : NodeInfo) (pod : Pod) (hwf : n.WF) :
    (n.addOrUpdatePod pod).1.WF := by
  unfold addOrUpdatePod
  simp only []
  split
  · cases hd : GoMap.get? n.devs ( GetGPUIDFromAnnotation pod) with
    | none => exact hwf
    | some dev => exact hwf.set_same _ dev (dev.addPod pod) hd rfl
  · exact hwf

theorem removePod_WF (n : NodeInfo) (pod : Pod) (hwf : n.WF) : (n.removePod pod).WF := by
  unfold removePod
  simp only []
  split
  · cases hd : GoMap.get? n.devs ( GetGPUIDFromAnnotation pod) with
    | none => exact hwf
    | some dev => exact hwf.set_same _ dev (dev.removePod pod) hd rfl
  · exact hwf

end NodeInfo

/-! ## What a successful bind in the trace of `Allocate` tells -/

namespace NodeInfo

variable {σ : Type}

/-- When the trace of `Allocate` holds a bind that succeeded, the call went through a
successful update of the pod made from the committed pod (the input pod, or the re-fetched
pod after one conflict), returned nil, and registered that pod on the selected device. -/
theorem Allocate_of_bind_ok (w : World σ) (getConfigMap : String → Option ConfigMap)
    (n : NodeInfo) (s : σ) (pod : Pod) (hwf : n.WF)
    (hb : ∃ ns b, Call.bind ns b none ∈ (n.Allocate w getConfigMap s pod).calls) :
    ∃ committed stored dev now,
      (n.allocateGPUID getConfigMap pod).2 = true
      ∧ (committed = pod
          ∨ (refetch w n s pod (n.allocateGPUID getConfigMap pod).1).2 = .ok committed)
      ∧ stored = GetUpdatedPodAnnotationSpec committed (n.allocateGPUID getConfigMap pod).1
          n.perDevice now
      ∧ Call.update stored none ∈ (n.Allocate w getConfigMap s pod).calls
      ∧ GoMap.get? n.devs (n.allocateGPUID getConfigMap pod).1 = some dev
      ∧ (n.Allocate w getConfigMap s pod).outcome = .returned none
      ∧ (n.Allocate w getConfigMap s pod).node
          = { n with devs := (GoMap.set n.devs (n.allocateGPUID getConfigMap pod).1
                (dev.addPod stored)) } := by
  obtain ⟨ns, b, hb⟩ := hb
  cases hsel : (n.allocateGPUID getConfigMap pod).2 with
  | false =>
    rw [Allocate_of_notFound w getConfigMap n s pod hsel] at hb
    simp at hb
  | true =>
    obtain ⟨_, dev, hdev, _⟩ := allocateGPUID_found getConfigMap hwf pod
      (n.allocateGPUID getConfigMap pod).1 (by rw [← hsel])
    by_cases hcount : n.gpuCount = 0
    · rw [Allocate_panic w getConfigMap n s pod hsel hcount] at hb
      simp at hb
    · cases hu : (firstUpdate w n s pod (n.allocateGPUID getConfigMap pod).1).2 with
      | none =>
        have hr := Allocate_first_ok w getConfigMap n s pod hsel hcount hu
        cases hbind : (w.bind (firstUpdate w n s pod (n.allocateGPUID getConfigMap pod).1).1
            pod.ns (n.bindingOf pod)).2 with
        | some e =>
          rw [bindAndRegister_bind_error w n _ _ pod _ _ e hbind] at hr
          rw [hr] at hb
          simp at hb
        | none =>
          rw [bindAndRegister_registered w n _ _ pod _ _ dev hbind hdev] at hr
          refine ⟨pod, _, dev, (w.now s).2, rfl, Or.inl rfl, rfl, ?_, hdev, by rw [hr],
            by rw [hr]; rfl⟩
          rw [hr]
          exact List.mem_append_left _ (List.mem_singleton.2 rfl)
      | some e =>
        by_cases he : e = OptimisticLockErrorMsg
        · subst he
          cases hg : (refetch w n s pod (n.allocateGPUID getConfigMap pod).1).2 with
          | error e2 =>
            rw [Allocate_refetch_error w getConfigMap n s pod e2 hsel hcount hu hg] at hb
            simp at hb
          | ok pod' =>
            cases hu2 : (secondUpdate w n s pod (n.allocateGPUID getConfigMap pod).1 pod').2 with
            | some e2 =>
              rw [Allocate_second_error w getConfigMap n s pod pod' e2 hsel hcount hu hg hu2]
                at hb
              simp at hb
            | none =>
              have hr := Allocate_second_ok w getConfigMap n s pod pod' hsel hcount hu hg hu2
              cases hbind : (w.bind
                  (secondUpdate w n s pod (n.allocateGPUID getConfigMap pod).1 pod').1
                  pod'.ns (n.bindingOf pod')).2 with
              | some e =>
                rw [bindAndRegister_bind_error w n _ _ pod' _ _ e hbind] at hr
                rw [hr] at hb
                simp at hb
              | none =>
                rw [bindAndRegister_registered w n _ _ pod' _ _ dev hbind hdev] at hr
                refine ⟨pod', _, dev,
                  (w.now (refetch w n s pod (n.allocateGPUID getConfigMap pod).1).1).2, rfl,
                  Or.inr rfl, rfl, ?_, hdev, by rw [hr], by rw [hr]; rfl⟩
                rw [hr]
                exact List.mem_append_left _
                  (List.mem_cons_of_mem _ (List.mem_cons_of_mem _ (List.mem_singleton.2 rfl)))
        · rw [Allocate_first_error w getConfigMap n s pod e hsel hcount hu he] at hb
          simp at hb

end NodeInfo

/-! ## Reading and writing the placement annotations -/

theorem GetXPUShares_absent (pod : Pod) (h : GoMap.get? pod.annotations EnvResourceByPod = none) :
    GetXPUSharesFromPodAnnotation pod = 0 := by
  unfold GetXPUSharesFromPodAnnotation
  split
  · rw [h]
  · rfl

theorem GetXPUShares_present (pod : Pod) (value : String)
    (h : GoMap.get? pod.annotations EnvResourceByPod = some value) :
    GetXPUSharesFromPodAnnotation pod
      = if (Atoi value).1 < 0 then 0 else toUint (Atoi value).1 := by
  have hlen : pod.annotations.length > 0 := by
    cases ha : pod.annotations with
    | nil => rw [ha, GoMap.get?_nil] at h; cases h
    | cons p t => simp
  unfold GetXPUSharesFromPodAnnotation
  rw [if_pos hlen, h]
  simp only []
  by_cases hneg : (Atoi value).1 < 0
  · simp only [hneg, if_true]; decide
  · simp only [hneg, if_false]
    unfold uadd toUint wordSize
    rw [Nat.zero_add]
    apply Nat.mod_eq_of_lt
    have h1 := Int.emod_lt_of_pos (Atoi value).1 (by norm_num : (0 : Int) < 2 ^ 64)
    have h2 := Int.emod_nonneg (Atoi value).1 (by norm_num : (2 : Int) ^ 64 ≠ 0)
    omega

/-- What `GetXPUSharesFromPodAnnotation` returns where the claim about it holds: zero
without the annotation, zero after a syntax error of `Atoi`, zero for a negative value, and
`n` for the decimal form of an `n` in the range of `int`. -/
theorem GetXPUShares_in_range (pod : Pod) :
    (GoMap.get? pod.annotations EnvResourceByPod = none →
        GetXPUSharesFromPodAnnotation pod = 0)
    ∧ (∀ value, GoMap.get? pod.annotations EnvResourceByPod = some value →
        Atoi value = (0, true) → GetXPUSharesFromPodAnnotation pod = 0)
    ∧ (∀ value, GoMap.get? pod.annotations EnvResourceByPod = some value →
        (Atoi value).1 < 0 → GetXPUSharesFromPodAnnotation pod = 0)
    ∧ (∀ n : Nat, (n : Int) ≤ maxInt →
        GoMap.get? pod.annotations EnvResourceByPod = some (fmtInt n) →
        GetXPUSharesFromPodAnnotation pod = n) := by
  refine ⟨GetXPUShares_absent pod, fun value h he => ?_, fun value h hn => ?_,
    fun n hn h => ?_⟩
  · rw [GetXPUShares_present pod value h, he]; decide
  · rw [GetXPUShares_present pod value h, if_pos hn]
  · have hr := Atoi_fmtInt (n : Int) (by unfold minInt; omega) hn
    rw [GetXPUShares_present pod _ h, hr]
    simp only []
    rw [if_neg (by omega)]
    unfold toUint
    unfold maxInt at hn
    rw [Int.emod_eq_of_lt (by omega) (by omega)]
    simp

theorem GetUpdated_byDev (p : Pod) (d t now : Int) :
    GoMap.get? (GetUpdatedPodAnnotationSpec p d t now).annotations EnvResourceByDev
      = some (fmtInt t) := by
  unfold GetUpdatedPodAnnotationSpec
  simp only [GoMap.get?_set]
  rw [if_neg (by decide), if_neg (by decide), if_neg (by decide)]
  exact if_pos trivial

theorem GetUpdated_flag (p : Pod) (d t now : Int) :
    GoMap.get? (GetUpdatedPodAnnotationSpec p d t now).annotations EnvAssignedFlag
      = some "false" := by
  unfold GetUpdatedPodAnnotationSpec
  simp only [GoMap.get?_set]
  rw [if_neg (by decide)]
  exact if_pos trivial

theorem GetUpdated_time (p : Pod) (d t now : Int) :
    GoMap.get? (GetUpdatedPodAnnotationSpec p d t now).annotations EnvResourceAssumeTime
      = some (fmtInt now) := by
  unfold GetUpdatedPodAnnotationSpec
  simp only [GoMap.get?_set]
  exact if_pos trivial

theorem GetUpdated_other (p : Pod) (d t now : Int) (key : String)
    (h1 : key ≠ EnvResourceIndex) (h2 : key ≠ EnvResourceByDev) (h3 : key ≠ EnvResourceByPod)
    (h4 : key ≠ EnvAssignedFlag) (h5 : key ≠ EnvResourceAssumeTime) :
    GoMap.get? (GetUpdatedPodAnnotationSpec p d t now).annotations key
      = GoMap.get? p.annotations key := by
  unfold GetUpdatedPodAnnotationSpec
  simp only [GoMap.get?_set]
  rw [if_neg (Ne.symm h5), if_neg (Ne.symm h4), if_neg (Ne.symm h3), if_neg (Ne.symm h2),
    if_neg (Ne.symm h1)]

/-! ## Insertion and removal in a Go map -/

namespace GoMap

variable {K V : Type} [DecidableEq K]

theorem set_set (m : GoMap K V) (k : K) (v v' : V) : set (set m k v) k v' = set m k v' := by
  induction m with
  | nil => simp [set]
  | cons q rest ih =>
    obtain ⟨a, b⟩ := q
    by_cases h : a = k
    · simp [set, h]
    · simp [set, h, ih]

theorem mem_keys_set (m : GoMap K V) (k : K) (v : V) (j : K) :
    j ∈ keys (set m k v) ↔ j ∈ keys m ∨ j = k := by
  rw [keys_set]
  by_cases h : k ∈ keys m
  · rw [if_pos h]
    constructor
    · exact Or.inl
    · rintro (h1 | h1)
      · exact h1
      · rw [h1]; exact h
  · rw [if_neg h]
    simp

theorem mem_keys_delete (m : GoMap K V) (k j : K) :
    j ∈ keys (delete m k) ↔ j ∈ keys m ∧ j ≠ k := by
  unfold keys delete
  simp only [List.mem_map, List.mem_filter]
  constructor
  · rintro ⟨e, ⟨he, hne⟩, rfl⟩
    exact ⟨⟨e, he, rfl⟩, by simpa using hne⟩
  · rintro ⟨⟨e, he, rfl⟩, hne⟩
    exact ⟨e, ⟨he, by simpa using hne⟩, rfl⟩

theorem delete_of_not_mem (m : GoMap K V) (k : K) (h : k ∉ keys m) : delete m k = m := by
  unfold delete
  rw [List.filter_eq_self]
  intro e he
  have : e.1 ≠ k := fun e1 => h (List.mem_map.2 ⟨e, he, e1⟩)
  simpa using this

/-- In a map with distinct keys the entries of a key that is present are one entry. -/
theorem filter_key_of_get? (m : GoMap K V) (hnd : (keys m).Nodup) (k : K) (v : V)
    (h : get? m k = some v) : m.filter (fun e => decide (e.1 = k)) = [(k, v)] := by
  induction m with
  | nil => simp [get?_nil] at h
  | cons q rest ih =>
    simp only [keys, List.map_cons, List.nodup_cons] at hnd
    rw [get?_cons] at h
    rw [List.filter_cons]
    by_cases hk : q.1 = k
    · rw [if_pos hk] at h
      have hq : q = (k, v) := by
        cases q
        simp only [Option.some.injEq] at h
        simp_all
      have hnone : rest.filter (fun e => decide (e.1 = k)) = [] := by
        rw [List.filter_eq_nil_iff]
        intro e he hek
        have hek' : e.1 = k := by simpa using hek
        exact hnd.1 (List.mem_map.2 ⟨e, he, hek'.trans hk.symm⟩)
      simp [hk, hq, hnone]
    · rw [if_neg hk] at h
      simp [hk, ih hnd.2 h]

end GoMap

/-! ## The trace of `Allocate`, and what `Assume` reads -/

namespace NodeInfo

variable {σ : Type}

theorem bindAndRegister_calls (w : World σ) (n : NodeInfo) (s : σ) (calls : List Call)
    (pod newPod : Pod) (devId : Int) :
    (bindAndRegister w n s calls pod newPod devId).calls
      = calls ++ [Call.bind pod.ns (n.bindingOf pod) (w.bind s pod.ns (n.bindingOf pod)).2] := by
  cases hb : (w.bind s pod.ns (n.bindingOf pod)).2 with
  | some e => rw [bindAndRegister_bind_error w n s calls pod newPod devId e hb]
  | none =>
    cases hd : GoMap.get? n.devs devId with
    | none => rw [bindAndRegister_no_device w n s calls pod newPod devId hb hd]
    | some dev => rw [bindAndRegister_registered w n s calls pod newPod devId dev hb hd]

/-- When the trace of `Allocate` starts with an update that failed with an error other than
the conflict, that update is the whole trace, the error is returned and the node is
unchanged. -/
theorem Allocate_of_first_error (w : World σ) (getConfigMap : String → Option ConfigMap)
    (n : NodeInfo) (s : σ) (pod : Pod) (e : String)
    (hfirst : ∃ p rest, (n.Allocate w getConfigMap s pod).calls
      = Call.update p (some e) :: rest)
    (hne : e ≠ OptimisticLockErrorMsg) :
    (n.Allocate w getConfigMap s pod).calls
        = [Call.update (firstPod w n s pod (n.allocateGPUID getConfigMap pod).1) (some e)]
      ∧ (n.Allocate w getConfigMap s pod).outcome = .returned (some e)
      ∧ (n.Allocate w getConfigMap s pod).node = n := by
  obtain ⟨p, rest, hcalls⟩ := hfirst
  cases hsel : (n.allocateGPUID getConfigMap pod).2 with
  | false =>
    rw [Allocate_of_notFound w getConfigMap n s pod hsel] at hcalls
    cases hcalls
  | true =>
    by_cases hcount : n.gpuCount = 0
    · rw [Allocate_panic w getConfigMap n s pod hsel hcount] at hcalls
      cases hcalls
    · cases hu : (firstUpdate w n s pod (n.allocateGPUID getConfigMap pod).1).2 with
      | none =>
        rw [Allocate_first_ok w getConfigMap n s pod hsel hcount hu,
          bindAndRegister_calls] at hcalls
        simp at hcalls
      | some e' =>
        by_cases he : e' = OptimisticLockErrorMsg
        · subst he
          cases hg : (refetch w n s pod (n.allocateGPUID getConfigMap pod).1).2 with
          | error e2 =>
            rw [Allocate_refetch_error w getConfigMap n s pod e2 hsel hcount hu hg] at hcalls
            simp only [List.cons.injEq, Call.update.injEq, Option.some.injEq] at hcalls
            exact absurd hcalls.1.2.symm hne
          | ok pod' =>
            cases hu2 : (secondUpdate w n s pod (n.allocateGPUID getConfigMap pod).1 pod').2 with
            | some e2 =>
              rw [Allocate_second_error w getConfigMap n s pod pod' e2 hsel hcount hu hg hu2]
                at hcalls
              simp only [List.cons.injEq, Call.update.injEq, Option.some.injEq] at hcalls
              exact absurd hcalls.1.2.symm hne
            | none =>
              rw [Allocate_second_ok w getConfigMap n s pod pod' hsel hcount hu hg hu2,
                bindAndRegister_calls] at hcalls
              simp only [List.cons_append, List.cons.injEq, Call.update.injEq,
                Option.some.injEq] at hcalls
              exact absurd hcalls.1.2.symm hne
        · have hr := Allocate_first_error w getConfigMap n s pod e' hsel hcount hu he
          rw [hr] at hcalls
          simp only [List.cons.injEq, Call.update.injEq, Option.some.injEq] at hcalls
          have hee : e' = e := hcalls.1.2
          subst hee
          rw [hr]
          exact ⟨rfl, rfl, rfl⟩

theorem assumeLoop_congr (m m' : GoMap Int Nat) (req : Nat) (ids : List Nat)
    (h : ∀ k, GoMap.get? m k = GoMap.get? m' k) :
    assumeLoop m req ids = assumeLoop m' req ids := by
  induction ids with
  | nil => rfl
  | cons i rest ih =>
    unfold assumeLoop
    rw [h, ih]

theorem Assume_eq_loop (getConfigMap : String → Option ConfigMap) (n : NodeInfo) (pod : Pod) :
    n.Assume getConfigMap pod
      = assumeLoop (n.getAvailableXPUs getConfigMap)
          (toUint (GetRequestXPUSharesFromPodResource pod)) (List.range n.devs.length) := by
  unfold Assume
  simp only []
  by_cases hlen : (n.getAvailableXPUs getConfigMap).length > 0
  · rw [if_pos hlen]
  · rw [if_neg hlen]
    have hnil : n.getAvailableXPUs getConfigMap = [] := by
      cases hm : n.getAvailableXPUs getConfigMap with
      | nil => rfl
      | cons p t => rw [hm] at hlen; simp at hlen
    symm
    rw [← Bool.not_eq_true, assumeLoop_eq_true]
    rintro ⟨i, _, a, ha, _⟩
    rw [hnil, GoMap.get?_nil] at ha
    cases ha

/-- The available shares before the unhealthy devices are removed. -/
theorem getAvailableXPUs_unhealthy (getConfigMap : String → Option ConfigMap) (n : NodeInfo)
    (k : Int) :
    GoMap.get? (n.getAvailableXPUs getConfigMap) k
      = if n.unhealthy getConfigMap k then none
        else GoMap.get? (n.getAvailableXPUs (fun _ => none)) k := by
  have h1 : ∀ cm : String → Option ConfigMap, GoMap.get? (n.getAvailableXPUs cm) k
      = if n.unhealthy cm k then none
        else GoMap.get? (n.getAllXPUs.foldl
          (fun available entry =>
            match GoMap.get? n.getUsedXPUs entry.1 with
            | some usedShares => GoMap.set available entry.1 (usub entry.2 usedShares)
            | none => available) ([] : GoMap Int Nat)) k := by
    intro cm
    unfold getAvailableXPUs
    simp only []
    rw [GoMap.get?_foldl_delete (fun e : Int × Bool => e.1)]
    rfl
  rw [h1 getConfigMap, h1 (fun _ => none)]
  have hno : ¬ n.unhealthy (fun _ => none) k := by
    unfold unhealthy getUnhealthyXPUs GoMap.keys
    simp
  rw [if_neg hno]

theorem getAvailableXPUs_devs (n n' : NodeInfo) (h : n'.devs = n.devs) :
    n'.getAvailableXPUs (fun _ => none) = n.getAvailableXPUs (fun _ => none) := by
  unfold getAvailableXPUs getAllXPUs getUsedXPUs getUnhealthyXPUs
  simp only [h]

end NodeInfo

/-! ## The slice of devices that `GetDevs` returns -/

theorem foldl_store_ok (c : Int)
    (step : Option (List (Option DeviceInfo)) → Int × DeviceInfo →
      Option (List (Option DeviceInfo)))
    (hstep : ∀ l e, step (some l) e
      = if (0 : Int) ≤ e.1 ∧ e.1 < c then some (List.set l (Int.toNat e.1) (some e.2)) else none)
    (es : List (Int × DeviceInfo)) (l0 : List (Option DeviceInfo))
    (h : ∀ e ∈ es, 0 ≤ e.1 ∧ e.1 < c) :
    es.foldl step (some l0)
      = some (es.foldl (fun l e => List.set l (Int.toNat e.1) (some e.2)) l0) := by
  induction es generalizing l0 with
  | nil => rfl
  | cons e rest ih =>
    rw [List.foldl_cons, List.foldl_cons, hstep, if_pos (h e (List.mem_cons_self _ _))]
    exact ih _ (fun e' he' => h e' (List.mem_cons_of_mem _ he'))

theorem foldl_store_length (es : List (Int × DeviceInfo)) (l0 : List (Option DeviceInfo)) :
    (es.foldl (fun l e => List.set l (Int.toNat e.1) (some e.2)) l0).length = l0.length := by
  induction es generalizing l0 with
  | nil => rfl
  | cons e rest ih => rw [List.foldl_cons, ih, List.length_set]

/-- After the stores of `GetDevs`, the slot of an index holds the device stored under that
index, when there is one, and otherwise what the slot held before. -/
theorem foldl_store_getElem? (es : List (Int × DeviceInfo)) (hnd : (GoMap.keys es).Nodup)
    (hpos : ∀ e ∈ es, 0 ≤ e.1) (l0 : List (Option DeviceInfo)) (i : Nat) :
    (es.foldl (fun l e => List.set l (Int.toNat e.1) (some e.2)) l0)[i]?
      = if i < l0.length then
          (match GoMap.get? es (i : Int) with
            | some d => some (some d)
            | none => l0[i]?)
        else none := by
  induction es generalizing l0 with
  | nil =>
    simp only [List.foldl_nil, GoMap.get?_nil]
    by_cases hi : i < l0.length
    · rw [if_pos hi]
    · rw [if_neg hi]; exact List.getElem?_eq_none (by omega)
  | cons e rest ih =>
    simp only [GoMap.keys, List.map_cons, List.nodup_cons] at hnd
    have he0 := hpos e (List.mem_cons_self _ _)
    rw [List.foldl_cons, ih hnd.2 (fun e' he' => hpos e' (List.mem_cons_of_mem _ he')),
      List.length_set, GoMap.get?_cons]
    by_cases hi : i < l0.length
    · rw [if_pos hi, if_pos hi]
      by_cases hk : e.1 = (i : Int)
      · have hnone : GoMap.get? rest (i : Int) = none := by
          rw [GoMap.get?_eq_none_iff]
          exact fun hm => hnd.1 (hk ▸ hm)
        have hidx : Int.toNat e.1 = i := by omega
        rw [hnone, if_pos hk, List.getElem?_set, if_pos hidx, if_pos (by omega)]
      · rw [if_neg hk]
        have hidx : Int.toNat e.1 ≠ i := by omega
        rw [List.getElem?_set_ne hidx]
    · rw [if_neg hi, if_neg hi]

namespace NodeInfo

/-- On a node whose device map has the shape every method keeps and whose stored count is
the number of its devices, `GetDevs` returns the devices in the order of their indices. -/
theorem GetDevs_eq (n : NodeInfo) (hwf : n.WF) (hcount : n.gpuCount = (n.devs.length : Int)) :
    n.GetDevs
      = some ((List.range n.devs.length).map (fun (i : Nat) => GoMap.get? n.devs (i : Int))) := by
  have hkeys : ∀ e ∈ n.devs, (0 : Int) ≤ e.1 ∧ e.1 < n.gpuCount := by
    intro e he
    rw [hcount]
    exact (hwf.keys e.1).1 (List.mem_map.2 ⟨e, he, rfl⟩)
  unfold GetDevs
  rw [if_neg (by omega)]
  rw [foldl_store_ok n.gpuCount _ (fun l e => rfl) n.devs _ hkeys]
  congr 1
  apply List.ext_getElem?
  intro i
  rw [foldl_store_getElem? n.devs hwf.nodup (fun e he => (hkeys e he).1), List.length_replicate,
    List.getElem?_map]
  have hlen : n.gpuCount.toNat = n.devs.length := by omega
  rw [hlen]
  by_cases hi : i < n.devs.length
  · rw [if_pos hi, List.getElem?_range hi, List.getElem?_replicate, if_pos hi]
    cases hg : GoMap.get? n.devs (i : Int) <;> simp [hg]
  · rw [if_neg hi, List.getElem?_eq_none (by simpa using hi)]
    rfl

theorem WF.get?_isSome {n : NodeInfo} (hwf : n.WF) (i : Nat) (hi : i < n.devs.length) :
    ∃ dev, GoMap.get? n.devs (i : Int) = some dev := by
  have hmem : (i : Int) ∈ GoMap.keys n.devs := (hwf.keys i).2 ⟨by omega, by omega⟩
  cases hg : GoMap.get? n.devs (i : Int) with
  | none => exact absurd hmem ((GoMap.get?_eq_none_iff _ _).1 hg)
  | some dev => exact ⟨dev, rfl⟩

end NodeInfo

/-! ## The inspect report -/

theorem AssignedNonTerminatedPod_eq_listed (pod : Pod) :
    AssignedNonTerminatedPod pod = listed pod := by
  unfold AssignedNonTerminatedPod listed DeviceInfo.terminal
  cases hd : pod.deletionTimestamp with
  | some t => simp
  | none =>
    by_cases hn : pod.nodeName.length = 0
    · simp [hn]
    · by_cases hp : pod.phase = PodSucceeded ∨ pod.phase = PodFailed
      · simp [hn, hp]
      · simp [hn, hp]

theorem listed_iff (pod : Pod) :
    listed pod = true
      ↔ pod.deletionTimestamp = none ∧ pod.nodeName.length ≠ 0
          ∧ pod.phase ≠ PodSucceeded ∧ pod.phase ≠ PodFailed := by
  unfold listed DeviceInfo.terminal
  cases hd : pod.deletionTimestamp with
  | some t => simp
  | none => simp [not_or]

namespace Scheduler

theorem buildPods_foldl (podInfos : List XPU.Pod) (acc : List Pod) :
    podInfos.foldl
      (fun pods podInfo =>
        if AssignedNonTerminatedPod podInfo then
          pods ++ [{ Namespace := podInfo.ns, Name := podInfo.name,
                     UsedGPU := GetRequestXPUSharesFromPodResource podInfo }]
        else pods) acc
      = acc ++ (podInfos.filter listed).map report := by
  induction podInfos generalizing acc with
  | nil => simp
  | cons p rest ih =>
    rw [List.foldl_cons, ih, List.filter_cons, AssignedNonTerminatedPod_eq_listed]
    by_cases hl : listed p = true
    · simp [hl, report]
    · simp [hl]

theorem buildPods_eq (podInfos : List XPU.Pod) :
    buildPods podInfos = (podInfos.filter listed).map report := by
  unfold buildPods
  rw [buildPods_foldl]
  rfl

/-- The loop of `buildNode` over a slice without nil entries: it ends, keeps the entries
made so far, and appends for the device in slot `j` its entry with the index `i + j`. -/
theorem buildLoop_spec (l : List (Option DeviceInfo)) (i : Nat) (devs : List Device)
    (usedGPU : Nat) (hall : ∀ x ∈ l, x ≠ none) :
    ∃ r, buildLoop l i devs usedGPU = some r
      ∧ r.1.length = devs.length + l.length
      ∧ (∀ j, j < devs.length → r.1[j]? = devs[j]?)
      ∧ (∀ j d, l[j]? = some (some d) → r.1[devs.length + j]? = some (buildDevice (i + j) d)) := by
  induction l generalizing i devs usedGPU with
  | nil =>
    refine ⟨(devs, usedGPU), rfl, rfl, fun j _ => rfl, fun j d h => ?_⟩
    simp at h
  | cons x rest ih =>
    cases x with
    | none => exact absurd rfl (hall none (List.mem_cons_self _ _))
    | some d0 =>
      obtain ⟨r, h1, h2, h3, h4⟩ := ih (i + 1) (devs ++ [buildDevice i d0])
        (uadd usedGPU d0.GetDevUsedXPUShares) (fun x hx => hall x (List.mem_cons_of_mem _ hx))
      refine ⟨r, h1, ?_, fun j hj => ?_, fun j d hjd => ?_⟩
      · rw [h2]; simp; omega
      · rw [h3 j (by simp; omega), List.getElem?_append_left hj]
      · cases j with
        | zero =>
          simp only [List.getElem?_cons_zero, Option.some.injEq] at hjd
          subst hjd
          rw [Nat.add_zero, h3 devs.length (by simp), List.getElem?_append_right (le_refl _)]
          simp
        | succ j =>
          simp only [List.getElem?_cons_succ] at hjd
          have := h4 j d hjd
          simp only [List.length_append, List.length_singleton] at this
          rw [show devs.length + (j + 1) = devs.length + 1 + j by omega,
            show i + (j + 1) = i + 1 + j by omega]
          exact this

/-- The report of a node whose device map has the shape every method keeps and whose stored
count is the number of its devices. -/
theorem buildNode_spec (n : NodeInfo) (hwf : n.WF)
    (hcount : n.gpuCount = (n.devs.length : Int)) :
    ∃ node, buildNode (some n) = some node
      ∧ node.Name = n.name
      ∧ node.Devices.length = n.devs.length
      ∧ ∀ (i : Nat) dev, GoMap.get? n.devs (i : Int) = some dev →
          node.Devices[i]? = some (buildDevice i dev) := by
  have hall : ∀ x ∈ (List.range n.devs.length).map
      (fun (i : Nat) => GoMap.get? n.devs (i : Int)), x ≠ none := by
    intro x hx
    obtain ⟨i, hi, rfl⟩ := List.mem_map.1 hx
    obtain ⟨dev, hdev⟩ := hwf.get?_isSome i (List.mem_range.1 hi)
    rw [hdev]; simp
  obtain ⟨r, h1, h2, _, h4⟩ := buildLoop_spec _ 0 [] 0 hall
  refine ⟨{ Name := n.GetName, TotalGPU := toUint n.GetNodeTotalGPUMemory, UsedGPU := r.2,
            Devices := r.1 }, ?_, rfl, ?_, fun i dev hdev => ?_⟩
  · unfold buildNode
    simp only [NodeInfo.GetDevs_eq n hwf hcount, h1]
  · show r.1.length = n.devs.length
    rw [h2]; simp
  · show r.1[i]? = some (buildDevice i dev)
    obtain ⟨j, hj, hij⟩ := hwf.index_of_get? (i : Int) dev hdev
    have hi : i < n.devs.length := by omega
    have := h4 i dev (by rw [List.getElem?_map, List.getElem?_range hi]; simp [hdev])
    simpa using this

end Scheduler

/-! ## Membership of a pod in one device -/

namespace NodeInfo

/-- Replacing the device stored under `k` keeps single-device membership, when every UID of
the new device was already on the old one or is on no other device. -/
theorem SingleDevice.set {n : NodeInfo} (hs : n.SingleDevice) (k : Int) (dev dev' : DeviceInfo)
    (hget : GoMap.get? n.devs k = some dev)
    (hkeys : ∀ uid ∈ GoMap.keys dev'.podMap, uid ∈ GoMap.keys dev.podMap ∨ n.OnlyOn uid k) :
    SingleDevice { n with devs := GoMap.set n.devs k dev' } := by
  have hold : (k, dev) ∈ n.devs := GoMap.mem_of_get? _ _ _ hget
  intro e1 he1 e2 he2 uid hu1 hu2
  rcases GoMap.mem_set _ _ _ _ he1 with h1 | h1 <;> rcases GoMap.mem_set _ _ _ _ he2 with h2 | h2
  · rw [h1, h2]
  · rw [h1] at hu1 ⊢
    rcases hkeys uid hu1 with h | h
    · exact hs (k, dev) hold e2 h2 uid h hu2
    · exact (h e2 h2 hu2).symm
  · rw [h2] at hu2 ⊢
    rcases hkeys uid hu2 with h | h
    · exact hs e1 h1 (k, dev) hold uid hu1 h
    · exact h e1 h1 hu1
  · exact hs e1 h1 e2 h2 uid hu1 hu2

theorem SingleDevice.set_addPod {n : NodeInfo} (hs : n.SingleDevice) (k : Int)
    (dev : DeviceInfo) (pod : Pod) (hget : GoMap.get? n.devs k = some dev)
    (hfree : n.OnlyOn pod.uid k) :
    SingleDevice { n with devs := GoMap.set n.devs k (dev.addPod pod) } := by
  apply hs.set k dev _ hget
  intro uid hu
  rcases (GoMap.mem_keys_set dev.podMap pod.uid pod uid).1 hu with h | h
  · exact Or.inl h
  · exact Or.inr (h ▸ hfree)

theorem SingleDevice.set_removePod {n : NodeInfo} (hs : n.SingleDevice) (k : Int)
    (dev : DeviceInfo) (pod : Pod) (hget : GoMap.get? n.devs k = some dev) :
    SingleDevice { n with devs := GoMap.set n.devs k (dev.removePod pod) } := by
  apply hs.set k dev _ hget
  intro uid hu
  exact Or.inl ((GoMap.mem_keys_delete dev.podMap pod.uid uid).1 hu).1

theorem removePod_singleDevice (n : NodeInfo) (pod : Pod) (hs : n.SingleDevice) :
    (n.removePod pod).SingleDevice := by
  unfold removePod
  simp only []
  split
  · cases hd : GoMap.get? n.devs ( GetGPUIDFromAnnotation pod) with
    | none => exact hs
    | some dev => exact hs.set_removePod _ dev pod hd
  · exact hs

theorem addOrUpdatePod_singleDevice (n : NodeInfo) (pod : Pod) (hs : n.SingleDevice)
    (hfree : n.OnlyOn pod.uid ( GetGPUIDFromAnnotation pod)) :
    (n.addOrUpdatePod pod).1.SingleDevice := by
  unfold addOrUpdatePod
  simp only []
  split
  · cases hd : GoMap.get? n.devs ( GetGPUIDFromAnnotation pod) with
    | none => exact hs
    | some dev => exact hs.set_addPod _ dev pod hd hfree
  · exact hs

theorem Allocate_singleDevice {σ : Type} (w : World σ)
    (getConfigMap : String → Option ConfigMap) (n : NodeInfo) (s : σ) (pod : Pod)
    (hs : n.SingleDevice)
    (hfree : ∀ committed,
      (committed = pod
        ∨ (refetch w n s pod (n.allocateGPUID getConfigMap pod).1).2 = .ok committed) →
      n.OnlyOn committed.uid (n.allocateGPUID getConfigMap pod).1) :
    (n.Allocate w getConfigMap s pod).node.SingleDevice := by
  rcases Allocate_cases w getConfigMap n s pod with
    ⟨h1, _⟩ | ⟨committed, stored, dev, _, _, h3, _, h5, h6⟩
  · rw [h1]; exact hs
  · rw [h5]
    apply hs.set_addPod _ dev stored h3
    rcases h6 with ⟨hc, hst⟩ | ⟨hg, hst⟩
    · rw [hst]
      exact hfree pod (Or.inl rfl)
    · rw [hst]
      exact hfree committed (Or.inr hg)

end NodeInfo

namespace Scheduler

/-- After a failed lookup of a named node, `Handler` passes the nil pointer to `buildNode`
and panics. -/
theorem Handler_of_failed (cache : SchedulerCache) (name err : String)
    (hname : name.length ≠ 0) (hl : cache.GetNodeInfo name = .failed err) :
    Handler cache name = none := by
  unfold Handler
  rw [if_neg hname]
  simp only [hl, Lookup.node, buildNode]

end Scheduler

/-! ## The device count: construction, `Reset`, and a node without devices -/

theorem buildDevMapChecked_eq (count total : Int) :
    buildDevMapChecked count total = some (buildDevMap count (toUint (idiv total count))) := by
  unfold buildDevMapChecked buildDevMap
  by_cases hc : count = 0
  · subst hc
    rfl
  · have key : ∀ (l : List Nat) (acc : GoMap Int DeviceInfo),
        l.foldl
          (fun (acc : Option (GoMap Int DeviceInfo)) (i : Nat) =>
            match acc with
            | none => none
            | some devMap =>
              if count = 0 then none
              else some (devMap.set (i : Int)
                (newDeviceInfo (i : Int) (toUint (idiv total count)))))
          (some acc)
        = some (l.foldl
            (fun devMap (i : Nat) =>
              devMap.set (i : Int) (newDeviceInfo (i : Int) (toUint (idiv total count))))
            acc) := by
      intro l
      induction l with
      | nil => intro acc; rfl
      | cons i rest ih =>
        intro acc
        rw [List.foldl_cons, List.foldl_cons]
        show List.foldl _ (if count = 0 then none else some _) rest = _
        rw [if_neg hc]
        exact ih _
    exact key _ _

/-- The loop of `NewNodeInfo` never divides by zero: the body runs only for a positive
count. -/
theorem NewNodeInfoChecked_eq (node : Node) : NewNodeInfoChecked node = some (NewNodeInfo node) := by
  unfold NewNodeInfoChecked
  rw [buildDevMapChecked_eq]
  rfl

theorem NewNodeInfo_devs_of_zero (node : Node) (hcount : GetGPUCountInNode node = 0) :
    (NewNodeInfo node).devs = [] := by
  show buildDevMap (GetGPUCountInNode node) _ = []
  rw [hcount]
  rfl

theorem GoMap.foldl_delete_nil {K V X : Type} [DecidableEq K] (key : X → K) (l : List X) :
    l.foldl (fun (available : GoMap K V) entry => available.delete (key entry)) [] = [] := by
  induction l with
  | nil => rfl
  | cons x rest ih => simpa [GoMap.delete] using ih

namespace NodeInfo

variable {σ : Type}

/-- A node without devices has an empty map of available shares, whatever the unhealthy
record says. -/
theorem getAvailableXPUs_of_nil (getConfigMap : String → Option ConfigMap) (n : NodeInfo)
    (h : n.devs = []) : n.getAvailableXPUs getConfigMap = [] := by
  unfold getAvailableXPUs getAllXPUs
  simp only [h, List.foldl_nil]
  exact GoMap.foldl_delete_nil (fun e : Int × Bool => e.1) _

theorem Assume_of_nil (getConfigMap : String → Option ConfigMap) (n : NodeInfo) (pod : Pod)
    (h : n.devs = []) : n.Assume getConfigMap pod = false := by
  unfold Assume
  simp [getAvailableXPUs_of_nil getConfigMap n h]

theorem allocateGPUID_of_nil (getConfigMap : String → Option ConfigMap) (n : NodeInfo)
    (pod : Pod) (h : n.devs = []) : n.allocateGPUID getConfigMap pod = (-1, false) := by
  unfold allocateGPUID
  simp [getAvailableXPUs_of_nil getConfigMap n h]

/-- The flag of `allocateGPUID` for a positive request is the result of the loop of
`Assume` on the same map of available shares. -/
theorem allocateGPUID_found_iff (getConfigMap : String → Option ConfigMap) (n : NodeInfo)
    (pod : Pod) (hreq : 0 < toUint (GetRequestXPUSharesFromPodResource pod)) :
    (n.allocateGPUID getConfigMap pod).2 = true
      ↔ ∃ i ∈ List.range n.devs.length, ∃ a,
          GoMap.get? (n.getAvailableXPUs getConfigMap) (i : Int) = some a
            ∧ toUint (GetRequestXPUSharesFromPodResource pod) ≤ a := by
  have hinv := selInv_fold (n.getAvailableXPUs getConfigMap)
    (toUint (GetRequestXPUSharesFromPodResource pod)) n.devs.length
  rw [allocateGPUID_eq getConfigMap n pod hreq]
  constructor
  · intro hf
    obtain ⟨i, hi, _, h2, h3, _⟩ := hinv.isFound hf
    exact ⟨i, List.mem_range.2 hi, _, h2, h3⟩
  · rintro ⟨i, hi, a, ha, hle⟩
    cases hf : ((List.range n.devs.length).foldl
        (selectStep (n.getAvailableXPUs getConfigMap)
          (toUint (GetRequestXPUSharesFromPodResource pod)))
        { candidateDevID := -1, candidateXPUShares := 0, found := false,
          availableXPUCount := 0 }).found with
    | true => rfl
    | false =>
      have := (hinv.notFound hf).2 i (List.mem_range.1 hi) a ha
      omega

/-- The result of `Assume` is the result of its loop, also when the map of available
shares is empty. -/
theorem Assume_iff (getConfigMap : String → Option ConfigMap) (n : NodeInfo) (pod : Pod) :
    n.Assume getConfigMap pod = true
      ↔ ∃ i ∈ List.range n.devs.length, ∃ a,
          GoMap.get? (n.getAvailableXPUs getConfigMap) (i : Int) = some a
            ∧ toUint (GetRequestXPUSharesFromPodResource pod) ≤ a := by
  unfold Assume
  simp only []
  by_cases hlen : (n.getAvailableXPUs getConfigMap).length > 0
  · rw [if_pos hlen]
    exact assumeLoop_eq_true _ _ _
  · rw [if_neg hlen]
    have hnil : n.getAvailableXPUs getConfigMap = [] := by
      cases hm : n.getAvailableXPUs getConfigMap with
      | nil => rfl
      | cons p t => rw [hm] at hlen; simp at hlen
    constructor
    · intro h
      cases h
    · rintro ⟨i, _, a, ha, _⟩
      rw [hnil, GoMap.get?_nil] at ha
      cases ha

/-- Every node reached from `NewNodeInfo` by `Reset` calls has a device map of distinct
indices `0 .. len-1`, each device under its own index. -/
theorem resetAll_WF (node : Node) (records : List Node) : (resetAll node records).WF := by
  unfold resetAll
  have key : ∀ (l : List Node) (n : NodeInfo), n.WF → (l.foldl NodeInfo.Reset n).WF := by
    intro l
    induction l with
    | nil => intro n h; exact h
    | cons r rest ih => intro n h; exact ih _ (Reset_WF n r h)
  exact key _ _ (NewNodeInfo_WF node)

/-- On a node whose devices are within their capacity, no entry of the map of available
shares exceeds the capacity of its device. -/
theorem getAvailableXPUs_le_total (getConfigMap : String → Option ConfigMap) {n : NodeInfo}
    (hwf : n.WF) (hcap : n.WithinCapacity) (k : Int) (a : Nat)
    (h : GoMap.get? (n.getAvailableXPUs getConfigMap) k = some a) :
    ∃ dev, GoMap.get? n.devs k = some dev ∧ a ≤ dev.totalXPUShares := by
  obtain ⟨_, dev, hdev, hav⟩ := (avail_get?_some getConfigMap hwf k a).1 h
  refine ⟨dev, hdev, ?_⟩
  have h1 := dev.available_le (hcap (k, dev) (GoMap.mem_of_get? _ _ _ hdev))
  omega

end NodeInfo

/-! ## Selection and admission (claims C1 to C4) -/

namespace NodeInfo

/-- Best-fit selection over the values that `getAvailableXPUs` stores (`DeviceInfo.available`,
the `uint` difference of total and used shares).  On a node whose device map has the shape
every method keeps, and for a pod with a positive share request, whenever `allocateGPUID`
reports found with index `d`: device `d` exists, is not in the unhealthy set, has a stored
value at least the request, has the smallest stored value among the healthy devices whose
stored value is at least the request, and is the lowest index among the devices attaining
that smallest value.  On a device within its capacity the stored value is the capacity
minus the used shares (`DeviceInfo.available_eq_sub`). -/
theorem allocateGPUID_best_fit (getConfigMap : String → Option ConfigMap) (n : NodeInfo)
    (pod : Pod) (hwf : n.WF) (hreq : 0 < GetRequestXPUSharesFromPodResource pod) (d : Int)
    (hfound : n.allocateGPUID getConfigMap pod = (d, true)) :
    ∃ dev, GoMap.get? n.devs d = some dev
      ∧ ¬ n.unhealthy getConfigMap d
      ∧ GetRequestXPUSharesFromPodResource pod ≤ (dev.available : Int)
      ∧ ∀ k dk, GoMap.get? n.devs k = some dk → ¬ n.unhealthy getConfigMap k →
          GetRequestXPUSharesFromPodResource pod ≤ (dk.available : Int) →
          dev.available ≤ dk.available ∧ (dk.available = dev.available → d ≤ k) := by
  have hcast := toUint_of_pos (GetRequestXPUSharesFromPodResource pod) (le_of_lt hreq)
    (GetRequest_range pod).2
  obtain ⟨_, dev, h1, h2, h3, h4⟩ := allocateGPUID_found getConfigMap hwf pod d hfound
  refine ⟨dev, h1, h2, by omega, fun k dk hk hu hle => h4 k dk hk hu (by omega)⟩

/-- An instance of best-fit selection: with available shares 10, 4 and 6 and a request of 4,
device 1 is selected. -/
theorem allocateGPUID_best_fit_witness :
    Example.node1046.getAvailableXPUs Example.noConfigMap = [(0, 10), (1, 4), (2, 6)]
    ∧ Example.node1046.allocateGPUID Example.noConfigMap (Example.request "p" 4) = (1, true)
    ∧ ∃ dev, GoMap.get? Example.node1046.devs 1 = some dev
      ∧ ¬ Example.node1046.unhealthy Example.noConfigMap 1
      ∧ GetRequestXPUSharesFromPodResource (Example.request "p" 4) ≤ (dev.available : Int)
      ∧ ∀ k dk, GoMap.get? Example.node1046.devs k = some dk →
          ¬ Example.node1046.unhealthy Example.noConfigMap k →
          GetRequestXPUSharesFromPodResource (Example.request "p" 4) ≤ (dk.available : Int) →
          dev.available ≤ dk.available ∧ (dk.available = dev.available → (1 : Int) ≤ k) :=
  ⟨by decide, by decide,
    allocateGPUID_best_fit Example.noConfigMap Example.node1046 (Example.request "p" 4)
      (WF.of_range _ (by decide) (by decide)) (by decide) 1 (by decide)⟩

/-- The admission test over the values that `getAvailableXPUs` stores.  On a node whose
device map has the shape every method keeps, `Assume` returns true exactly when some device
of the node is outside the unhealthy set and its stored value (the `uint` difference of
total and used shares) is at least the pod's requested shares (as the `uint` that `Assume`
compares with). -/
theorem Assume_exact (getConfigMap : String → Option ConfigMap) (n : NodeInfo) (pod : Pod)
    (hwf : n.WF) :
    n.Assume getConfigMap pod = true
      ↔ ∃ k dev, GoMap.get? n.devs k = some dev ∧ ¬ n.unhealthy getConfigMap k
          ∧ toUint (GetRequestXPUSharesFromPodResource pod) ≤ dev.available :=
  Assume_eq_true getConfigMap hwf pod

/-- An instance of the admission test: with available shares 10, 4 and 6, a request of 7 is
admitted (device 0) and a request of 11 is not. -/
theorem Assume_exact_witness :
    Example.node1046.Assume Example.noConfigMap (Example.request "p" 7) = true
    ∧ Example.node1046.Assume Example.noConfigMap (Example.request "p" 11) = false
    ∧ (Example.node1046.Assume Example.noConfigMap (Example.request "p" 7) = true
      ↔ ∃ k dev, GoMap.get? Example.node1046.devs k = some dev
          ∧ ¬ Example.node1046.unhealthy Example.noConfigMap k
          ∧ toUint (GetRequestXPUSharesFromPodResource (Example.request "p" 7))
              ≤ dev.available) :=
  ⟨by decide, by decide,
    Assume_exact Example.noConfigMap Example.node1046 (Example.request "p" 7)
      (WF.of_range _ (by decide) (by decide))⟩

/-- No spillover, over the values that `getAvailableXPUs` stores.  When every healthy device
of the node has a stored value (the `uint` difference of total and used shares) strictly
below the pod's request, `allocateGPUID` reports not found, and `Allocate` returns the
"can't place" error, makes no call on the clientset (no update, no bind) and leaves the node
as it was; the sum of the stored values plays no part. -/
theorem no_spillover {σ : Type} (w : World σ) (getConfigMap : String → Option ConfigMap)
    (n : NodeInfo) (s : σ) (pod : Pod) (hwf : n.WF)
    (hsmall : ∀ k dev, GoMap.get? n.devs k = some dev → ¬ n.unhealthy getConfigMap k →
      dev.available < toUint (GetRequestXPUSharesFromPodResource pod)) :
    n.allocateGPUID getConfigMap pod = (-1, false)
      ∧ (n.Allocate w getConfigMap s pod).outcome = .returned (some (cantPlaceError pod))
      ∧ (n.Allocate w getConfigMap s pod).calls = []
      ∧ (n.Allocate w getConfigMap s pod).node = n := by
  have h := allocateGPUID_notFound getConfigMap hwf pod hsmall
  have h2 : (n.allocateGPUID getConfigMap pod).2 = false := by rw [h]
  rw [Allocate_of_notFound w getConfigMap n s pod h2]
  exact ⟨h, rfl, rfl, rfl⟩

/-- An instance of no spillover: with available shares 2 and 1 a request of 3 fails, although
the sum of the available shares is 3. -/
theorem no_spillover_witness :
    Example.node21.getAvailableXPUs Example.noConfigMap = [(0, 2), (1, 1)]
    ∧ toUint (GetRequestXPUSharesFromPodResource (Example.request "p" 3)) = 2 + 1
    ∧ Example.node21.allocateGPUID Example.noConfigMap (Example.request "p" 3) = (-1, false)
    ∧ (Example.node21.Allocate Example.okWorld Example.noConfigMap ()
        (Example.request "p" 3)).outcome
        = .returned (some (cantPlaceError (Example.request "p" 3)))
    ∧ (Example.node21.Allocate Example.okWorld Example.noConfigMap ()
        (Example.request "p" 3)).calls = []
    ∧ (Example.node21.Allocate Example.okWorld Example.noConfigMap ()
        (Example.request "p" 3)).node = Example.node21 :=
  ⟨by decide, by decide,
    no_spillover Example.okWorld Example.noConfigMap Example.node21 () (Example.request "p" 3)
      (WF.of_range _ (by decide) (by decide))
      (fun k dev hk _ => by
        have h0 : GoMap.get? Example.node21.devs 0
            = some { idx := 0, podMap := [("a", Example.placed "a" "0" "3")],
                     totalXPUShares := 5 } := by decide
        have h1 : GoMap.get? Example.node21.devs 1
            = some { idx := 1, podMap := [("b", Example.placed "b" "1" "4")],
                     totalXPUShares := 5 } := by decide
        obtain ⟨j, hj, hkj⟩ :=
          (WF.of_range Example.node21 (by decide) (by decide)).index_of_get? k dev hk
        have hlen : Example.node21.devs.length = 2 := by decide
        rw [hlen] at hj
        subst hkj
        interval_cases j
        · rw [show ((0 : Nat) : Int) = 0 from rfl, h0] at hk
          cases hk
          decide
        · rw [show ((1 : Nat) : Int) = 1 from rfl, h1] at hk
          cases hk
          decide)⟩

/-- C1, at the failing input: the event path has placed two running pods of 6 shares on the
one device of capacity 10, which is outside the unhealthy set.  Its capacity minus its used
shares is `10 - 12 = -2`; for a pod with the positive request 1000 `allocateGPUID` reports
found and returns device 0, whose available shares are not at least the request. -/
theorem allocateGPUID_best_fit_overcommitted :
    Example.node10over.devs.map
        (fun e => (e.1, (e.2.totalXPUShares : Int) - (e.2.GetDevUsedXPUShares : Int)))
      = [(0, -2)]
    ∧ ¬ Example.node10over.unhealthy Example.noConfigMap 0
    ∧ GetRequestXPUSharesFromPodResource (Example.request "p" 1000) = 1000
    ∧ Example.node10over.allocateGPUID Example.noConfigMap (Example.request "p" 1000)
        = (0, true) := by
  decide

/-- C2, at the failing input: on the node whose one device has capacity 10 and used shares
12, no device has a capacity minus used shares of at least 11 (no device has a capacity of
11), and `Assume` returns true for a pod that asks for 11 shares. -/
theorem Assume_exact_overcommitted :
    Example.node10over.devs.map
        (fun e => (e.1, e.2.totalXPUShares, e.2.GetDevUsedXPUShares)) = [(0, 10, 12)]
    ∧ (∀ e ∈ Example.node10over.devs,
        (e.2.totalXPUShares : Int) - (e.2.GetDevUsedXPUShares : Int) < 11)
    ∧ GetRequestXPUSharesFromPodResource (Example.request "p" 11) = 11
    ∧ Example.node10over.Assume Example.noConfigMap (Example.request "p" 11) = true := by
  decide

/-- C3, at the failing input: on the node whose one device has capacity 10 and used shares
12, every device has a capacity minus used shares strictly below the request of 50; yet
`allocateGPUID` reports found with device 0, and `Allocate`, on a clientset whose calls all
succeed, makes the update and the bind, returns nil and registers the pod, taking the used
shares of the device to 62. -/
theorem no_spillover_overcommitted :
    (∀ e ∈ Example.node10over.devs,
        (e.2.totalXPUShares : Int) - (e.2.GetDevUsedXPUShares : Int) < 50)
    ∧ GetRequestXPUSharesFromPodResource (Example.request "p" 50) = 50
    ∧ Example.node10over.allocateGPUID Example.noConfigMap (Example.request "p" 50)
        = (0, true)
    ∧ (Example.node10over.Allocate Example.okWorld Example.noConfigMap ()
        (Example.request "p" 50)).calls.map (fun c => (c.isUpdate, c.isBind, c.error?))
        = [(true, false, none), (false, true, none)]
    ∧ (Example.node10over.Allocate Example.okWorld Example.noConfigMap ()
        (Example.request "p" 50)).outcome = .returned none
    ∧ (Example.node10over.Allocate Example.okWorld Example.noConfigMap ()
        (Example.request "p" 50)).node.devs.map
          (fun e => (e.1, e.2.totalXPUShares, e.2.GetDevUsedXPUShares)) = [(0, 10, 62)] := by
  decide

/-- C4 (unhealthy exclusion).  A device index in the unhealthy set is absent from the map
returned by `getAvailableXPUs`, is never the index returned by `allocateGPUID` when it
reports found, and is never the reason for `Assume` to return true: when `Assume` returns
true, another device, outside the unhealthy set, fits the request. -/
theorem unhealthy_excluded (getConfigMap : String → Option ConfigMap) (n : NodeInfo)
    (pod : Pod) (k : Int) (hwf : n.WF) (hk : n.unhealthy getConfigMap k) :
    GoMap.get? (n.getAvailableXPUs getConfigMap) k = none
      ∧ (∀ d, n.allocateGPUID getConfigMap pod = (d, true) → d ≠ k)
      ∧ (n.Assume getConfigMap pod = true →
          ∃ j dev, j ≠ k ∧ GoMap.get? n.devs j = some dev ∧ ¬ n.unhealthy getConfigMap j
            ∧ toUint (GetRequestXPUSharesFromPodResource pod) ≤ dev.available) := by
  refine ⟨?_, fun d hd e => ?_, fun h => ?_⟩
  · rw [getAvailableXPUs_get? getConfigMap hwf k, if_pos hk]
  · obtain ⟨_, dev, _, h2, _⟩ := allocateGPUID_found getConfigMap hwf pod d hd
    exact h2 (e ▸ hk)
  · obtain ⟨j, dev, h1, h2, h3⟩ := (Assume_eq_true getConfigMap hwf pod).1 h
    exact ⟨j, dev, fun e => h2 (e ▸ hk), h1, h2, h3⟩

/-- C4, witness: with available shares 10, 4 and 6 and device 0 marked unhealthy, a request
of 4 goes to device 1, and a request of 7, which only device 0 could hold, is refused. -/
theorem unhealthy_excluded_witness :
    Example.node1046.unhealthy (Example.configMap "0") 0
    ∧ Example.node1046.allocateGPUID (Example.configMap "0") (Example.request "p" 4) = (1, true)
    ∧ Example.node1046.Assume (Example.configMap "0") (Example.request "p" 7) = false
    ∧ Example.node1046.Assume Example.noConfigMap (Example.request "p" 7) = true
    ∧ (GoMap.get? (Example.node1046.getAvailableXPUs (Example.configMap "0")) 0 = none
      ∧ (∀ d, Example.node1046.allocateGPUID (Example.configMap "0") (Example.request "p" 4)
            = (d, true) → d ≠ 0)
      ∧ (Example.node1046.Assume (Example.configMap "0") (Example.request "p" 4) = true →
          ∃ j dev, j ≠ 0 ∧ GoMap.get? Example.node1046.devs j = some dev
            ∧ ¬ Example.node1046.unhealthy (Example.configMap "0") j
            ∧ toUint (GetRequestXPUSharesFromPodResource (Example.request "p" 4))
                ≤ dev.available)) :=
  ⟨by decide, by decide, by decide, by decide,
    unhealthy_excluded (Example.configMap "0") Example.node1046 (Example.request "p" 4) 0
      (WF.of_range _ (by decide) (by decide)) (by decide)⟩

end NodeInfo

/-! ## Commit protocol, used shares and the unhealthy record (claims C5, C6, C8, C10) -/

namespace NodeInfo

/-- C5 (commit before register).  Whatever the update, get and bind calls answer, when
`Allocate` returns a non-nil error the node is exactly what it was before the call: the
device map, hence the occupant set of every device, is unchanged. -/
theorem Allocate_error_keeps_node {σ : Type} (w : World σ)
    (getConfigMap : String → Option ConfigMap) (n : NodeInfo) (s : σ) (pod : Pod) (e : String)
    (h : (n.Allocate w getConfigMap s pod).outcome = .returned (some e)) :
    (n.Allocate w getConfigMap s pod).node = n
      ∧ ∀ k, (GoMap.get? (n.Allocate w getConfigMap s pod).node.devs k).map DeviceInfo.podMap
          = (GoMap.get? n.devs k).map DeviceInfo.podMap := by
  have hnode : (n.Allocate w getConfigMap s pod).node = n := by
    rcases Allocate_cases w getConfigMap n s pod with ⟨h1, _⟩ | ⟨_, _, _, _, _, _, h4, _⟩
    · exact h1
    · rw [h4] at h
      cases h
  exact ⟨hnode, fun k => by rw [hnode]⟩

/-- C5, witness: the update succeeds, the bind is refused, `Allocate` returns that error
after both calls and the node is unchanged. -/
theorem Allocate_error_keeps_node_witness :
    (Example.node10.Allocate Example.bindFailsWorld Example.noConfigMap ()
        (Example.request "p" 4)).outcome = .returned (some "bind refused")
    ∧ ((Example.node10.Allocate Example.bindFailsWorld Example.noConfigMap ()
        (Example.request "p" 4)).calls.map Call.isUpdate) = [true, false]
    ∧ ((Example.node10.Allocate Example.bindFailsWorld Example.noConfigMap ()
        (Example.request "p" 4)).node = Example.node10
      ∧ ∀ k, (GoMap.get? (Example.node10.Allocate Example.bindFailsWorld Example.noConfigMap ()
            (Example.request "p" 4)).node.devs k).map DeviceInfo.podMap
          = (GoMap.get? Example.node10.devs k).map DeviceInfo.podMap) :=
  ⟨by decide, by decide,
    Allocate_error_keeps_node Example.bindFailsWorld Example.noConfigMap Example.node10 ()
      (Example.request "p" 4) "bind refused" (by decide)⟩

/-- The retry after a conflict is bounded on a node with a non-zero device count: when a
device is selected, every update reports the stale-revision conflict and the re-fetch
succeeds, `Allocate` makes an update, the re-fetch and one more update, no bind, returns the
conflict error and leaves the node as it was. -/
theorem Allocate_conflict_retry_once {σ : Type} (w : World σ)
    (getConfigMap : String → Option ConfigMap) (n : NodeInfo) (s : σ) (pod : Pod)
    (hsel : (n.allocateGPUID getConfigMap pod).2 = true) (hcount : n.gpuCount ≠ 0)
    (hupdate : ∀ s' p, (w.update s' p).2 = some OptimisticLockErrorMsg)
    (hget : ∀ s' ns name, ∃ p, (w.get s' ns name).2 = .ok p) :
    (n.Allocate w getConfigMap s pod).outcome = .returned (some OptimisticLockErrorMsg)
      ∧ ((n.Allocate w getConfigMap s pod).calls.filter Call.isUpdate).length = 2
      ∧ ((n.Allocate w getConfigMap s pod).calls.filter Call.isBind).length = 0
      ∧ (n.Allocate w getConfigMap s pod).calls.map Call.isUpdate = [true, false, true]
      ∧ (n.Allocate w getConfigMap s pod).node = n := by
  obtain ⟨p', hp'⟩ := hget (firstUpdate w n s pod (n.allocateGPUID getConfigMap pod).1).1
    pod.ns pod.name
  rw [Allocate_second_error w getConfigMap n s pod p' OptimisticLockErrorMsg hsel hcount
    (hupdate _ _) hp' (hupdate _ _)]
  exact ⟨rfl, rfl, rfl, rfl, rfl⟩

/-- C6, at the failing input: on the node that `Reset` leaves with one device and a stored
device count of zero, a device is selected for a request of 4 and `Allocate` panics on the
division by the count: no update is attempted and no error is returned. -/
theorem Allocate_conflict_zero_count :
    Example.node10NoCount.devs.length = 1
    ∧ Example.node10NoCount.gpuCount = 0
    ∧ Example.node10NoCount.allocateGPUID Example.noConfigMap (Example.request "p" 4)
        = (0, true)
    ∧ (Example.node10NoCount.Allocate (Example.conflictWorld (Example.request "p" 4))
        Example.noConfigMap () (Example.request "p" 4)).outcome = .panicked
    ∧ (Example.node10NoCount.Allocate (Example.conflictWorld (Example.request "p" 4))
        Example.noConfigMap () (Example.request "p" 4)).calls = [] := by
  decide

end NodeInfo

namespace DeviceInfo

/-- C8 (terminal exclusion).  The used shares of a device are the sum, in `uint` arithmetic
(that is modulo `2 ^ 64`), of `GetXPUSharesFromPodAnnotation` over exactly the occupants
whose phase is neither `Succeeded` nor `Failed`, and the sum itself when it is below
`2 ^ 64`; occupants in a terminal phase stay in the occupant map and contribute nothing.
The method only reads the device. -/
theorem GetDevUsedXPUShares_live (d : DeviceInfo) :
    d.GetDevUsedXPUShares = uintSum (d.liveOccupants.map GetXPUSharesFromPodAnnotation)
      ∧ d.GetDevUsedXPUShares
          = (d.liveOccupants.map GetXPUSharesFromPodAnnotation).sum % 2 ^ 64
      ∧ ((d.liveOccupants.map GetXPUSharesFromPodAnnotation).sum < 2 ^ 64 →
          d.GetDevUsedXPUShares = (d.liveOccupants.map GetXPUSharesFromPodAnnotation).sum)
      ∧ (∀ pod ∈ d.liveOccupants, pod.phase ≠ PodSucceeded ∧ pod.phase ≠ PodFailed)
      ∧ (∀ pod ∈ d.GetPods, pod.phase ≠ PodSucceeded → pod.phase ≠ PodFailed →
          pod ∈ d.liveOccupants) := by
  have h := GetDevUsedXPUShares_eq d
  rw [usedExact_eq_live] at h
  refine ⟨by rw [uintSum_eq]; exact h, h, fun hlt => ?_, fun pod hp => ?_, fun pod hp h1 h2 => ?_⟩
  · rw [h]; exact Nat.mod_eq_of_lt hlt
  · have := (List.mem_filter.1 hp).2
    simpa [terminal, not_or] using this
  · exact List.mem_filter.2 ⟨hp, by simp [terminal, h1, h2]⟩

end DeviceInfo

namespace NodeInfo

/-- C10, at the failing input: an unhealthy record that is the empty string marks device 0
unhealthy, and so does the empty entry after a trailing comma or an entry that is no
number; on a node with one free device of capacity 10 the empty record makes `Assume`
refuse a request of 4 that the device can hold. -/
theorem getUnhealthyXPUs_malformed :
    Example.node10.getUnhealthyXPUs (Example.configMap "") = [(0, true)]
    ∧ Example.node10.getUnhealthyXPUs (Example.configMap "1,") = [(1, true), (0, true)]
    ∧ Example.node10.getUnhealthyXPUs (Example.configMap "x") = [(0, true)]
    ∧ Example.node10.Assume Example.noConfigMap (Example.request "p" 4) = true
    ∧ Example.node10.Assume (Example.configMap "") (Example.request "p" 4) = false := by
  decide

end NodeInfo

/-! ## Capacity invariant and registration (claims C7, C9) -/

namespace NodeInfo

/-- C7, counterexample: a fresh node with one device of capacity 10; a pod asking for 4
shares; the first update reports a conflict and the re-fetch returns the pod asking for 20
shares; the retried update and the bind succeed.  Before the call the device is within its
capacity, afterwards its used shares (20) exceed it. -/
theorem capacity_invariant_counterexample :
    (∀ e ∈ Example.node10.devs, e.2.GetDevUsedXPUShares ≤ e.2.totalXPUShares)
    ∧ (Example.node10.Allocate (Example.conflictOnceWorld (Example.request "p" 20))
        Example.noConfigMap 0 (Example.request "p" 4)).outcome = .returned none
    ∧ ¬ (∀ e ∈ (Example.node10.Allocate (Example.conflictOnceWorld (Example.request "p" 20))
          Example.noConfigMap 0 (Example.request "p" 4)).node.devs,
        e.2.GetDevUsedXPUShares ≤ e.2.totalXPUShares) := by
  decide

/-- C7 (capacity invariant), as amended.  On a node whose device map has the shape every
method keeps and on which the contributions of the occupants of every device sum, without
wrap-around, to at most its total shares, any sequence of `Allocate` calls, whatever the
update, get and bind calls answer, provided a re-fetched pod asks for the same shares as the
pod of its call, leaves every device with such a sum, hence with
`GetDevUsedXPUShares <= totalXPUShares`; and every freshly constructed node is such a
node. -/
theorem capacity_invariant {σ : Type} (w : World σ) (n : NodeInfo) (s : σ)
    (calls : List ((String → Option ConfigMap) × Pod))
    (hwf : n.WF) (hcap : n.WithinCapacity)
    (hre : ∀ c ∈ calls, RefetchKeepsRequest w c.2) :
    (allocateAll w n s calls).1.WithinCapacity
      ∧ (∀ e ∈ (allocateAll w n s calls).1.devs,
          e.2.GetDevUsedXPUShares ≤ e.2.totalXPUShares)
      ∧ (∀ e ∈ n.devs, e.2.GetDevUsedXPUShares ≤ e.2.totalXPUShares)
      ∧ ∀ node : Node, (NewNodeInfo node).WF ∧ (NewNodeInfo node).WithinCapacity := by
  have h := allocateAll_invariant w calls n s hwf hcap hre
  exact ⟨h.2, h.2.used_le, hcap.used_le,
    fun node => ⟨NewNodeInfo_WF node, NewNodeInfo_withinCapacity node⟩⟩

/-- C7, witness: on a fresh node with one device of capacity 10, three pods of 4 shares are
allocated in turn; the first meets a conflict and is re-fetched unchanged; two are
registered, the third is refused, and the device uses 8 of its 10 shares. -/
theorem capacity_invariant_witness :
    ((allocateAll (Example.conflictOnceWorld (Example.request "p" 4))
        (NewNodeInfo (Example.nodeRecord 10 1)) 0
        [(Example.noConfigMap, Example.request "p" 4),
         (Example.noConfigMap, Example.request "q" 4),
         (Example.noConfigMap, Example.request "r" 4)]).1.devs.map
      (fun e => (e.2.GetDevUsedXPUShares, e.2.totalXPUShares))) = [(8, 10)]
    ∧ ((allocateAll (Example.conflictOnceWorld (Example.request "p" 4))
        (NewNodeInfo (Example.nodeRecord 10 1)) 0
        [(Example.noConfigMap, Example.request "p" 4),
         (Example.noConfigMap, Example.request "q" 4),
         (Example.noConfigMap, Example.request "r" 4)]).1.WithinCapacity
      ∧ (∀ e ∈ (allocateAll (Example.conflictOnceWorld (Example.request "p" 4))
          (NewNodeInfo (Example.nodeRecord 10 1)) 0
          [(Example.noConfigMap, Example.request "p" 4),
           (Example.noConfigMap, Example.request "q" 4),
           (Example.noConfigMap, Example.request "r" 4)]).1.devs,
          e.2.GetDevUsedXPUShares ≤ e.2.totalXPUShares)
      ∧ (∀ e ∈ (NewNodeInfo (Example.nodeRecord 10 1)).devs,
          e.2.GetDevUsedXPUShares ≤ e.2.totalXPUShares)
      ∧ ∀ node : Node, (NewNodeInfo node).WF ∧ (NewNodeInfo node).WithinCapacity) :=
  ⟨by decide,
    capacity_invariant (Example.conflictOnceWorld (Example.request "p" 4))
      (NewNodeInfo (Example.nodeRecord 10 1)) 0
      [(Example.noConfigMap, Example.request "p" 4),
       (Example.noConfigMap, Example.request "q" 4),
       (Example.noConfigMap, Example.request "r" 4)]
      (NewNodeInfo_WF _) (NewNodeInfo_withinCapacity _)
      (fun c hc _ pod' h => by
        cases h
        simp only [List.mem_cons, List.mem_singleton, List.not_mem_nil, or_false] at hc
        rcases hc with rfl | rfl | rfl <;> decide)⟩

/-- C9, counterexample: a fresh node with one device of capacity 10 and a pod `p` asking for
4 shares; the first update reports a conflict, the re-fetch returns the pod of that name
with a new UID, the retried update and the bind succeed.  `Allocate` returns nil, and the
UID of the input pod is not in the occupant set of the selected device 0. -/
theorem Allocate_registers_counterexample :
    Example.node10.allocateGPUID Example.noConfigMap (Example.request "p" 4) = (0, true)
    ∧ (Example.node10.Allocate (Example.conflictOnceWorld Example.recreated)
        Example.noConfigMap 0 (Example.request "p" 4)).outcome = .returned none
    ∧ (Example.node10.Allocate (Example.conflictOnceWorld Example.recreated)
        Example.noConfigMap 0 (Example.request "p" 4)).calls.map Call.isUpdate
        = [true, false, true, false]
    ∧ (Example.node10.Allocate (Example.conflictOnceWorld Example.recreated)
        Example.noConfigMap 0 (Example.request "p" 4)).calls.map Call.error?
        = [some OptimisticLockErrorMsg, none, none, none]
    ∧ ((GoMap.get? (Example.node10.Allocate (Example.conflictOnceWorld Example.recreated)
        Example.noConfigMap 0 (Example.request "p" 4)).node.devs 0).map
          (fun dev => GoMap.keys dev.podMap)) = some ["p-2"]
    ∧ ¬ (∃ dev, GoMap.get? (Example.node10.Allocate (Example.conflictOnceWorld Example.recreated)
          Example.noConfigMap 0 (Example.request "p" 4)).node.devs 0 = some dev
        ∧ (Example.request "p" 4).uid ∈ GoMap.keys dev.podMap) := by
  refine ⟨by decide, by decide, by decide, by decide, by decide, ?_⟩
  rintro ⟨dev, h1, h2⟩
  have h3 : GoMap.get? (Example.node10.Allocate (Example.conflictOnceWorld Example.recreated)
      Example.noConfigMap 0 (Example.request "p" 4)).node.devs 0
      = some { idx := 0,
               podMap := [("p-2", GetUpdatedPodAnnotationSpec Example.recreated 0 10 0)],
               totalXPUShares := 10 } := by decide
  rw [h3] at h1
  cases h1
  revert h2
  decide

/-- C9 (registration on success), as amended.  On a node whose device map has the shape
every method keeps and whose stored device count is not zero, when device `d` is selected
and the clientset answers the update and the bind with success, at the first attempt
(`committed` is the input pod) or, after one conflict and a successful re-fetch, at the
retry (`committed` is the re-fetched pod), `Allocate` returns nil; the successful update is
that of the pod made by `GetUpdatedPodAnnotationSpec` from the committed pod; that pod is
stored in the occupant map of device `d` under the UID of the committed pod and carries the
device-index annotation `d`; every other device is unchanged. -/
theorem Allocate_registers {σ : Type} (w : World σ) (getConfigMap : String → Option ConfigMap)
    (n : NodeInfo) (s : σ) (pod committed : Pod) (d : Int) (hwf : n.WF)
    (hcount : n.gpuCount ≠ 0)
    (hsel : n.allocateGPUID getConfigMap pod = (d, true))
    (hcommit :
      (committed = pod
        ∧ (firstUpdate w n s pod d).2 = none
        ∧ (w.bind (firstUpdate w n s pod d).1 pod.ns (n.bindingOf pod)).2 = none)
      ∨ ((firstUpdate w n s pod d).2 = some OptimisticLockErrorMsg
        ∧ (refetch w n s pod d).2 = .ok committed
        ∧ (secondUpdate w n s pod d committed).2 = none
        ∧ (w.bind (secondUpdate w n s pod d committed).1 committed.ns
            (n.bindingOf committed)).2 = none)) :
    ∃ dev stored now,
      stored = GetUpdatedPodAnnotationSpec committed d n.perDevice now
      ∧ Call.update stored none ∈ (n.Allocate w getConfigMap s pod).calls
      ∧ Call.bind committed.ns (n.bindingOf committed) none
          ∈ (n.Allocate w getConfigMap s pod).calls
      ∧ (n.Allocate w getConfigMap s pod).outcome = .returned none
      ∧ GoMap.get? n.devs d = some dev
      ∧ GoMap.get? (n.Allocate w getConfigMap s pod).node.devs d = some (dev.addPod stored)
      ∧ GoMap.get? (dev.addPod stored).podMap committed.uid = some stored
      ∧ GoMap.get? stored.annotations EnvResourceIndex = some (fmtInt d)
      ∧ (d ≤ maxInt → GetGPUIDFromAnnotation stored = d)
      ∧ ∀ k, k ≠ d →
          GoMap.get? (n.Allocate w getConfigMap s pod).node.devs k = GoMap.get? n.devs k := by
  have hd : (n.allocateGPUID getConfigMap pod).1 = d := by rw [hsel]
  have hf : (n.allocateGPUID getConfigMap pod).2 = true := by rw [hsel]
  obtain ⟨_, dev, hdev, _⟩ := allocateGPUID_found getConfigMap hwf pod d hsel
  obtain ⟨j, _, hj⟩ := hwf.index_of_get? d dev hdev
  have hd0 : minInt ≤ d := by unfold minInt; omega
  have key : ∀ (state : σ) (calls : List Call) (stored : Pod) (now : Int),
      stored = GetUpdatedPodAnnotationSpec committed d n.perDevice now →
      Call.update stored none ∈ calls →
      (w.bind state committed.ns (n.bindingOf committed)).2 = none →
      n.Allocate w getConfigMap s pod = bindAndRegister w n state calls committed stored d →
      ∃ dev stored now,
        stored = GetUpdatedPodAnnotationSpec committed d n.perDevice now
        ∧ Call.update stored none ∈ (n.Allocate w getConfigMap s pod).calls
        ∧ Call.bind committed.ns (n.bindingOf committed) none
            ∈ (n.Allocate w getConfigMap s pod).calls
        ∧ (n.Allocate w getConfigMap s pod).outcome = .returned none
        ∧ GoMap.get? n.devs d = some dev
        ∧ GoMap.get? (n.Allocate w getConfigMap s pod).node.devs d
            = some (dev.addPod stored)
        ∧ GoMap.get? (dev.addPod stored).podMap committed.uid = some stored
        ∧ GoMap.get? stored.annotations EnvResourceIndex = some (fmtInt d)
        ∧ (d ≤ maxInt → GetGPUIDFromAnnotation stored = d)
        ∧ ∀ k, k ≠ d →
            GoMap.get? (n.Allocate w getConfigMap s pod).node.devs k
              = GoMap.get? n.devs k := by
    intro state calls stored now hs hmem hb hr
    rw [hr, bindAndRegister_registered w n state calls committed stored d dev hb hdev]
    refine ⟨dev, stored, now, hs, ?_, ?_, rfl, hdev, ?_, ?_, ?_, ?_, ?_⟩
    · exact List.mem_append_left _ hmem
    · exact List.mem_append_right _ (List.mem_singleton.2 rfl)
    · show GoMap.get? (GoMap.set n.devs d (dev.addPod stored)) d = some (dev.addPod stored)
      rw [GoMap.get?_set, if_pos rfl]
    · show GoMap.get? (GoMap.set dev.podMap stored.uid stored) committed.uid = some stored
      rw [GoMap.get?_set, if_pos (by rw [hs]; rfl)]
    · rw [hs]; exact GetUpdated_index _ _ _ _
    · intro h1
      rw [hs]; exact GetGPUID_GetUpdated _ _ _ _ hd0 h1
    · intro k hk
      show GoMap.get? (GoMap.set n.devs d (dev.addPod stored)) k = GoMap.get? n.devs k
      rw [GoMap.get?_set, if_neg (fun e => hk e.symm)]
  rcases hcommit with ⟨hc, hu, hb⟩ | ⟨hu, hg, hu2, hb⟩
  · subst hc
    have hr := Allocate_first_ok w getConfigMap n s committed hf hcount (by rw [hd]; exact hu)
    rw [hd] at hr
    exact key _ _ (firstPod w n s committed d) (w.now s).2 rfl (List.mem_singleton.2 rfl) hb hr
  · have hr := Allocate_second_ok w getConfigMap n s pod committed hf hcount
      (by rw [hd]; exact hu) (by rw [hd]; exact hg) (by rw [hd]; exact hu2)
    rw [hd] at hr
    exact key _ _ (secondPod w n s pod d committed) (w.now (refetch w n s pod d).1).2 rfl
      (by simp) hb hr

/-- C9, witness: on the fresh node with one device of capacity 10 and a pod `p` asking for
4 shares.  On a clientset whose calls all succeed the pod is committed at the first attempt
and registered on device 0 under its UID.  On a clientset whose first update reports a
conflict and whose re-fetch returns the pod of that name with the new UID `p-2`, the retry
and the bind succeed and the re-fetched pod is registered on device 0 under `p-2`. -/
theorem Allocate_registers_witness :
    ((GoMap.get? (Example.node10.Allocate Example.okWorld Example.noConfigMap ()
        (Example.request "p" 4)).node.devs 0).map (fun dev => GoMap.keys dev.podMap))
      = some ["p"]
    ∧ (∃ dev stored now,
      stored = GetUpdatedPodAnnotationSpec (Example.request "p" 4) 0
          Example.node10.perDevice now
      ∧ Call.update stored none
          ∈ (Example.node10.Allocate Example.okWorld Example.noConfigMap ()
              (Example.request "p" 4)).calls
      ∧ Call.bind (Example.request "p" 4).ns
            (Example.node10.bindingOf (Example.request "p" 4)) none
          ∈ (Example.node10.Allocate Example.okWorld Example.noConfigMap ()
              (Example.request "p" 4)).calls
      ∧ (Example.node10.Allocate Example.okWorld Example.noConfigMap ()
          (Example.request "p" 4)).outcome = .returned none
      ∧ GoMap.get? Example.node10.devs 0 = some dev
      ∧ GoMap.get? (Example.node10.Allocate Example.okWorld Example.noConfigMap ()
          (Example.request "p" 4)).node.devs 0 = some (dev.addPod stored)
      ∧ GoMap.get? (dev.addPod stored).podMap (Example.request "p" 4).uid = some stored
      ∧ GoMap.get? stored.annotations EnvResourceIndex = some (fmtInt 0)
      ∧ ((0 : Int) ≤ maxInt → GetGPUIDFromAnnotation stored = 0)
      ∧ ∀ k, k ≠ 0 →
          GoMap.get? (Example.node10.Allocate Example.okWorld Example.noConfigMap ()
            (Example.request "p" 4)).node.devs k = GoMap.get? Example.node10.devs k)
    ∧ (∃ dev stored now,
      stored = GetUpdatedPodAnnotationSpec Example.recreated 0 Example.node10.perDevice now
      ∧ Call.update stored none
          ∈ (Example.node10.Allocate (Example.conflictOnceWorld Example.recreated)
              Example.noConfigMap 0 (Example.request "p" 4)).calls
      ∧ Call.bind Example.recreated.ns (Example.node10.bindingOf Example.recreated) none
          ∈ (Example.node10.Allocate (Example.conflictOnceWorld Example.recreated)
              Example.noConfigMap 0 (Example.request "p" 4)).calls
      ∧ (Example.node10.Allocate (Example.conflictOnceWorld Example.recreated)
          Example.noConfigMap 0 (Example.request "p" 4)).outcome = .returned none
      ∧ GoMap.get? Example.node10.devs 0 = some dev
      ∧ GoMap.get? (Example.node10.Allocate (Example.conflictOnceWorld Example.recreated)
          Example.noConfigMap 0 (Example.request "p" 4)).node.devs 0
          = some (dev.addPod stored)
      ∧ GoMap.get? (dev.addPod stored).podMap Example.recreated.uid = some stored
      ∧ GoMap.get? stored.annotations EnvResourceIndex = some (fmtInt 0)
      ∧ ((0 : Int) ≤ maxInt → GetGPUIDFromAnnotation stored = 0)
      ∧ ∀ k, k ≠ 0 →
          GoMap.get? (Example.node10.Allocate (Example.conflictOnceWorld Example.recreated)
            Example.noConfigMap 0 (Example.request "p" 4)).node.devs k
            = GoMap.get? Example.node10.devs k) :=
  ⟨by decide,
    Allocate_registers Example.okWorld Example.noConfigMap Example.node10 ()
      (Example.request "p" 4) (Example.request "p" 4) 0 (NewNodeInfo_WF _) (by decide)
      (by decide) (Or.inl ⟨rfl, by decide, by decide⟩),
    Allocate_registers (Example.conflictOnceWorld Example.recreated) Example.noConfigMap
      Example.node10 0 (Example.request "p" 4) Example.recreated 0 (NewNodeInfo_WF _)
      (by decide) (by decide) (Or.inr ⟨by decide, by decide, by decide, by decide⟩)⟩

end NodeInfo

/-! ## Placement annotations (claims C11, C12) -/

/-- C11, at the failing input: the shares annotation `9223372036854775808` is one above
the range of `int`; `Atoi` returns the largest `int` beside its range error,
`GetXPUSharesFromPodAnnotation` discards the error and returns 9223372036854775807 shares,
not zero, and the device holding that pod reports as many used shares. -/
theorem GetXPUShares_too_large :
    Atoi "9223372036854775808" = (maxInt, true)
    ∧ GetXPUSharesFromPodAnnotation (Example.placed "a" "0" "9223372036854775808")
        = 9223372036854775807
    ∧ GetXPUSharesFromPodAnnotation (Example.placed "a" "0" "x") = 0
    ∧ GetXPUSharesFromPodAnnotation (Example.placed "a" "0" "-3") = 0
    ∧ GetXPUSharesFromPodAnnotation (Example.placed "a" "0" "3") = 3
    ∧ (Example.node10.addOrUpdatePod
        (Example.placed "a" "0" "9223372036854775808")).1.devs.map
          (fun e => (e.2.GetDevUsedXPUShares, e.2.totalXPUShares))
        = [(9223372036854775807, 10)] := by
  decide

/-- C12, counterexample: for a pod without annotations the written pod carries the
assume-time annotation, which is none of the index, shares, capacity and flag annotations
and which the input pod does not have. -/
theorem GetUpdated_round_trip_counterexample :
    EnvResourceAssumeTime ≠ EnvResourceIndex
    ∧ EnvResourceAssumeTime ≠ EnvResourceByPod
    ∧ EnvResourceAssumeTime ≠ EnvResourceByDev
    ∧ EnvResourceAssumeTime ≠ EnvAssignedFlag
    ∧ GoMap.get? (Example.request "p" 4).annotations EnvResourceAssumeTime = none
    ∧ GoMap.get? (GetUpdatedPodAnnotationSpec (Example.request "p" 4) 0 10 5).annotations
        EnvResourceAssumeTime = some "5" := by
  decide

/-- C12 (placement metadata round trip), as amended.  For every pod, device index `d` in
the range of `int`, per-device capacity `t` and clock reading `now`, the pod written by
`GetUpdatedPodAnnotationSpec` gives back `d` through `GetGPUIDFromAnnotation` and, for a
non-negative request, the requested shares through `GetXPUSharesFromPodAnnotation`; its
capacity annotation is the decimal form of `t`, its flag annotation is `false`, its
assume-time annotation is the decimal form of `now`; every annotation other than these five
and every other field of the pod is as in the input. -/
theorem GetUpdated_round_trip (pod : Pod) (d t now : Int) (hd0 : minInt ≤ d)
    (hd1 : d ≤ maxInt) :
    GetGPUIDFromAnnotation (GetUpdatedPodAnnotationSpec pod d t now) = d
    ∧ (0 ≤ GetRequestXPUSharesFromPodResource pod →
        (( GetXPUSharesFromPodAnnotation (GetUpdatedPodAnnotationSpec pod d t now) : Nat) : Int)
          = GetRequestXPUSharesFromPodResource pod)
    ∧ GoMap.get? (GetUpdatedPodAnnotationSpec pod d t now).annotations EnvResourceByDev
        = some (fmtInt t)
    ∧ GoMap.get? (GetUpdatedPodAnnotationSpec pod d t now).annotations EnvAssignedFlag
        = some "false"
    ∧ GoMap.get? (GetUpdatedPodAnnotationSpec pod d t now).annotations EnvResourceAssumeTime
        = some (fmtInt now)
    ∧ (∀ key, key ≠ EnvResourceIndex → key ≠ EnvResourceByDev → key ≠ EnvResourceByPod →
        key ≠ EnvAssignedFlag → key ≠ EnvResourceAssumeTime →
        GoMap.get? (GetUpdatedPodAnnotationSpec pod d t now).annotations key
          = GoMap.get? pod.annotations key)
    ∧ (GetUpdatedPodAnnotationSpec pod d t now).uid = pod.uid
    ∧ (GetUpdatedPodAnnotationSpec pod d t now).name = pod.name
    ∧ (GetUpdatedPodAnnotationSpec pod d t now).ns = pod.ns
    ∧ (GetUpdatedPodAnnotationSpec pod d t now).nodeName = pod.nodeName
    ∧ (GetUpdatedPodAnnotationSpec pod d t now).containers = pod.containers
    ∧ (GetUpdatedPodAnnotationSpec pod d t now).phase = pod.phase
    ∧ (GetUpdatedPodAnnotationSpec pod d t now).deletionTimestamp = pod.deletionTimestamp := by
  refine ⟨GetGPUID_GetUpdated pod d t now hd0 hd1, fun h => ?_, GetUpdated_byDev pod d t now,
    GetUpdated_flag pod d t now, GetUpdated_time pod d t now,
    fun key h1 h2 h3 h4 h5 => GetUpdated_other pod d t now key h1 h2 h3 h4 h5,
    rfl, rfl, rfl, rfl, rfl, rfl, rfl⟩
  rw [GetXPUShares_GetUpdated, if_neg (by omega)]
  omega

/-- C12, witness: a pod asking for 4 shares, written for device 2 of capacity 10. -/
theorem GetUpdated_round_trip_witness :
    (GetUpdatedPodAnnotationSpec (Example.request "p" 4) 2 10 5).annotations
      = [(EnvResourceIndex, "2"), (EnvResourceByDev, "10"), (EnvResourceByPod, "4"),
         (EnvAssignedFlag, "false"), (EnvResourceAssumeTime, "5")]
    ∧ ( GetGPUIDFromAnnotation (GetUpdatedPodAnnotationSpec (Example.request "p" 4) 2 10 5) = 2
    ∧ (0 ≤ GetRequestXPUSharesFromPodResource (Example.request "p" 4) →
        (( GetXPUSharesFromPodAnnotation
            (GetUpdatedPodAnnotationSpec (Example.request "p" 4) 2 10 5) : Nat) : Int)
          = GetRequestXPUSharesFromPodResource (Example.request "p" 4))
    ∧ GoMap.get? (GetUpdatedPodAnnotationSpec (Example.request "p" 4) 2 10 5).annotations
        EnvResourceByDev = some (fmtInt 10)
    ∧ GoMap.get? (GetUpdatedPodAnnotationSpec (Example.request "p" 4) 2 10 5).annotations
        EnvAssignedFlag = some "false"
    ∧ GoMap.get? (GetUpdatedPodAnnotationSpec (Example.request "p" 4) 2 10 5).annotations
        EnvResourceAssumeTime = some (fmtInt 5)
    ∧ (∀ key, key ≠ EnvResourceIndex → key ≠ EnvResourceByDev → key ≠ EnvResourceByPod →
        key ≠ EnvAssignedFlag → key ≠ EnvResourceAssumeTime →
        GoMap.get? (GetUpdatedPodAnnotationSpec (Example.request "p" 4) 2 10 5).annotations key
          = GoMap.get? (Example.request "p" 4).annotations key)
    ∧ (GetUpdatedPodAnnotationSpec (Example.request "p" 4) 2 10 5).uid
        = (Example.request "p" 4).uid
    ∧ (GetUpdatedPodAnnotationSpec (Example.request "p" 4) 2 10 5).name
        = (Example.request "p" 4).name
    ∧ (GetUpdatedPodAnnotationSpec (Example.request "p" 4) 2 10 5).ns
        = (Example.request "p" 4).ns
    ∧ (GetUpdatedPodAnnotationSpec (Example.request "p" 4) 2 10 5).nodeName
        = (Example.request "p" 4).nodeName
    ∧ (GetUpdatedPodAnnotationSpec (Example.request "p" 4) 2 10 5).containers
        = (Example.request "p" 4).containers
    ∧ (GetUpdatedPodAnnotationSpec (Example.request "p" 4) 2 10 5).phase
        = (Example.request "p" 4).phase
    ∧ (GetUpdatedPodAnnotationSpec (Example.request "p" 4) 2 10 5).deletionTimestamp
        = (Example.request "p" 4).deletionTimestamp) :=
  ⟨by decide,
    GetUpdated_round_trip (Example.request "p" 4) 2 10 5 (by decide) (by decide)⟩

/-! ## Occupant maps, the predicate and the commit errors (claims C17 to C20) -/

namespace DeviceInfo

/-- C19 (occupant insertion is idempotent and keyed by identity).  For a device whose
occupant map is a Go map (distinct keys) and pods `p`, `q` with the same UID: adding `p`
twice is adding it once; adding `p` and then `q` leaves exactly one entry for the UID,
holding `q`; removing `p` after adding it leaves no entry for the UID; removing a UID that
is not present changes nothing; the entries of other UIDs, the total capacity and the index
are never changed. -/
theorem addPod_removePod (d : DeviceInfo) (p q : Pod) (huid : p.uid = q.uid)
    (hnd : (GoMap.keys d.podMap).Nodup) :
    (d.addPod p).addPod p = d.addPod p
    ∧ ((d.addPod p).addPod q).podMap.filter (fun e => decide (e.1 = p.uid)) = [(p.uid, q)]
    ∧ GoMap.get? ((d.addPod p).addPod q).podMap p.uid = some q
    ∧ GoMap.get? ((d.addPod p).removePod p).podMap p.uid = none
    ∧ p.uid ∉ GoMap.keys ((d.addPod p).removePod p).podMap
    ∧ (p.uid ∉ GoMap.keys d.podMap → d.removePod p = d)
    ∧ (∀ uid, uid ≠ p.uid →
        GoMap.get? (d.addPod p).podMap uid = GoMap.get? d.podMap uid
        ∧ GoMap.get? (d.removePod p).podMap uid = GoMap.get? d.podMap uid)
    ∧ (d.addPod p).totalXPUShares = d.totalXPUShares
    ∧ (d.removePod p).totalXPUShares = d.totalXPUShares
    ∧ (d.addPod p).idx = d.idx
    ∧ (d.removePod p).idx = d.idx := by
  have hq : GoMap.get? (GoMap.set (GoMap.set d.podMap p.uid p) q.uid q) p.uid = some q := by
    rw [GoMap.get?_set, if_pos huid.symm]
  refine ⟨?_, ?_, hq, ?_, ?_, fun h => ?_, fun uid hne => ⟨?_, ?_⟩, rfl, rfl, rfl, rfl⟩
  · show ({ d with podMap := GoMap.set (GoMap.set d.podMap p.uid p) p.uid p } : DeviceInfo)
      = { d with podMap := GoMap.set d.podMap p.uid p }
    rw [GoMap.set_set]
  · exact GoMap.filter_key_of_get? _
      (GoMap.nodup_keys_set _ _ _ (GoMap.nodup_keys_set _ _ _ hnd)) p.uid q hq
  · show GoMap.get? (GoMap.delete (GoMap.set d.podMap p.uid p) p.uid) p.uid = none
    rw [GoMap.get?_delete, if_pos rfl]
  · show p.uid ∉ GoMap.keys (GoMap.delete (GoMap.set d.podMap p.uid p) p.uid)
    rw [GoMap.mem_keys_delete]
    exact fun h => h.2 rfl
  · show ({ d with podMap := GoMap.delete d.podMap p.uid } : DeviceInfo) = d
    rw [GoMap.delete_of_not_mem _ _ h]
  · show GoMap.get? (GoMap.set d.podMap p.uid p) uid = GoMap.get? d.podMap uid
    rw [GoMap.get?_set, if_neg (Ne.symm hne)]
  · show GoMap.get? (GoMap.delete d.podMap p.uid) uid = GoMap.get? d.podMap uid
    rw [GoMap.get?_delete, if_neg (Ne.symm hne)]

/-- C19, witness: on a device that holds pod `a`, pod `p` is added twice, replaced by a pod
of the same UID, and removed. -/
theorem addPod_removePod_witness :
    (((newDeviceInfo 0 10).addPod (Example.placed "a" "0" "3")).addPod
        (Example.request "p" 4)).podMap.map Prod.fst = ["a", "p"]
    ∧ ((((newDeviceInfo 0 10).addPod (Example.placed "a" "0" "3")).addPod
        (Example.request "p" 4)).addPod (Example.request "p" 4)
      = ((newDeviceInfo 0 10).addPod (Example.placed "a" "0" "3")).addPod
          (Example.request "p" 4)
    ∧ ((((newDeviceInfo 0 10).addPod (Example.placed "a" "0" "3")).addPod
          (Example.request "p" 4)).addPod (Example.request "p" 6)).podMap.filter
        (fun e => decide (e.1 = (Example.request "p" 4).uid))
        = [((Example.request "p" 4).uid, Example.request "p" 6)]
    ∧ GoMap.get? ((((newDeviceInfo 0 10).addPod (Example.placed "a" "0" "3")).addPod
          (Example.request "p" 4)).addPod (Example.request "p" 6)).podMap
        (Example.request "p" 4).uid = some (Example.request "p" 6)
    ∧ GoMap.get? ((((newDeviceInfo 0 10).addPod (Example.placed "a" "0" "3")).addPod
          (Example.request "p" 4)).removePod (Example.request "p" 4)).podMap
        (Example.request "p" 4).uid = none
    ∧ (Example.request "p" 4).uid
        ∉ GoMap.keys ((((newDeviceInfo 0 10).addPod (Example.placed "a" "0" "3")).addPod
          (Example.request "p" 4)).removePod (Example.request "p" 4)).podMap
    ∧ ((Example.request "p" 4).uid
          ∉ GoMap.keys ((newDeviceInfo 0 10).addPod (Example.placed "a" "0" "3")).podMap →
        ((newDeviceInfo 0 10).addPod (Example.placed "a" "0" "3")).removePod
            (Example.request "p" 4)
          = (newDeviceInfo 0 10).addPod (Example.placed "a" "0" "3"))
    ∧ (∀ uid, uid ≠ (Example.request "p" 4).uid →
        GoMap.get? (((newDeviceInfo 0 10).addPod (Example.placed "a" "0" "3")).addPod
            (Example.request "p" 4)).podMap uid
          = GoMap.get? ((newDeviceInfo 0 10).addPod (Example.placed "a" "0" "3")).podMap uid
        ∧ GoMap.get? (((newDeviceInfo 0 10).addPod (Example.placed "a" "0" "3")).removePod
            (Example.request "p" 4)).podMap uid
          = GoMap.get? ((newDeviceInfo 0 10).addPod (Example.placed "a" "0" "3")).podMap uid)
    ∧ (((newDeviceInfo 0 10).addPod (Example.placed "a" "0" "3")).addPod
        (Example.request "p" 4)).totalXPUShares
        = ((newDeviceInfo 0 10).addPod (Example.placed "a" "0" "3")).totalXPUShares
    ∧ (((newDeviceInfo 0 10).addPod (Example.placed "a" "0" "3")).removePod
        (Example.request "p" 4)).totalXPUShares
        = ((newDeviceInfo 0 10).addPod (Example.placed "a" "0" "3")).totalXPUShares
    ∧ (((newDeviceInfo 0 10).addPod (Example.placed "a" "0" "3")).addPod
        (Example.request "p" 4)).idx
        = ((newDeviceInfo 0 10).addPod (Example.placed "a" "0" "3")).idx
    ∧ (((newDeviceInfo 0 10).addPod (Example.placed "a" "0" "3")).removePod
        (Example.request "p" 4)).idx
        = ((newDeviceInfo 0 10).addPod (Example.placed "a" "0" "3")).idx) :=
  ⟨by decide,
    addPod_removePod ((newDeviceInfo 0 10).addPod (Example.placed "a" "0" "3"))
      (Example.request "p" 4) (Example.request "p" 6) (by decide) (by decide)⟩

end DeviceInfo

namespace NodeInfo

/-- A commit failure that is no conflict is not retried on a node with a non-zero stored
device count.  When device `d` is selected and the clientset answers the first update with
an error whose message is not the stale-revision conflict message, that update is the only
call made: one update attempt, no re-fetch, no bind; `Allocate` returns exactly that error
and the node is unchanged. -/
theorem Allocate_no_retry {σ : Type} (w : World σ) (getConfigMap : String → Option ConfigMap)
    (n : NodeInfo) (s : σ) (pod : Pod) (d : Int) (e : String)
    (hsel : n.allocateGPUID getConfigMap pod = (d, true)) (hcount : n.gpuCount ≠ 0)
    (hfirst : (firstUpdate w n s pod d).2 = some e)
    (hne : e ≠ OptimisticLockErrorMsg) :
    (n.Allocate w getConfigMap s pod).calls = [Call.update (firstPod w n s pod d) (some e)]
      ∧ ((n.Allocate w getConfigMap s pod).calls.filter Call.isUpdate).length = 1
      ∧ ((n.Allocate w getConfigMap s pod).calls.filter Call.isGet).length = 0
      ∧ ((n.Allocate w getConfigMap s pod).calls.filter Call.isBind).length = 0
      ∧ (n.Allocate w getConfigMap s pod).outcome = .returned (some e)
      ∧ (n.Allocate w getConfigMap s pod).node = n := by
  have hd : (n.allocateGPUID getConfigMap pod).1 = d := by rw [hsel]
  have hf : (n.allocateGPUID getConfigMap pod).2 = true := by rw [hsel]
  have hr := Allocate_first_error w getConfigMap n s pod e hf hcount (by rw [hd]; exact hfirst)
    hne
  rw [hd] at hr
  rw [hr]
  exact ⟨rfl, rfl, rfl, rfl, rfl, rfl⟩

/-- An instance: on the fresh node with one device of capacity 10 the update of a pod asking
for 4 shares is refused as forbidden; `Allocate` stops there. -/
theorem Allocate_no_retry_witness :
    (Example.node10.Allocate Example.updateFailsWorld Example.noConfigMap ()
        (Example.request "p" 4)).calls.map Call.error? = [some "pods \"p\" is forbidden"]
    ∧ ((Example.node10.Allocate Example.updateFailsWorld Example.noConfigMap ()
          (Example.request "p" 4)).calls
        = [Call.update (firstPod Example.updateFailsWorld Example.node10 ()
            (Example.request "p" 4) 0) (some "pods \"p\" is forbidden")]
      ∧ ((Example.node10.Allocate Example.updateFailsWorld Example.noConfigMap ()
          (Example.request "p" 4)).calls.filter Call.isUpdate).length = 1
      ∧ ((Example.node10.Allocate Example.updateFailsWorld Example.noConfigMap ()
          (Example.request "p" 4)).calls.filter Call.isGet).length = 0
      ∧ ((Example.node10.Allocate Example.updateFailsWorld Example.noConfigMap ()
          (Example.request "p" 4)).calls.filter Call.isBind).length = 0
      ∧ (Example.node10.Allocate Example.updateFailsWorld Example.noConfigMap ()
          (Example.request "p" 4)).outcome = .returned (some "pods \"p\" is forbidden")
      ∧ (Example.node10.Allocate Example.updateFailsWorld Example.noConfigMap ()
          (Example.request "p" 4)).node = Example.node10) :=
  ⟨by decide,
    Allocate_no_retry Example.updateFailsWorld Example.noConfigMap Example.node10 ()
      (Example.request "p" 4) 0 "pods \"p\" is forbidden" (by decide) (by decide) (by decide)
      (by decide)⟩

/-- C20, at the failing input: on the node that `Reset` leaves with one device and a stored
device count of zero, device 0 is selected for a request of 4, and the clientset would
answer the update with an error that is not the conflict.  `Allocate` panics on the division
by the count before the update: no update attempt is made and no error is returned. -/
theorem Allocate_no_retry_zero_count :
    GoMap.keys Example.node10NoCount.devs = [0]
    ∧ Example.node10NoCount.GetGPUCount = 0
    ∧ Example.node10NoCount.allocateGPUID Example.noConfigMap (Example.request "p" 4)
        = (0, true)
    ∧ (∀ pod : Pod, (Example.updateFailsWorld.update () pod).2
        = some "pods \"p\" is forbidden")
    ∧ "pods \"p\" is forbidden" ≠ OptimisticLockErrorMsg
    ∧ (Example.node10NoCount.Allocate Example.updateFailsWorld Example.noConfigMap ()
        (Example.request "p" 4)).outcome = .panicked
    ∧ (Example.node10NoCount.Allocate Example.updateFailsWorld Example.noConfigMap ()
        (Example.request "p" 4)).calls = [] := by
  refine ⟨by decide, by decide, by decide, fun _ => rfl, by decide, by decide, by decide⟩

/-- C18 (idempotent, side-effect-free predicate).  `Assume` only reads the node: its result
is a function of the device collection (indices, capacities, occupant sets), the unhealthy
set and the pod.  Two calls on nodes with the same device collection, with the same pod and
with unhealthy records that denote the same set, return the same boolean; in particular two
consecutive calls on one node do. -/
theorem Assume_idempotent (getConfigMap getConfigMap' : String → Option ConfigMap)
    (n n' : NodeInfo) (pod : Pod) (hdevs : n'.devs = n.devs)
    (hset : ∀ k, n'.unhealthy getConfigMap' k ↔ n.unhealthy getConfigMap k) :
    n'.Assume getConfigMap' pod = n.Assume getConfigMap pod := by
  rw [Assume_eq_loop, Assume_eq_loop, hdevs]
  apply assumeLoop_congr
  intro k
  rw [getAvailableXPUs_unhealthy getConfigMap' n' k, getAvailableXPUs_unhealthy getConfigMap n k,
    getAvailableXPUs_devs n n' hdevs]
  by_cases hu : n.unhealthy getConfigMap k
  · rw [if_pos hu, if_pos ((hset k).2 hu)]
  · rw [if_neg hu, if_neg (fun h => hu ((hset k).1 h))]

/-- C18, witness: with available shares 10, 4 and 6, the unhealthy records `0` and `0,0`
denote the same set; a request of 7 is refused under both, on the node and on the node
after a `Reset` that kept its devices. -/
theorem Assume_idempotent_witness :
    Example.node1046.Assume (Example.configMap "0") (Example.request "p" 7) = false
    ∧ (Example.node1046.Reset (Example.nodeRecord 60 3)).Assume (Example.configMap "0,0")
        (Example.request "p" 7)
      = Example.node1046.Assume (Example.configMap "0") (Example.request "p" 7) :=
  ⟨by decide,
    Assume_idempotent (Example.configMap "0") (Example.configMap "0,0") Example.node1046
      (Example.node1046.Reset (Example.nodeRecord 60 3)) (Example.request "p" 7) (by decide)
      (fun k => by
        have h1 : (Example.node1046.Reset (Example.nodeRecord 60 3)).getUnhealthyXPUs
            (Example.configMap "0,0") = [(0, true)] := by decide
        have h2 : Example.node1046.getUnhealthyXPUs (Example.configMap "0") = [(0, true)] := by
          decide
        unfold unhealthy
        rw [h1, h2])⟩

end NodeInfo

namespace Scheduler

/-- C17 (predicate result).  The predicate function returns (true, no error) exactly when the
lookup of the node succeeds, the node advertises a positive shared-device capacity and
`Assume` is true on it; after a failed lookup it returns false with the lookup error, on a
node without positive capacity false with the "not for XPU shares" error, and when `Assume`
is false, false with the "insufficient XPU shares in one device" error. -/
theorem predicate_result (getConfigMap : String → Option ConfigMap) (c : SchedulerCache)
    (pod : XPU.Pod) (nodeName : String) :
    ((NewXPUPredicate getConfigMap).Func pod nodeName c = (true, none)
      ↔ ∃ info, c.GetNodeInfo nodeName = .found info ∧ GetXPUSharesCapacity info.node > 0
          ∧ info.Assume getConfigMap pod = true)
    ∧ (∀ err, c.GetNodeInfo nodeName = .failed err →
        (NewXPUPredicate getConfigMap).Func pod nodeName c = (false, some err))
    ∧ (∀ info, c.GetNodeInfo nodeName = .found info → ¬ GetXPUSharesCapacity info.node > 0 →
        (NewXPUPredicate getConfigMap).Func pod nodeName c
          = (false, some ("the node " ++ nodeName ++ " is not for XPU shares, need skip")))
    ∧ (∀ info, c.GetNodeInfo nodeName = .found info → GetXPUSharesCapacity info.node > 0 →
        info.Assume getConfigMap pod = false →
        (NewXPUPredicate getConfigMap).Func pod nodeName c
          = (false, some "insufficient XPU shares in one device")) := by
  have hfailed : ∀ err, c.GetNodeInfo nodeName = .failed err →
      (NewXPUPredicate getConfigMap).Func pod nodeName c = (false, some err) := by
    intro err h
    unfold NewXPUPredicate
    simp only [h]
  have hnocap : ∀ info, c.GetNodeInfo nodeName = .found info →
      ¬ GetXPUSharesCapacity info.node > 0 →
      (NewXPUPredicate getConfigMap).Func pod nodeName c
        = (false, some ("the node " ++ nodeName ++ " is not for XPU shares, need skip")) := by
    intro info h hcap
    unfold NewXPUPredicate
    simp [h, IsXPUSharesNode, NodeInfo.GetNode, hcap]
  have hrefused : ∀ info, c.GetNodeInfo nodeName = .found info →
      GetXPUSharesCapacity info.node > 0 → info.Assume getConfigMap pod = false →
      (NewXPUPredicate getConfigMap).Func pod nodeName c
        = (false, some "insufficient XPU shares in one device") := by
    intro info h hcap ha
    unfold NewXPUPredicate
    simp [h, IsXPUSharesNode, NodeInfo.GetNode, hcap, ha]
  have hfits : ∀ info, c.GetNodeInfo nodeName = .found info →
      GetXPUSharesCapacity info.node > 0 → info.Assume getConfigMap pod = true →
      (NewXPUPredicate getConfigMap).Func pod nodeName c = (true, none) := by
    intro info h hcap ha
    unfold NewXPUPredicate
    simp [h, IsXPUSharesNode, NodeInfo.GetNode, hcap, ha]
  refine ⟨⟨fun h => ?_, fun hex => ?_⟩, hfailed, hnocap, hrefused⟩
  · cases hl : c.GetNodeInfo nodeName with
    | failed err =>
      rw [hfailed err hl] at h
      cases h
    | found info =>
      by_cases hcap : GetXPUSharesCapacity info.node > 0
      · cases ha : info.Assume getConfigMap pod with
        | true => exact ⟨info, rfl, hcap, ha⟩
        | false =>
          rw [hrefused info hl hcap ha] at h
          cases h
      · rw [hnocap info hl hcap] at h
        cases h
  · obtain ⟨info, h1, h2, h3⟩ := hex
    exact hfits info h1 h2 h3

end Scheduler

/-! ## Inspect, single-device membership and `Reset` (claims C13 to C16) -/

namespace Scheduler

/-- C13, counterexample: on the fresh node with one device of capacity 10, `Allocate`
registers a pod asking for 4 shares; the pod is in phase `Pending` and, not being bound
yet, has no node name.  The report of `buildNode` counts its 4 shares as used and lists no
pod on the device. -/
theorem buildNode_counterexample :
    (Example.node10.Allocate Example.okWorld Example.noConfigMap ()
        (Example.request "p" 4)).outcome = .returned none
    ∧ (Example.node10.Allocate Example.okWorld Example.noConfigMap ()
        (Example.request "p" 4)).node.devs.map
          (fun e => e.2.podMap.map (fun o => (o.1, o.2.phase, o.2.nodeName)))
        = [[("p", "Pending", "")]]
    ∧ buildNode (some (Example.node10.Allocate Example.okWorld Example.noConfigMap ()
        (Example.request "p" 4)).node)
        = some { Name := "node-a", TotalGPU := 10, UsedGPU := 4,
                 Devices := [{ ID := 0, TotalGPU := 10, UsedGPU := 4, Pods := [] }] } := by
  decide

/-- C13 (inspect lists the assigned, non-terminal occupants), as amended.  On a node whose
device map has the shape every method keeps and whose stored device count is the number of
its devices, `buildNode` returns a report that has one entry per device, at the position of
the device index, with that index, the total capacity of the device, its live used shares
(`GetDevUsedXPUShares`) and a pod list that holds exactly the occupants of the device that
have no deletion timestamp, have a node name, and are in a phase that is neither
`Succeeded` nor `Failed`. -/
theorem buildNode_reports (n : NodeInfo) (hwf : n.WF)
    (hcount : n.gpuCount = (n.devs.length : Int)) :
    ∃ node, buildNode (some n) = some node
      ∧ node.Name = n.name
      ∧ node.Devices.length = n.devs.length
      ∧ (∀ (i : Nat) dev, GoMap.get? n.devs (i : Int) = some dev →
          node.Devices[i]?
            = some { ID := (i : Int), TotalGPU := dev.totalXPUShares,
                     UsedGPU := dev.GetDevUsedXPUShares,
                     Pods := (dev.GetPods.filter listed).map report })
      ∧ ∀ pod : XPU.Pod, listed pod = true
          ↔ pod.deletionTimestamp = none ∧ pod.nodeName.length ≠ 0
              ∧ pod.phase ≠ PodSucceeded ∧ pod.phase ≠ PodFailed := by
  obtain ⟨node, h1, h2, h3, h4⟩ := buildNode_spec n hwf hcount
  refine ⟨node, h1, h2, h3, fun i dev hdev => ?_, listed_iff⟩
  rw [h4 i dev hdev]
  unfold buildDevice
  rw [buildPods_eq]
  rfl

/-- C13, witness: three devices of capacity 10; device 1 holds a running pod of 6 shares
bound to the node, device 2 one of 4 shares; both are listed. -/
theorem buildNode_reports_witness :
    buildNode (some Example.node1046)
      = some { Name := "node-a", TotalGPU := 30, UsedGPU := 10,
               Devices := [{ ID := 0, TotalGPU := 10, UsedGPU := 0, Pods := [] },
                 { ID := 1, TotalGPU := 10, UsedGPU := 6,
                   Pods := [{ Namespace := "default", Name := "a", UsedGPU := 0 }] },
                 { ID := 2, TotalGPU := 10, UsedGPU := 4,
                   Pods := [{ Namespace := "default", Name := "b", UsedGPU := 0 }] }] }
    ∧ ∃ node, buildNode (some Example.node1046) = some node
      ∧ node.Name = Example.node1046.name
      ∧ node.Devices.length = Example.node1046.devs.length
      ∧ (∀ (i : Nat) dev, GoMap.get? Example.node1046.devs (i : Int) = some dev →
          node.Devices[i]?
            = some { ID := (i : Int), TotalGPU := dev.totalXPUShares,
                     UsedGPU := dev.GetDevUsedXPUShares,
                     Pods := (dev.GetPods.filter listed).map report })
      ∧ ∀ pod : XPU.Pod, listed pod = true
          ↔ pod.deletionTimestamp = none ∧ pod.nodeName.length ≠ 0
              ∧ pod.phase ≠ PodSucceeded ∧ pod.phase ≠ PodFailed :=
  ⟨by decide,
    buildNode_reports Example.node1046 (NodeInfo.WF.of_range _ (by decide) (by decide))
      (by decide)⟩

/-- C14, at the failing input: the cache knows no node; for the name `ghost` the lookup
returns no node and an error, and `Handler` panics in `buildNode` on the nil pointer: it
returns no result.  On a cache that knows the node it returns the report with an empty
error message. -/
theorem Handler_unknown_node :
    Example.emptyCache.GetNodeInfo "ghost" = .failed "node \"ghost\" not found"
    ∧ Handler Example.emptyCache "ghost" = none
    ∧ Handler (Example.cacheOf Example.node10) "ghost" = none
    ∧ Handler (Example.cacheOf Example.node10) "node-a"
        = some { Nodes := [{ Name := "node-a", TotalGPU := 10, UsedGPU := 0,
                             Devices := [{ ID := 0, TotalGPU := 10, UsedGPU := 0,
                                           Pods := [] }] }],
                 Error := "" } := by
  decide

end Scheduler

namespace NodeInfo

/-- C15, counterexample: two devices; device 0 holds pod `a`, device 1 holds pod `b`, each
UID on one device.  `addOrUpdatePod` with pod `a` carrying the device index 1 adds it to
device 1 and leaves it on device 0. -/
theorem single_device_counterexample :
    Example.node21.SingleDevice
    ∧ (Example.node21.addOrUpdatePod (Example.placed "a" "1" "3")).1.devs.map
        (fun e => (e.1, GoMap.keys e.2.podMap)) = [(0, ["a"]), (1, ["b", "a"])]
    ∧ ¬ (Example.node21.addOrUpdatePod (Example.placed "a" "1" "3")).1.SingleDevice := by
  decide

/-- C15 (single-device membership), as amended.  On a node on which each pod UID is in the
occupant set of at most one device: `removePod` keeps it so; `addOrUpdatePod` keeps it so
when the UID of the pod is on no device other than the one its annotation names; `Allocate`
keeps it so, whatever the update, get and bind calls answer, when the UID of the input pod
and the UID of a pod re-fetched after a conflict are on no device other than the selected
one. -/
theorem single_device_kept (n : NodeInfo) (pod : Pod) (hs : n.SingleDevice) :
    (n.removePod pod).SingleDevice
    ∧ (n.OnlyOn pod.uid ( GetGPUIDFromAnnotation pod) → (n.addOrUpdatePod pod).1.SingleDevice)
    ∧ ∀ (σ : Type) (w : World σ) (getConfigMap : String → Option ConfigMap) (s : σ),
        (∀ committed,
          (committed = pod
            ∨ (refetch w n s pod (n.allocateGPUID getConfigMap pod).1).2 = .ok committed) →
          n.OnlyOn committed.uid (n.allocateGPUID getConfigMap pod).1) →
        (n.Allocate w getConfigMap s pod).node.SingleDevice :=
  ⟨removePod_singleDevice n pod hs, addOrUpdatePod_singleDevice n pod hs,
    fun _ w getConfigMap s hfree => Allocate_singleDevice w getConfigMap n s pod hs hfree⟩

/-- C15, witness: on the node with pod `a` on device 0 and pod `b` on device 1, pod `a` is
updated on its own device. -/
theorem single_device_kept_witness :
    (Example.node21.addOrUpdatePod (Example.placed "a" "0" "2")).1.SingleDevice
    ∧ ((Example.node21.removePod (Example.placed "a" "0" "2")).SingleDevice
      ∧ (Example.node21.OnlyOn (Example.placed "a" "0" "2").uid
            ( GetGPUIDFromAnnotation (Example.placed "a" "0" "2")) →
          (Example.node21.addOrUpdatePod (Example.placed "a" "0" "2")).1.SingleDevice)
      ∧ ∀ (σ : Type) (w : World σ) (getConfigMap : String → Option ConfigMap) (s : σ),
          (∀ committed,
            (committed = Example.placed "a" "0" "2"
              ∨ (refetch w Example.node21 s (Example.placed "a" "0" "2")
                  (Example.node21.allocateGPUID getConfigMap
                    (Example.placed "a" "0" "2")).1).2 = .ok committed) →
            Example.node21.OnlyOn committed.uid
              (Example.node21.allocateGPUID getConfigMap (Example.placed "a" "0" "2")).1) →
          (Example.node21.Allocate w getConfigMap s
            (Example.placed "a" "0" "2")).node.SingleDevice) :=
  ⟨by decide, single_device_kept Example.node21 (Example.placed "a" "0" "2") (by decide)⟩

/-- C16, at the failing input: the node with one device of capacity 10 and device count 1
is reset with a node record that has 10 shares and no device count.  The device collection
is populated and is kept, and the device count of the node goes from 1 to 0; `GetDevs`,
which returned the one device before, now stores outside its slice of length 0 and
panics. -/
theorem Reset_changes_count :
    GoMap.keys Example.node10.devs = [0]
    ∧ Example.node10.GetGPUCount = 1
    ∧ Example.node10.GetDevs = some [some { idx := 0, podMap := [], totalXPUShares := 10 }]
    ∧ GetGPUCountInNode (Example.recordNoCount 10) = 0
    ∧ (Example.node10.Reset (Example.recordNoCount 10)).devs = Example.node10.devs
    ∧ (Example.node10.Reset (Example.recordNoCount 10)).GetGPUCount = 0
    ∧ (Example.node10.Reset (Example.recordNoCount 10)).GetDevs = none := by
  decide

/-- What `Reset` does to the device collection.  `Reset` with any node record leaves a
non-empty device collection as it was: the same indices, the same
number of devices, and for each device the same total capacity and the same occupant set.
The collection is rebuilt exactly when it was empty and the count of the record is
positive: then it holds the devices of index `0 .. count-1`, each with the capacity
`uint(total/count)` and no occupants.  The name of the node is kept. -/
theorem Reset_devs (n : NodeInfo) (node : Node) :
    (n.Reset node).devs
        = (if n.devs.length = 0 ∧ GetGPUCountInNode node > 0 then
            (List.range (GetGPUCountInNode node).toNat).map
              (fun (i : Nat) => ((i : Int),
                ({ idx := (i : Int), podMap := [],
                   totalXPUShares
                     := toUint (idiv (GetXPUSharesCapacity node) (GetGPUCountInNode node)) }
                  : DeviceInfo)))
          else n.devs)
    ∧ (n.devs ≠ [] →
        (n.Reset node).devs = n.devs
        ∧ GoMap.keys (n.Reset node).devs = GoMap.keys n.devs
        ∧ (n.Reset node).devs.length = n.devs.length
        ∧ ∀ k, GoMap.get? (n.Reset node).devs k = GoMap.get? n.devs k)
    ∧ (n.Reset node).name = n.name := by
  have hmain : (n.Reset node).devs
      = (if n.devs.length = 0 ∧ GetGPUCountInNode node > 0 then
          buildDevMap (GetGPUCountInNode node)
            (toUint (idiv (GetXPUSharesCapacity node) (GetGPUCountInNode node)))
        else n.devs) := by
    unfold Reset
    simp only []
    split <;> rfl
  have hname : (n.Reset node).name = n.name := by
    unfold Reset
    simp only []
    split <;> rfl
  refine ⟨?_, fun hne => ?_, hname⟩
  · rw [hmain, buildDevMap_eq]
    rfl
  · have hlen : ¬ (n.devs.length = 0 ∧ GetGPUCountInNode node > 0) := by
      intro h
      exact hne (List.length_eq_zero.1 h.1)
    rw [if_neg hlen] at hmain
    exact ⟨hmain, by rw [hmain], by rw [hmain], fun k => by rw [hmain]⟩

end NodeInfo

/-! ## The device count, admission against selection, and over-commitment
(claims C21 to C24) -/

namespace NodeInfo

/-- C21 (a zero device count is a valid state).  For every node record whose device count
reads as 0 (the entry is 0 or absent), `NewNodeInfo` completes, its loop body with the
division never running, and yields a node with an empty device collection.  On that node,
whatever the unhealthy record and the pod, `Assume` returns false, `allocateGPUID` reports
not found, and `Allocate` takes the branch without a division: it returns the "can't place"
error, makes no call on the clientset and leaves the node and the outside world as they
were. -/
theorem NewNodeInfo_zero_count {σ : Type} (w : World σ)
    (getConfigMap : String → Option ConfigMap) (node : Node) (s : σ) (pod : Pod)
    (hcount : GetGPUCountInNode node = 0) :
    NewNodeInfoChecked node = some (NewNodeInfo node)
    ∧ (NewNodeInfo node).devs = []
    ∧ (NewNodeInfo node).Assume getConfigMap pod = false
    ∧ (NewNodeInfo node).allocateGPUID getConfigMap pod = (-1, false)
    ∧ (NewNodeInfo node).Allocate w getConfigMap s pod
        = { node := NewNodeInfo node, world := s, calls := [],
            outcome := .returned (some (cantPlaceError pod)) } := by
  have hdevs := NewNodeInfo_devs_of_zero node hcount
  have hsel := allocateGPUID_of_nil getConfigMap (NewNodeInfo node) pod hdevs
  exact ⟨NewNodeInfoChecked_eq node, hdevs, Assume_of_nil getConfigMap _ pod hdevs, hsel,
    Allocate_of_notFound w getConfigMap _ s pod (by rw [hsel])⟩

/-- C21, witness: a node record with 10 shares and no device count, and one with 10 shares
and a device count of 0; a pod asking for 4 shares. -/
theorem NewNodeInfo_zero_count_witness :
    GetGPUCountInNode (Example.recordNoCount 10) = 0
    ∧ GetGPUCountInNode (Example.nodeRecord 10 0) = 0
    ∧ (NewNodeInfoChecked (Example.recordNoCount 10)
          = some (NewNodeInfo (Example.recordNoCount 10))
      ∧ (NewNodeInfo (Example.recordNoCount 10)).devs = []
      ∧ (NewNodeInfo (Example.recordNoCount 10)).Assume Example.noConfigMap
          (Example.request "p" 4) = false
      ∧ (NewNodeInfo (Example.recordNoCount 10)).allocateGPUID Example.noConfigMap
          (Example.request "p" 4) = (-1, false)
      ∧ (NewNodeInfo (Example.recordNoCount 10)).Allocate Example.okWorld Example.noConfigMap ()
          (Example.request "p" 4)
          = { node := NewNodeInfo (Example.recordNoCount 10), world := (), calls := [],
              outcome := .returned (some (cantPlaceError (Example.request "p" 4))) })
    ∧ (NewNodeInfoChecked (Example.nodeRecord 10 0)
          = some (NewNodeInfo (Example.nodeRecord 10 0))
      ∧ (NewNodeInfo (Example.nodeRecord 10 0)).devs = []
      ∧ (NewNodeInfo (Example.nodeRecord 10 0)).Assume (Example.configMap "0")
          (Example.request "p" 4) = false
      ∧ (NewNodeInfo (Example.nodeRecord 10 0)).allocateGPUID (Example.configMap "0")
          (Example.request "p" 4) = (-1, false)
      ∧ (NewNodeInfo (Example.nodeRecord 10 0)).Allocate Example.okWorld
          (Example.configMap "0") () (Example.request "p" 4)
          = { node := NewNodeInfo (Example.nodeRecord 10 0), world := (), calls := [],
              outcome := .returned (some (cantPlaceError (Example.request "p" 4))) }) :=
  ⟨by decide, by decide,
    NewNodeInfo_zero_count Example.okWorld Example.noConfigMap (Example.recordNoCount 10) ()
      (Example.request "p" 4) (by decide),
    NewNodeInfo_zero_count Example.okWorld (Example.configMap "0") (Example.nodeRecord 10 0) ()
      (Example.request "p" 4) (by decide)⟩

/-- C22, counterexample: on the fresh node with one device of capacity 10, a pod whose
requested share count is zero is admitted by `Assume` (10 ≥ 0) and `allocateGPUID` reports
not found, its loop being under the guard `reqShares > 0`. -/
theorem allocateGPUID_Assume_counterexample :
    GetRequestXPUSharesFromPodResource (Example.request "p" 0) = 0
    ∧ Example.node10.getAvailableXPUs Example.noConfigMap = [(0, 10)]
    ∧ Example.node10.Assume Example.noConfigMap (Example.request "p" 0) = true
    ∧ Example.node10.allocateGPUID Example.noConfigMap (Example.request "p" 0)
        = (-1, false) := by
  decide

/-- C22 (admission and selection agree), as amended.  For every node state, unhealthy
record and pod, `allocateGPUID` reports found if and only if the requested share count,
read as a `uint`, is positive and `Assume` returns true on the same state; and `Assume`
returns true if and only if some device index below the number of devices has an entry in
the map of available shares that is at least the request, which for a request of zero is
any entry at all. -/
theorem allocateGPUID_iff_Assume (getConfigMap : String → Option ConfigMap) (n : NodeInfo)
    (pod : Pod) :
    ((n.allocateGPUID getConfigMap pod).2 = true
      ↔ 0 < toUint (GetRequestXPUSharesFromPodResource pod)
          ∧ n.Assume getConfigMap pod = true)
    ∧ (n.Assume getConfigMap pod = true
      ↔ ∃ i ∈ List.range n.devs.length, ∃ a,
          GoMap.get? (n.getAvailableXPUs getConfigMap) (i : Int) = some a
            ∧ toUint (GetRequestXPUSharesFromPodResource pod) ≤ a) := by
  refine ⟨?_, Assume_iff getConfigMap n pod⟩
  by_cases hreq : 0 < toUint (GetRequestXPUSharesFromPodResource pod)
  · rw [allocateGPUID_found_iff getConfigMap n pod hreq, Assume_iff getConfigMap n pod]
    exact ⟨fun h => ⟨hreq, h⟩, fun h => h.2⟩
  · rw [allocateGPUID_zero getConfigMap n pod hreq]
    exact ⟨fun h => (by cases h), fun h => absurd h.1 hreq⟩

/-- C23, at the failing input: the event path has placed two running pods of 6 shares on
the one device of capacity 10.  The used shares are 12, the `uint` difference `10 - 12` that
`getAvailableXPUs` stores is `2 ^ 64 - 2`, above the capacity; `Assume` admits a request of
4, `allocateGPUID` selects the device even for a request of 1000, and `Allocate` registers
the pod of 4 shares, bringing the used shares to 16. -/
theorem getAvailableXPUs_overcommitted :
    Example.node10over.devs.map
        (fun e => (e.1, e.2.totalXPUShares, e.2.GetDevUsedXPUShares)) = [(0, 10, 12)]
    ∧ Example.node10over.getAvailableXPUs Example.noConfigMap = [(0, 18446744073709551614)]
    ∧ Example.node10over.Assume Example.noConfigMap (Example.request "p" 4) = true
    ∧ Example.node10over.allocateGPUID Example.noConfigMap (Example.request "p" 1000)
        = (0, true)
    ∧ (Example.node10over.Allocate Example.okWorld Example.noConfigMap ()
        (Example.request "p" 4)).outcome = .returned none
    ∧ (Example.node10over.Allocate Example.okWorld Example.noConfigMap ()
        (Example.request "p" 4)).node.devs.map
          (fun e => (e.1, e.2.totalXPUShares, e.2.GetDevUsedXPUShares)) = [(0, 10, 16)] := by
  decide

/-- C24, at the failing input: the node built from a record with 10 shares and 1 device is
reset with a record that has 10 shares and no device count.  The stored count is 0 and the
device collection still holds device 0: `GetDevs` stores outside its slice of length 0 and
panics, and `Allocate` selects device 0 for a request of 4 and panics on the division by
the count.  Likewise a node built with 2 devices and reset with a count of 1 keeps devices
0 and 1 under a stored count of 1, and `GetDevs` panics. -/
theorem resetAll_count_mismatch :
    (resetAll (Example.nodeRecord 10 1) [Example.recordNoCount 10]).GetGPUCount = 0
    ∧ GoMap.keys (resetAll (Example.nodeRecord 10 1) [Example.recordNoCount 10]).devs = [0]
    ∧ (resetAll (Example.nodeRecord 10 1) [Example.recordNoCount 10]).GetDevs = none
    ∧ (resetAll (Example.nodeRecord 10 1) [Example.recordNoCount 10]).allocateGPUID
        Example.noConfigMap (Example.request "p" 4) = (0, true)
    ∧ ((resetAll (Example.nodeRecord 10 1) [Example.recordNoCount 10]).Allocate
        Example.okWorld Example.noConfigMap () (Example.request "p" 4)).outcome = .panicked
    ∧ (resetAll (Example.nodeRecord 10 2) [Example.nodeRecord 10 1]).GetGPUCount = 1
    ∧ GoMap.keys (resetAll (Example.nodeRecord 10 2) [Example.nodeRecord 10 1]).devs = [0, 1]
    ∧ (resetAll (Example.nodeRecord 10 2) [Example.nodeRecord 10 1]).GetDevs = none := by
  decide

end NodeInfo

end XPU
